import Mathlib

/-!
# Verification of the migration-guide template generators and validators

This file gives a shallow embedding, in Lean 4, of the string-template code
generators and validators of the `migration-guide-mcp` repository
(`src/tools/templates/*`, `src/tools/package-json-validation.ts`,
`src/tools/smithery-yaml-generator.ts`, `src/tools/migration-overview.ts`,
`src/tools/dockerfile-generator.ts`), together with proofs of the testable
properties stated in the specification.

Modelling conventions:
* TypeScript strings are Lean `String`s; template literals become explicit
  `++`-concatenations, transcribed verbatim from the source.
* JavaScript objects used as ordered string-keyed records
  (`Record<string, any>`) are association lists `List (String × _)`;
  `Object.entries`/`Object.keys` iteration order is the list order,
  matching JavaScript insertion order.
* Optional / possibly-absent fields are `Option _`.  JavaScript string
  truthiness (`!x` is true for `undefined` and `""`) is modelled by
  `strTruthy`.
* Non-string JSON scalar leaves (numbers, booleans, null) are carried
  together with their JavaScript `String(x)` rendering (`JLit.jraw`),
  since the generators only ever stringify them.
* The external YAML parser is out of scope per the specification; functions
  that consume raw YAML text are parameterised by an abstract
  `parse : String → Option SmitheryYamlConfig`.

Line-level properties of generated text (presence/absence of import lines,
one-line-per-property counts, first-only registration) are stated via
`splitLines`, an executable line splitter over `List Char`.
-/

namespace MigrationGuide

/-! ## Generic string / line infrastructure -/

/-- The character list underlying a string. -/
def dat (s : String) : List Char := s.data

/-- `s` contains no newline character. -/
def NlFree (s : String) : Prop := '\n' ∉ dat s

instance (s : String) : Decidable (NlFree s) := by
  unfold NlFree; infer_instance

/-- Split a character list at newline characters.  Always returns at least
one (possibly empty) line; `n` lines are separated by `n - 1` newlines. -/
def splitLines : List Char → List (List Char)
  | [] => [[]]
  | c :: rest =>
    if c = '\n' then [] :: splitLines rest
    else
      match splitLines rest with
      | [] => [[c]]
      | l :: ls => (c :: l) :: ls

/-- Glue two line lists at the boundary, as splitting a concatenation does. -/
def glueL : List (List Char) → List (List Char) → List (List Char)
  | [], ys => ys
  | [x], [] => [x]
  | [x], y :: ys => (x ++ y) :: ys
  | x :: xs, ys => x :: glueL xs ys

/-- Boolean prefix test on character lists. -/
def isPre : List Char → List Char → Bool
  | [], _ => true
  | _ :: _, [] => false
  | c :: cs, d :: ds => c = d && isPre cs ds

/-! ## Claim C8: `sanitizeId`

Source (`templates/utils.ts`): lowercase, replace every character outside
the class `[a-z0-9]` with a dash, collapse runs of dashes (the global
regex replacement of one-or-more dashes by a single dash), then remove one
leading and one trailing dash (the anchored global replacement).
-/

/-- `String.prototype.toLowerCase` on one character (Basic Latin range,
which is all the generators rely on; `Char.toLower` maps `A`–`Z`). -/
def jsLowerChar (c : Char) : Char := c.toLower

/-- A character allowed by the `[a-z0-9]` class: code point in the range of
`a`–`z` (97–122) or `0`–`9` (48–57). -/
def idOk (c : Char) : Bool :=
  (97 ≤ c.toNat && c.toNat ≤ 122) || (48 ≤ c.toNat && c.toNat ≤ 57)

/-- The first replacement of `sanitizeId`: each character outside
`[a-z0-9]` becomes a dash. -/
def dashify (c : Char) : Char := if idOk c then c else '-'

/-- The second replacement of `sanitizeId`: collapse runs of dashes to a
single dash. -/
def collapseDashes : List Char → List Char
  | [] => []
  | '-' :: '-' :: rest => collapseDashes ('-' :: rest)
  | c :: rest => c :: collapseDashes rest

/-- Helper for the third replacement: remove a single trailing dash. -/
def dropTrailDash : List Char → List Char
  | [] => []
  | [c] => if c = '-' then [] else [c]
  | c :: rest => c :: dropTrailDash rest

/-- Helper for the third replacement: remove a single leading dash. -/
def trimLeadDash (l : List Char) : List Char :=
  match l with
  | c :: rest => if c = '-' then rest else c :: rest
  | [] => []

/-- The third replacement of `sanitizeId`: the anchored global regex
removes one leading and one trailing dash. -/
def trimDash (l : List Char) : List Char := dropTrailDash (trimLeadDash l)

/-- `sanitizeId` from `templates/utils.ts`. -/
def sanitizeId (name : String) : String :=
  ⟨trimDash (collapseDashes ((dat name).map jsLowerChar |>.map dashify))⟩

/-- No two adjacent dashes occur in the list. -/
def noDD : List Char → Bool
  | '-' :: '-' :: _ => false
  | _ :: rest => noDD rest
  | [] => true

/-! ## JavaScript value and JSON-schema-like models -/

/-- A JavaScript/JSON value as the generators consume it.  Non-string
scalars (numbers, booleans, `null`) are carried together with their
canonical rendering, which is the same for `String(x)` and
`JSON.stringify(x)` on those values. -/
inductive JVal where
  | scalarStr (s : String)
  | scalarRaw (r : String)
  | arr (items : List JVal)
  | obj (fields : List (String × JVal))

/-- A JavaScript object used as a string-keyed record, in insertion
order. -/
abbrev JObj := List (String × JVal)

/-- One property entry of a JSON-schema-like `properties` object, with the
only fields the generators ever read. -/
structure JProp where
  type : Option String := none
  default : Option JVal := none
  description : Option String := none

/-- A JSON-schema-like configuration-schema object
(`Record<string, any>` in the source).  `required` being absent is
modelled as `[]` (the source reads it as `schema.required || []`);
`extraKeys` records any further top-level keys (such as `type`) so that
`Object.keys(schema).length` emptiness is meaningful. -/
structure JSchema where
  properties : Option (List (String × JProp)) := none
  required : List String := []
  extraKeys : List String := []

/-- `Object.keys(schema).length > 0` for a `JSchema`. -/
def JSchema.keysNonempty (s : JSchema) : Bool :=
  s.properties.isSome || !s.required.isEmpty || !s.extraKeys.isEmpty

/-- JavaScript string truthiness of an optional string field: `undefined`
and `""` are falsy. -/
def strTruthy : Option String → Bool
  | none => false
  | some s => !s.isEmpty

/-- `String.prototype.toUpperCase` (Basic Latin range). -/
def jsUpper (s : String) : String := ⟨(dat s).map Char.toUpper⟩

/-- `String.prototype.toLowerCase` (Basic Latin range). -/
def jsLower (s : String) : String := ⟨(dat s).map jsLowerChar⟩

/-- A `\w` word character of a JavaScript regex: `[A-Za-z0-9_]`. -/
def isWordChar (c : Char) : Bool :=
  (65 ≤ c.toNat && c.toNat ≤ 90) || (97 ≤ c.toNat && c.toNat ≤ 122) ||
    (48 ≤ c.toNat && c.toNat ≤ 57) || c = '_'

/-- The global replacement of a word character at a word boundary by its
upper-case form: the state records whether the previous character was a
word character (no boundary there). -/
def titleCaseAux : Bool → List Char → List Char
  | _, [] => []
  | prevWord, c :: rest =>
    let w := isWordChar c
    (if w && !prevWord then c.toUpper else c) :: titleCaseAux w rest

/-- The title-case transformation the tool templates apply to a tool or
prompt name: `.replace` of every underscore by a space, then the
word-boundary upper-casing replacement. -/
def jsTitleCase (s : String) : String :=
  ⟨titleCaseAux false ((dat s).map fun c => if c = '_' then ' ' else c)⟩

/-- Hexadecimal digit for a value below 16. -/
def hexDigit (n : Nat) : Char :=
  if n < 10 then Char.ofNat (48 + n) else Char.ofNat (87 + n)

/-- JSON string escaping as `JSON.stringify` performs it on string
contents. -/
def escapeJsonChar (c : Char) : List Char :=
  if c = '"' then ['\\', '"']
  else if c = '\\' then ['\\', '\\']
  else if c = '\n' then ['\\', 'n']
  else if c = '\r' then ['\\', 'r']
  else if c = '\t' then ['\\', 't']
  else if c.toNat = 8 then ['\\', 'b']
  else if c.toNat = 12 then ['\\', 'f']
  else if c.toNat < 32 then
    ['\\', 'u', '0', '0', hexDigit (c.toNat / 16), hexDigit (c.toNat % 16)]
  else [c]

mutual

/-- `JSON.stringify` on the `JVal` model. -/
def jsonStringify : JVal → String
  | .scalarStr s => ⟨'"' :: ((dat s).flatMap escapeJsonChar) ++ ['"']⟩
  | .scalarRaw r => r
  | .arr items => "[" ++ String.intercalate "," (jsonStringifyList items) ++ "]"
  | .obj fields =>
    "\x7b" ++ String.intercalate "," (jsonStringifyFields fields) ++ "\x7d"

def jsonStringifyList : List JVal → List String
  | [] => []
  | v :: rest => jsonStringify v :: jsonStringifyList rest

def jsonStringifyFields : List (String × JVal) → List String
  | [] => []
  | (k, v) :: rest =>
    (jsonStringify (.scalarStr k) ++ ":" ++ jsonStringify v) ::
      jsonStringifyFields rest

end

/-- JavaScript `String(x)` conversion on the `JVal` model (arrays join
their elements with commas; objects print as `[object Object]`). -/
def jsToString : JVal → String
  | .scalarStr s => s
  | .scalarRaw r => r
  | .arr items => String.intercalate "," (jsToStringList items)
  | .obj _ => "[object Object]"
where
  jsToStringList : List JVal → List String
    | [] => []
    | v :: rest => jsToString v :: jsToStringList rest

/-- A run of `n` spaces. -/
def spacesN (n : Nat) : String := ⟨List.replicate n ' '⟩

mutual

/-- `formatObjectAsYaml` from `templates/utils.ts`: renders a nested
object as indented `key: value` lines; object values recurse with two
more spaces of indentation, array values render as `- item` lines, and a
non-object value at top level renders as one indented stringified line.
`Object.entries` on an array yields its index-keyed entries. -/
def formatObjectAsYaml (v : JVal) (indent : Nat) : String :=
  match v with
  | .scalarStr s => spacesN indent ++ jsonStringify (.scalarStr s) ++ "\n"
  | .scalarRaw r => spacesN indent ++ r ++ "\n"
  | .obj fields => formatYamlEntries fields indent
  | .arr items => formatYamlIdxEntries 0 items indent

def formatYamlEntry (key : String) (value : JVal) (indent : Nat) : String :=
  match value with
  | .obj fields =>
    spacesN indent ++ key ++ ":\n" ++ formatObjectAsYaml (.obj fields) (indent + 2)
  | .arr items =>
    spacesN indent ++ key ++ ":\n" ++ formatYamlArrayItems items indent
  | other => spacesN indent ++ key ++ ": " ++ jsonStringify other ++ "\n"

def formatYamlEntries (fields : List (String × JVal)) (indent : Nat) : String :=
  match fields with
  | [] => ""
  | (key, value) :: rest =>
    formatYamlEntry key value indent ++ formatYamlEntries rest indent

/-- `Object.entries` over an array yields index-keyed entries; this renders
them in order starting at index `i`. -/
def formatYamlIdxEntries (i : Nat) (items : List JVal) (indent : Nat) : String :=
  match items with
  | [] => ""
  | item :: rest =>
    formatYamlEntry (toString i) item indent ++
      formatYamlIdxEntries (i + 1) rest indent

def formatYamlArrayItems (items : List JVal) (indent : Nat) : String :=
  match items with
  | [] => ""
  | item :: rest =>
    spacesN indent ++ "  - " ++ jsonStringify item ++ "\n" ++
      formatYamlArrayItems rest indent

end

/-- The normal form reached by `sanitizeId`: only `[a-z0-9]` characters and
dashes, no adjacent dashes, and no leading or trailing dash. -/
def SanitizedGood (l : List Char) : Prop :=
  (∀ c ∈ l, idOk c = true ∨ c = '-') ∧ noDD l = true ∧
    l.head? ≠ some '-' ∧ l.getLast? ≠ some '-'

/-! ## MCP component model (`templates/utils.ts`) -/

/-- An MCP tool to be re-emitted. -/
structure McpTool where
  name : String
  description : String
  inputSchema : Option JSchema := none
  handler : Option String := none

/-- An MCP prompt to be re-emitted. -/
structure McpPrompt where
  name : String
  description : String
  argsSchema : Option JSchema := none
  template : Option String := none

/-- An MCP resource to be re-emitted. -/
structure McpResource where
  name : String
  uri : String
  description : String
  mimeType : Option String := none
  handler : Option String := none

/-- The parsed shape of a deployment descriptor's `startCommand`. -/
structure SmitheryStartCommand where
  type : Option String := none
  configSchema : Option JSchema := none
  exampleConfig : Option JObj := none
  commandFunction : Option String := none

/-- The parsed shape of a deployment descriptor (`SmitheryYamlConfig`). -/
structure SmitheryYamlConfig where
  runtime : Option String := none
  startCommand : Option SmitheryStartCommand := none
  env : Option (List (String × String)) := none

/-- An abstract YAML parser: the YAML library is out of scope, and the
source catches every parse failure and returns `null`. -/
abbrev YamlParse := String → Option SmitheryYamlConfig

/-- `parseSmitheryYaml`: delegate to the parser, `null` on failure. -/
def parseSmitheryYaml (parse : YamlParse) (yamlContent : String) :
    Option SmitheryYamlConfig := parse yamlContent

/-- `extractConfigSchemaFromSmitheryYaml`: project
`parsed?.startCommand?.configSchema`. -/
def extractConfigSchemaFromSmitheryYaml (parse : YamlParse)
    (yamlContent : String) : Option JSchema :=
  ((parseSmitheryYaml parse yamlContent).bind (·.startCommand)).bind
    (·.configSchema)

/-- `extractExampleConfigFromSmitheryYaml`: project
`parsed?.startCommand?.exampleConfig`. -/
def extractExampleConfigFromSmitheryYaml (parse : YamlParse)
    (yamlContent : String) : Option JObj :=
  ((parseSmitheryYaml parse yamlContent).bind (·.startCommand)).bind
    (·.exampleConfig)

/-- The parameter record shared by the three migration generators. -/
structure SmitheryMigrationParams where
  tools : List McpTool
  prompts : List McpPrompt
  resources : List McpResource
  serverName : String
  serverVersion : String
  includeBackwardCompatibility : Bool
  smitheryYaml : Option String := none

/-- JavaScript `x || d` for an optional string field. -/
def jsOr (x : Option String) (d : String) : String :=
  match x with
  | some s => if s.isEmpty then d else s
  | none => d

/-- The `configSchema && Object.keys(configSchema).length > 0` test the
templates use on an extracted configuration schema. -/
def cfgNonempty (c : Option JSchema) : Bool :=
  match c with
  | some s => s.keysNonempty
  | none => false

/-! ## Shared generator utilities (`templates/utils.ts`) -/

/-- The rendering of a default value in a zod builder chain: string
defaults quoted verbatim, every other value via its `String(x)`
conversion. -/
def zodDefault (d : JVal) : String :=
  match d with
  | .scalarStr s => "\"" ++ s ++ "\""
  | other => jsToString other

/-- One `key: zodBuilder,` line of `generateZodSchemaFromJson`. -/
def zodLine (required : List String) (indent : String)
    (kp : String × JProp) : String :=
  let key := kp.1
  let prop := kp.2
  let zodType :=
    if prop.type = some "string" then "z.string()"
    else if prop.type = some "number" then "z.number()"
    else if prop.type = some "integer" then "z.number().int()"
    else if prop.type = some "boolean" then "z.boolean()"
    else if prop.type = some "array" then "z.array(z.any())"
    else if prop.type = some "object" then "z.record(z.any())"
    else "z.unknown()"
  let zodType :=
    match prop.default with
    | some d => zodType ++ ".default(" ++ zodDefault d ++ ")"
    | none =>
      if required.contains key then zodType else zodType ++ ".optional()"
  let zodType :=
    match prop.description with
    | some ds =>
      zodType ++ ".describe(\"" ++ ds.replace "\"" "\\\"" ++ "\")"
    | none => zodType
  indent ++ key ++ ": " ++ zodType ++ ","

/-- The per-property lines of `generateZodSchemaFromJson`. -/
def zodLines (schema : JSchema) (indent : String) : List String :=
  (schema.properties.getD []).map (zodLine schema.required indent)

/-- `generateZodSchemaFromJson`: one `key: zodBuilder,` line per property,
in iteration order, joined by newlines. -/
def generateZodSchemaFromJson (schema : JSchema)
    (indent : String := "  ") : String :=
  String.intercalate "\n" (zodLines schema indent)

/-- One line of the environment-variable configuration parser: the
property read from `process.env.<KEY UPPERCASED>`, boolean properties
compared to the literal string `true`, numeric properties wrapped in a
parse-or-undefined expression, all other types passed through. -/
def envLine (kp : String × JProp) : String :=
  let key := kp.1
  let prop := kp.2
  let envVar := "process.env." ++ jsUpper key
  if prop.type = some "boolean" then
    "    " ++ key ++ ": " ++ envVar ++ " === \x27true\x27,"
  else if prop.type = some "number" ∨ prop.type = some "integer" then
    "    " ++ key ++ ": " ++ envVar ++ " ? Number(" ++ envVar ++
      ") : undefined,"
  else
    "    " ++ key ++ ": " ++ envVar ++ ","

/-- `generateEnvConfigParsing`: environment-variable configuration parsing
code, one line per schema property. -/
def generateEnvConfigParsing (configSchema : Option JSchema) : String :=
  match configSchema with
  | none => "const config = \x7b\x7d;"
  | some cfg =>
    match cfg.properties with
    | none => "const config = \x7b\x7d;"
    | some props =>
      "const config = configSchema.parse(\x7b\n" ++
        String.intercalate "\n" (props.map envLine) ++ "\n  \x7d);"

/-- The fully-registered resource block for the first resource, HTTPS
variant (live fetch) or placeholder variant. -/
def resourceFirstBlock (r : McpResource) : String :=
  let mimeType := jsOr r.mimeType "text/plain"
  if r.uri.startsWith "https://" then
    "  // Resource: " ++ r.name ++ "\n  server.registerResource(\n    \"" ++
      sanitizeId r.name ++ "\",\n    \"" ++ r.uri ++
      "\",\n    \x7b\n      title: \"" ++ r.name ++
      "\",\n      description: \"" ++ r.description ++
      "\",\n      mimeType: \"" ++ mimeType ++
      "\"\n    \x7d,\n    async (uri) => \x7b\n      try \x7b\n        const response = await fetch(uri.href);\n        if (!response.ok) \x7b\n          throw new Error(`Failed to fetch resource: $\x7bresponse.status\x7d`);\n        \x7d\n        const content = await response.text();\n        return \x7b\n          contents: [\x7b\n            uri: uri.href,\n            mimeType: \"" ++
      mimeType ++
      "\",\n            text: content\n          \x7d]\n        \x7d;\n      \x7d catch (error) \x7b\n        throw new Error(`Failed to read resource $\x7buri.href\x7d: $\x7berror instanceof Error ? error.message : String(error)\x7d`);\n      \x7d\n    \x7d\n  );"
  else
    "  // Resource: " ++ r.name ++ "\n  server.registerResource(\n    \"" ++
      sanitizeId r.name ++ "\",\n    \"" ++ r.uri ++
      "\",\n    \x7b\n      title: \"" ++ r.name ++
      "\",\n      description: \"" ++ r.description ++
      "\",\n      mimeType: \"" ++ mimeType ++
      "\"\n    \x7d,\n    async (uri) => \x7b\n      // TODO: Implement resource handler for " ++
      r.name ++
      "\n      return \x7b\n        contents: [\x7b\n          uri: uri.href,\n          mimeType: \"" ++
      mimeType ++
      "\",\n          text: \"Resource content here\"\n        \x7d]\n      \x7d;\n    \x7d\n  );"

/-- `generateResourcesCode` from `templates/utils.ts` (shared by the two
TypeScript generators): first resource fully registered, remaining
resources as TODO comment lines. -/
def generateResourcesCode (resources : List McpResource) : String :=
  match resources with
  | [] => "  // No resources to register"
  | firstResource :: rest =>
    let resourcesCode := resourceFirstBlock firstResource
    let resourcesCode :=
      if rest.length + 1 > 1 then
        resourcesCode ++ "\n\n  // Additional resources to implement:\n" ++
          String.intercalate "\n" (rest.map fun resource =>
            "  // TODO: Register resource \"" ++ resource.name ++ "\" - " ++
              resource.description ++ " (" ++ resource.uri ++ ")")
      else resourcesCode
    "  // Register resources\n" ++ resourcesCode

/-- `generatePromptsCode` from `templates/utils.ts`: first prompt fully
registered, remaining prompts as TODO comment lines. -/
def generatePromptsCode (prompts : List McpPrompt) : String :=
  match prompts with
  | [] => "  // No prompts to register"
  | firstPrompt :: rest =>
    let argsSchemaString :=
      match firstPrompt.argsSchema with
      | some s =>
        "      argsSchema: \x7b\n" ++
          generateZodSchemaFromJson s "        " ++ "\n      \x7d"
      | none => "      argsSchema: \x7b\x7d"
    let promptsCode :=
      "  // Prompt: " ++ firstPrompt.name ++
        "\n  server.registerPrompt(\n    \"" ++ firstPrompt.name ++
        "\",\n    \x7b\n      title: \"" ++ jsTitleCase firstPrompt.name ++
        "\",\n      description: \"" ++ firstPrompt.description ++ "\",\n" ++
        argsSchemaString ++
        "\n    \x7d,\n    async (args) => \x7b\n      // TODO: Implement prompt handler for " ++
        firstPrompt.name ++
        "\n      return \x7b\n        messages: [\n          \x7b\n            role: \"user\",\n            content: \x7b\n              type: \"text\",\n              text: \"" ++
        jsOr firstPrompt.template "Prompt template here" ++
        "\"\n            \x7d\n          \x7d\n        ]\n      \x7d;\n    \x7d\n  );"
    let promptsCode :=
      if rest.length + 1 > 1 then
        promptsCode ++ "\n\n  // Additional prompts to implement:\n" ++
          String.intercalate "\n" (rest.map fun prompt =>
            "  // TODO: Register prompt \"" ++ prompt.name ++ "\" - " ++
              prompt.description)
      else promptsCode
    "  // Register prompts\n" ++ promptsCode

/-- `generateServerReturn` (shared). -/
def generateServerReturn : String := "  return server.server;"

/-! ## CLI-managed TypeScript generator (`smithery-cli-template.ts`) -/

/-- `generateImports`: SDK and zod imports, plus the stdio transport import
when backward compatibility is requested. -/
def generateImports (includeBackwardCompatibility : Bool := false) : String :=
  let imports :=
    "import \x7b McpServer \x7d from \"@modelcontextprotocol/sdk/server/mcp.js\";\nimport \x7b z \x7d from \"zod\";"
  if includeBackwardCompatibility then
    imports ++
      "\nimport \x7b StdioServerTransport \x7d from \"@modelcontextprotocol/sdk/server/stdio.js\";"
  else imports

/-- `generateConfigSchema`: the exported zod configuration schema, built
from the extracted JSON schema when one with keys is present. -/
def generateConfigSchema (actualConfigSchema : Option JSchema) : String :=
  match actualConfigSchema with
  | some s =>
    if s.keysNonempty then
      "// Configuration schema extracted from your existing server\nexport const configSchema = z.object(\x7b\n" ++
        generateZodSchemaFromJson s ++ "\n\x7d);"
    else
      "// Configuration schema for smithery.yaml\nexport const configSchema = z.object(\x7b\x7d);"
  | none =>
    "// Configuration schema for smithery.yaml\nexport const configSchema = z.object(\x7b\x7d);"

/-- `generateServerCreation`: the `new McpServer` construction. -/
def generateServerCreation (serverName serverVersion : String) : String :=
  "  const server = new McpServer(\x7b\n    name: \"" ++ serverName ++
    "\",\n    version: \"" ++ serverVersion ++ "\",\n  \x7d);"

/-- The fully-registered tool block the CLI generator emits for the first
tool. -/
def cliToolBlock (firstTool : McpTool) (hasConfig : Bool) : String :=
  let inputSchemaString :=
    match firstTool.inputSchema with
    | some s =>
      "      inputSchema: \x7b\n" ++
        generateZodSchemaFromJson s "        " ++ "\n      \x7d"
    | none => "      inputSchema: \x7b\x7d"
  let configComment :=
    if hasConfig then
      "\n      // TODO: Use the config parameter for API calls, timeout settings, etc."
    else ""
  let configLog :=
    if hasConfig then "\n      console.log(\x27Available config:\x27, config);"
    else ""
  "  // Tool: " ++ firstTool.name ++ "\n  server.registerTool(\n    \"" ++
    firstTool.name ++ "\",\n    \x7b\n      title: \"" ++
    jsTitleCase firstTool.name ++ "\",\n      description: \"" ++
    firstTool.description ++ "\",\n" ++ inputSchemaString ++
    "\n    \x7d,\n    async (request) => \x7b\n      // TODO: Implement tool handler for " ++
    firstTool.name ++ configComment ++ "\n      console.log(\x27Tool " ++
    firstTool.name ++ " called with args:\x27, request);" ++ configLog ++
    "\n      return \x7b\n        content: [\x7b\n          type: \"text\" as const,\n          text: \"Tool " ++
    firstTool.name ++
    " executed successfully\"\n        \x7d]\n      \x7d;\n    \x7d\n  );"

/-- `generateToolsCode` of the CLI generator: the first tool is registered
fully and every remaining tool becomes one TODO comment line. -/
def generateToolsCode (tools : List McpTool) (hasConfig : Bool := false) :
    String :=
  match tools with
  | [] => "  // No tools to register"
  | firstTool :: rest =>
    let toolsCode := cliToolBlock firstTool hasConfig
    let toolsCode :=
      if rest.length + 1 > 1 then
        toolsCode ++ "\n\n  // Additional tools to implement:\n" ++
          String.intercalate "\n" (rest.map fun tool =>
            "  // TODO: Register tool \"" ++ tool.name ++ "\" - " ++
              tool.description)
      else toolsCode
    "  // Register tools\n" ++ toolsCode

/-- `generateBackwardsCompatibilityCode`: the stdio bootstrap appended when
backward compatibility is requested.  (The source computes the same
`createServer` call text in both the has-config and no-config branches.) -/
def generateBackwardsCompatibilityCode (configSchema : Option JSchema) :
    String :=
  let configParsing := generateEnvConfigParsing configSchema
  let hasConfig := cfgNonempty configSchema
  let serverCall :=
    if hasConfig then "const server = createServer(\x7b\n    config\n  \x7d);"
    else "const server = createServer(\x7b\n    config\n  \x7d);"
  "\n\n// STDIO backwards compatibility - only runs when executed directly\nasync function main() \x7b\n  // Get configuration from environment variables\n  " ++
    configParsing ++
    "\n  \n  // Create server with configuration\n  " ++ serverCall ++
    "\n\n  const transport = new StdioServerTransport();\n  await server.connect(transport);\n  console.error(\"MCP Server running in stdio mode\");\n\x7d\n\n// By default run the server with stdio transport\nmain().catch((error) => \x7b\n  console.error(\"Server error:\", error);\n  process.exit(1);\n\x7d);"

/-- The parameters of `generateIndexTsTemplate` /
`generateCustomContainerTemplate` / `generatePythonTemplate`. -/
structure TemplateParams where
  tools : List McpTool
  prompts : List McpPrompt
  resources : List McpResource
  serverName : String
  serverVersion : String
  includeBackwardCompatibility : Bool
  configSchema : Option JSchema := none

/-- `generateIndexTsTemplate`: the complete CLI-managed TypeScript source
file. -/
def generateIndexTsTemplate (params : TemplateParams) : String :=
  let imports := generateImports params.includeBackwardCompatibility
  let configSchemaCode :=
    if cfgNonempty params.configSchema then
      generateConfigSchema params.configSchema
    else ""
  let serverCreation :=
    generateServerCreation params.serverName params.serverVersion
  let resourcesCode := generateResourcesCode params.resources
  let toolsCode := generateToolsCode params.tools (cfgNonempty params.configSchema)
  let promptsCode := generatePromptsCode params.prompts
  let serverReturn := generateServerReturn
  let backwardsCompatibilityCode :=
    if params.includeBackwardCompatibility then
      generateBackwardsCompatibilityCode params.configSchema
    else ""
  imports ++ "\n" ++
    (if !configSchemaCode.isEmpty then "\n" ++ configSchemaCode ++ "\n"
     else
      "\n// Configuration schema for smithery.yaml\nexport const configSchema = z.object(\x7b\x7d);\n") ++
    "\nexport default function createServer(\x7b\n  config,\n\x7d: \x7b\n  config: z.infer<typeof configSchema>;\n\x7d) \x7b\n" ++
    serverCreation ++ "\n\n" ++ resourcesCode ++ "\n\n" ++ toolsCode ++
    "\n\n" ++ promptsCode ++ "\n\n" ++ serverReturn ++ "\n\x7d" ++
    backwardsCompatibilityCode ++ "\n"

/-- `generateSmitheryCliMigration`: extract the configuration schema from
the optional deployment descriptor text and render the CLI template. -/
def generateSmitheryCliMigration (parse : YamlParse)
    (params : SmitheryMigrationParams) : String :=
  let extractedConfigSchema :=
    match params.smitheryYaml with
    | some y =>
      if y.isEmpty then none else extractConfigSchemaFromSmitheryYaml parse y
    | none => none
  generateIndexTsTemplate
    { tools := params.tools
      prompts := params.prompts
      resources := params.resources
      serverName := params.serverName
      serverVersion := params.serverVersion
      includeBackwardCompatibility := params.includeBackwardCompatibility
      configSchema := extractedConfigSchema }

/-! ## Custom-container TypeScript generator (`custom-container-template.ts`) -/

/-- `generateCustomContainerImports`: express/cors/SDK/zod imports plus the
stdio transport import when backward compatibility is requested. -/
def generateCustomContainerImports (includeBackwardCompatibility : Bool := false) :
    String :=
  let imports :=
    "import express, \x7b Request, Response \x7d from \"express\";\nimport cors from \"cors\";\nimport \x7b McpServer \x7d from \"@modelcontextprotocol/sdk/server/mcp.js\";\nimport \x7b StreamableHTTPServerTransport \x7d from \"@modelcontextprotocol/sdk/server/streamableHttp.js\";\nimport \x7b z \x7d from \"zod\";"
  if includeBackwardCompatibility then
    imports ++
      "\nimport \x7b StdioServerTransport \x7d from \"@modelcontextprotocol/sdk/server/stdio.js\";"
  else imports

/-- `generateExpressSetup`: the fixed express application setup. -/
def generateExpressSetup : String :=
  "const app = express();\nconst PORT = process.env.PORT || 8081;\n\n// CORS configuration for browser-based MCP clients\napp.use(cors(\x7b\n  origin: \x27*\x27, // Configure appropriately for production\n  exposedHeaders: [\x27Mcp-Session-Id\x27, \x27mcp-protocol-version\x27],\n  allowedHeaders: [\x27Content-Type\x27, \x27mcp-session-id\x27],\n\x7d));\n\napp.use(express.json());"

/-- `generateCustomContainerConfigSchema`: the exported zod configuration
schema of the custom-container template. -/
def generateCustomContainerConfigSchema (actualConfigSchema : Option JSchema) :
    String :=
  match actualConfigSchema with
  | some s =>
    if s.keysNonempty then
      "// Configuration schema extracted from your existing server\nexport const configSchema = z.object(\x7b\n" ++
        generateZodSchemaFromJson s ++ "\n\x7d);"
    else
      "// Configuration schema for custom container\nexport const configSchema = z.object(\x7b\x7d);"
  | none =>
    "// Configuration schema for custom container\nexport const configSchema = z.object(\x7b\x7d);"

/-- `generateConfigFunctions` of the custom-container template: the
query-parameter configuration parser. -/
def ccConfigFunctions : String :=
  "// Parse configuration from query parameters\nfunction parseConfig(req: Request) \x7b\n  const configParam = req.query.config as string;\n  if (configParam) \x7b\n    return JSON.parse(Buffer.from(configParam, \x27base64\x27).toString());\n  \x7d\n  return \x7b\x7d;\n\x7d"

/-- `generateCustomContainerServerCreation`. -/
def generateCustomContainerServerCreation (serverName serverVersion : String) :
    String :=
  "  const server = new McpServer(\x7b\n    name: \"" ++ serverName ++
    "\",\n    version: \"" ++ serverVersion ++ "\",\n  \x7d);"

/-- The registration block the custom-container generator emits for one
tool. -/
def ccToolBlock (tool : McpTool) (hasConfig : Bool) : String :=
  let configComment :=
    if hasConfig then
      "\n      // TODO: Use the config parameter for API calls, timeout settings, etc."
    else ""
  let configLog :=
    if hasConfig then "\n      console.log(\x27Available config:\x27, config);"
    else ""
  let inputSchemaString :=
    match tool.inputSchema with
    | some s =>
      "      inputSchema: \x7b\n" ++
        generateZodSchemaFromJson s "        " ++ "\n      \x7d"
    | none => "      inputSchema: \x7b\x7d"
  "  // Tool: " ++ tool.name ++ "\n  server.registerTool(\n    \"" ++
    tool.name ++ "\",\n    \x7b\n      title: \"" ++ jsTitleCase tool.name ++
    "\",\n      description: \"" ++ tool.description ++ "\",\n" ++
    inputSchemaString ++
    "\n    \x7d,\n    async (params) => \x7b\n      // TODO: Implement tool handler for " ++
    tool.name ++ configComment ++ "\n      console.log(\x27Tool " ++ tool.name ++
    " called with params:\x27, params);" ++ configLog ++
    "\n      return \x7b\n        content: [\x7b\n          type: \"text\",\n          text: \"Tool " ++
    tool.name ++
    " executed successfully\"\n        \x7d]\n      \x7d;\n    \x7d\n  );"

/-- `generateCustomContainerToolsCode`: every tool in the list is mapped to
a full registration block, joined by blank lines. -/
def generateCustomContainerToolsCode (tools : List McpTool)
    (hasConfig : Bool := false) : String :=
  match tools with
  | [] => "  // No tools to register"
  | _ =>
    "  // Register tools\n" ++
      String.intercalate "\n\n" (tools.map fun tool => ccToolBlock tool hasConfig)

/-- `generateMcpRequestHandler`: the catch-all express route handling MCP
requests, parsing per-request configuration when a schema exists. -/
def generateMcpRequestHandler (hasConfig : Bool) : String :=
  if hasConfig then
    "// Handle MCP requests at /mcp endpoint\napp.all(\x27/mcp\x27, async (req: Request, res: Response) => \x7b\n  try \x7b\n    // Parse configuration\n    const rawConfig = parseConfig(req);\n    \n    // Validate and parse configuration\n    const config = configSchema.parse(rawConfig);\n    \n    const server = createServer(\x7b config \x7d);\n    const transport = new StreamableHTTPServerTransport(\x7b\n      sessionIdGenerator: undefined,\n    \x7d);\n\n    // Clean up on request close\n    res.on(\x27close\x27, () => \x7b\n      transport.close();\n      server.close();\n    \x7d);\n\n    await server.connect(transport);\n    await transport.handleRequest(req, res, req.body);\n  \x7d catch (error) \x7b\n    console.error(\x27Error handling MCP request:\x27, error);\n    if (!res.headersSent) \x7b\n      res.status(500).json(\x7b\n        jsonrpc: \x272.0\x27,\n        error: \x7b code: -32603, message: \x27Internal server error\x27 \x7d,\n        id: null,\n      \x7d);\n    \x7d\n  \x7d\n\x7d);"
  else
    "// Handle MCP requests at /mcp endpoint\napp.all(\x27/mcp\x27, async (req: Request, res: Response) => \x7b\n  try \x7b\n    const server = createServer();\n    const transport = new StreamableHTTPServerTransport(\x7b\n      sessionIdGenerator: undefined,\n    \x7d);\n\n    // Clean up on request close\n    res.on(\x27close\x27, () => \x7b\n      transport.close();\n      server.close();\n    \x7d);\n\n    await server.connect(transport);\n    await transport.handleRequest(req, res, req.body);\n  \x7d catch (error) \x7b\n    console.error(\x27Error handling MCP request:\x27, error);\n    if (!res.headersSent) \x7b\n      res.status(500).json(\x7b\n        jsonrpc: \x272.0\x27,\n        error: \x7b code: -32603, message: \x27Internal server error\x27 \x7d,\n        id: null,\n      \x7d);\n    \x7d\n  \x7d\n\x7d);"

/-- `generateCustomContainerMainFunction`: pure HTTP startup without
backward compatibility; with it, an environment-selected dual-mode
startup falling back to the stdio transport. -/
def generateCustomContainerMainFunction (includeBackwardCompatibility : Bool)
    (hasConfig : Bool) (configSchema : Option JSchema) : String :=
  if !includeBackwardCompatibility then
    "\n// Main function to start the HTTP server\nasync function main() \x7b\n  app.listen(PORT, () => \x7b\n    console.log(`MCP HTTP Server listening on port $\x7bPORT\x7d`);\n  \x7d);\n\x7d\n\n// Start the server\nmain().catch((error) => \x7b\n  console.error(\"Server error:\", error);\n  process.exit(1);\n\x7d);"
  else
    let mainFunction :=
      "// Main function to start the server in the appropriate mode\nasync function main() \x7b\n  const transport = process.env.TRANSPORT || \x27stdio\x27;\n  \n  if (transport === \x27http\x27) \x7b\n    // Run in HTTP mode\n    app.listen(PORT, () => \x7b\n      console.log(`MCP HTTP Server listening on port $\x7bPORT\x7d`);\n    \x7d);\n  \x7d"
    let mainFunction :=
      if includeBackwardCompatibility then
        if hasConfig then
          let configParsing := generateEnvConfigParsing configSchema
          mainFunction ++
            " else \x7b\n    // Optional: if you need backward compatibility, add stdio transport\n    // Parse config from environment variables\n    " ++
            configParsing ++
            "\n\n    // Create server with configuration\n    const server = createServer(\x7b config \x7d);\n\n    // Start receiving messages on stdin and sending messages on stdout\n    const stdioTransport = new StdioServerTransport();\n    await server.connect(stdioTransport);\n    console.error(\"MCP Server running in stdio mode\");\n  \x7d"
        else
          mainFunction ++
            " else \x7b\n    // Optional: if you need backward compatibility, add stdio transport\n    const server = createServer();\n\n    // Start receiving messages on stdin and sending messages on stdout\n    const stdioTransport = new StdioServerTransport();\n    await server.connect(stdioTransport);\n    console.error(\"MCP Server running in stdio mode\");\n  \x7d"
      else
        mainFunction ++
          " else \x7b\n    console.error(\"STDIO mode not enabled. Set TRANSPORT=http to run in HTTP mode.\");\n    process.exit(1);\n  \x7d"
    mainFunction ++
      "\n\x7d\n\n// Start the server\nmain().catch((error) => \x7b\n  console.error(\"Server error:\", error);\n  process.exit(1);\n\x7d);"

/-- `generateCustomContainerTemplate`: the complete custom-container
TypeScript source file. -/
def generateCustomContainerTemplate (params : TemplateParams) : String :=
  let imports :=
    generateCustomContainerImports params.includeBackwardCompatibility
  let expressSetup := generateExpressSetup
  let configSchemaCode :=
    if cfgNonempty params.configSchema then
      generateCustomContainerConfigSchema params.configSchema
    else ""
  let configFunctions := ccConfigFunctions
  let serverCreation :=
    generateCustomContainerServerCreation params.serverName params.serverVersion
  let resourcesCode := generateResourcesCode params.resources
  let toolsCode :=
    generateCustomContainerToolsCode params.tools (cfgNonempty params.configSchema)
  let promptsCode := generatePromptsCode params.prompts
  let serverReturn := generateServerReturn
  let mcpHandler := generateMcpRequestHandler (!configSchemaCode.isEmpty)
  let mainFunction :=
    generateCustomContainerMainFunction params.includeBackwardCompatibility
      (!configSchemaCode.isEmpty) params.configSchema
  imports ++ "\n\n" ++ expressSetup ++ "\n" ++
    (if !configSchemaCode.isEmpty then "\n" ++ configSchemaCode ++ "\n"
     else "") ++ "\n" ++
    (if !configSchemaCode.isEmpty then configFunctions else "") ++
    "\n\nexport default function createServer(" ++
    (if !configSchemaCode.isEmpty then
      "\x7b\n  config,\n\x7d: \x7b\n  config: z.infer<typeof configSchema>;\n\x7d"
     else "") ++
    ") \x7b\n" ++ serverCreation ++ "\n\n" ++ resourcesCode ++ "\n\n" ++
    toolsCode ++ "\n\n" ++ promptsCode ++ "\n\n" ++ serverReturn ++
    "\n\x7d\n\n" ++ mcpHandler ++ "\n\n" ++ mainFunction ++ "\n"

/-- `generateCustomContainerMigration`: extract the configuration schema
from the optional descriptor text and render the custom-container
template. -/
def generateCustomContainerMigration (parse : YamlParse)
    (params : SmitheryMigrationParams) : String :=
  let extractedConfigSchema :=
    match params.smitheryYaml with
    | some y =>
      if y.isEmpty then none else extractConfigSchemaFromSmitheryYaml parse y
    | none => none
  generateCustomContainerTemplate
    { tools := params.tools
      prompts := params.prompts
      resources := params.resources
      serverName := params.serverName
      serverVersion := params.serverVersion
      includeBackwardCompatibility := params.includeBackwardCompatibility
      configSchema := extractedConfigSchema }

/-! ## Python custom-container generator (`python-custom-container-template.ts`) -/

/-- An upper-case Basic Latin letter, the `[A-Z]` class of the snake-case
conversions. -/
def isUpperAZ (c : Char) : Bool := 65 ≤ c.toNat && c.toNat ≤ 90

/-- The snake-case helper of the Python generator: insert an underscore
before every upper-case letter (the `_$1` global replacement). -/
def insertUscore (s : String) : String :=
  ⟨(dat s).foldr (fun c acc => (if isUpperAZ c then ['_', c] else [c]) ++ acc) []⟩

/-- The global single-character replacement of `-` by `_` applied to
sanitized identifiers in the python templates. -/
def dashToUscore (s : String) : String :=
  ⟨(dat s).map fun c => if c = '-' then '_' else c⟩

/-- `prop.replace` to snake case followed by `toLowerCase`. -/
def pySnakeLower (s : String) : String := jsLower (insertUscore s)

/-- `prop.replace` to snake case followed by `toUpperCase`. -/
def pySnakeUpper (s : String) : String := jsUpper (insertUscore s)

/-- `generatePythonImports`. -/
def generatePythonImports (includeBackwardCompatibility : Bool) : String :=
  let imports :=
    "# src/main.py\nimport os\nimport uvicorn\nfrom mcp.server.fastmcp import FastMCP\nfrom starlette.middleware.cors import CORSMiddleware\nfrom typing import Optional"
  if includeBackwardCompatibility then imports ++ "\nimport contextvars"
  else imports

/-- `generateServerInit`. -/
def generateServerInit (serverName : String) : String :=
  "# Initialize MCP server\nmcp = FastMCP(name=\"" ++ serverName ++ "\")"

/-- `generateConfigFunctions` of the Python template: the request-scoped
configuration accessors. -/
def pyConfigFunctions : String :=
  "def get_request_config() -> dict:\n    \"\"\"Get full config from current request context.\"\"\"\n    try:\n        # Access the current request context from FastMCP\n        import contextvars\n        \n        # Try to get from request context if available\n        request = contextvars.copy_context().get(\x27request\x27)\n        if hasattr(request, \x27scope\x27) and request.scope:\n            return request.scope.get(\x27smithery_config\x27, \x7b\x7d)\n    except:\n        pass\n    return \x7b\x7d\n\ndef get_config_value(key: str, default=None):\n    \"\"\"Get a specific config value from current request.\"\"\"\n    config = get_request_config()\n    return config.get(key, default)"

/-- The default-value rendering of the Python generator: string defaults
quoted, any other value interpolated via its string conversion, `None`
when absent. -/
def pyDefaultValue (d : Option JVal) : String :=
  match d with
  | some (.scalarStr s) => "\"" ++ s ++ "\""
  | some other => jsToString other
  | none => "None"

/-- The per-tool configuration-access code block of the Python generator. -/
def pyConfigAccessCode (configSchema : Option JSchema) : String :=
  match configSchema with
  | some cfg =>
    match cfg.properties with
    | some props =>
      let httpConfigCode := String.intercalate "\n" (props.map fun kp =>
        "    " ++ pySnakeLower kp.1 ++ " = get_config_value(\"" ++ kp.1 ++
          "\", " ++ pyDefaultValue kp.2.default ++ ")")
      let envVarCode := String.intercalate "\n" (props.map fun kp =>
        "    # " ++ pySnakeLower kp.1 ++ " = os.getenv(\"" ++
          pySnakeUpper kp.1 ++ "\", " ++ pyDefaultValue kp.2.default ++ ")")
      if !httpConfigCode.isEmpty then
        "    # Get config values (HTTP mode uses request context, stdio mode uses environment variables)\n" ++
          httpConfigCode ++ "\n" ++ envVarCode ++
          "\n    \n    # TODO: Add your validation logic here using the config values\n    "
      else ""
    | none =>
      "    # Get config values (HTTP mode uses request context, stdio mode uses environment variables)\n    # No config schema provided - add your config access here if needed\n    "
  | none =>
    "    # Get config values (HTTP mode uses request context, stdio mode uses environment variables)\n    # No config schema provided - add your config access here if needed\n    "

/-- The registration block the Python generator emits for one tool: a
decorated handler function. -/
def pyToolBlock (tool : McpTool) (configSchema : Option JSchema) : String :=
  let functionName := dashToUscore (sanitizeId tool.name)
  "# Tool: " ++ tool.name ++ "\n@mcp.tool()\ndef " ++ functionName ++
    "() -> str:\n    \"\"\"" ++ tool.description ++ "\"\"\"\n" ++
    pyConfigAccessCode configSchema ++
    "\n    # TODO: Implement tool logic for " ++ tool.name ++
    "\n    return f\"Tool " ++ tool.name ++ " executed successfully\""

/-- `generatePythonToolsCode`: every tool becomes a decorated handler. -/
def generatePythonToolsCode (tools : List McpTool)
    (configSchema : Option JSchema := none) : String :=
  match tools with
  | [] => "# No tools to register"
  | _ =>
    "# Register tools\n" ++
      String.intercalate "\n\n" (tools.map fun tool =>
        pyToolBlock tool configSchema)

/-- `generatePythonPromptsCode`: every prompt becomes a decorated
handler. -/
def generatePythonPromptsCode (prompts : List McpPrompt) : String :=
  match prompts with
  | [] => "# No prompts to register"
  | _ =>
    "# Register prompts\n" ++
      String.intercalate "\n\n" (prompts.map fun prompt =>
        let functionName := dashToUscore (sanitizeId prompt.name)
        "# Prompt: " ++ prompt.name ++ "\n@mcp.prompt()\ndef " ++
          functionName ++ "() -> str:\n    \"\"\"" ++ prompt.description ++
          "\"\"\"\n    # TODO: Implement prompt logic for " ++ prompt.name ++
          "\n    return \"" ++ jsOr prompt.template "Prompt template here" ++
          "\"")

/-- `generatePythonResourcesCode`: every resource becomes a decorated
handler, fetching live for `https://` URIs. -/
def generatePythonResourcesCode (resources : List McpResource) : String :=
  match resources with
  | [] => "# No resources to register"
  | _ =>
    "# Register resources\n" ++
      String.intercalate "\n\n" (resources.map fun resource =>
        let functionName := dashToUscore (sanitizeId resource.name)
        if resource.uri.startsWith "https://" then
          "# Resource: " ++ resource.name ++ "\n@mcp.resource(\"" ++
            resource.uri ++ "\")\ndef " ++ functionName ++
            "() -> str:\n    \"\"\"" ++ resource.description ++
            "\"\"\"\n    import requests\n    try:\n        response = requests.get(\"" ++
            resource.uri ++
            "\")\n        response.raise_for_status()\n        return response.text\n    except requests.RequestException as e:\n        raise ValueError(f\"Failed to fetch resource " ++
            resource.uri ++ ": \x7bstr(e)\x7d\")"
        else
          "# Resource: " ++ resource.name ++ "\n@mcp.resource(\"" ++
            resource.uri ++ "\")\ndef " ++ functionName ++
            "() -> str:\n    \"\"\"" ++ resource.description ++
            "\"\"\"\n    # TODO: Implement resource handler for " ++
            resource.uri ++ "\n    return \"Resource content here\"")

/-- `generatePythonMainFunction`: dual-mode startup with backward
compatibility, HTTP-only startup without it. -/
def generatePythonMainFunction (includeBackwardCompatibility : Bool)
    (hasConfig : Bool := false) : String :=
  if includeBackwardCompatibility then
    "def main():\n    transport_mode = os.getenv(\"TRANSPORT\", \"stdio\")\n    \n    if transport_mode == \"http\":\n        # HTTP mode with config extraction from URL parameters\n        print(\"MCP Server starting in HTTP mode...\")\n        \n        # Setup Starlette app with CORS for cross-origin requests\n        app = mcp.streamable_http_app()\n        \n        # IMPORTANT: add CORS middleware for browser based clients\n        app.add_middleware(\n            CORSMiddleware,\n            allow_origins=[\"*\"],\n            allow_credentials=True,\n            allow_methods=[\"GET\", \"POST\", \"OPTIONS\"],\n            allow_headers=[\"*\"],\n            expose_headers=[\"mcp-session-id\", \"mcp-protocol-version\"],\n            max_age=86400,\n        )\n\n        " ++
      (if hasConfig then
        "# Apply custom middleware for config extraction (per-request API key handling)\n        app = SmitheryConfigMiddleware(app)\n\n        "
       else "") ++
      "# Use Smithery-required PORT environment variable\n        port = int(os.environ.get(\"PORT\", 8081))\n        print(f\"Listening on port \x7bport\x7d\")\n\n        uvicorn.run(app, host=\"0.0.0.0\", port=port, log_level=\"debug\")\n    else:\n        # Optional: add stdio transport for backwards compatibility\n        # You can publish this to uv for users to run locally\n        print(\"MCP Server starting in stdio mode...\")\n        \n        # In stdio mode, config comes from environment variables\n        # Tools will read directly from environment using os.getenv() as needed\n        \n        # Run with stdio transport (default)\n        mcp.run()\n\nif __name__ == \"__main__\":\n    main()"
  else
    "def main():\n    # HTTP mode for Smithery deployment\n    print(\"MCP Server starting in HTTP mode...\")\n    \n    # Setup Starlette app with CORS for cross-origin requests\n    app = mcp.streamable_http_app()\n    \n    # IMPORTANT: add CORS middleware for browser based clients\n    app.add_middleware(\n        CORSMiddleware,\n        allow_origins=[\"*\"],\n        allow_credentials=True,\n        allow_methods=[\"GET\", \"POST\", \"OPTIONS\"],\n        allow_headers=[\"*\"],\n        expose_headers=[\"mcp-session-id\", \"mcp-protocol-version\"],\n        max_age=86400,\n    )\n\n    " ++
      (if hasConfig then
        "# Apply custom middleware for config extraction (per-request API key handling)\n    app = SmitheryConfigMiddleware(app)\n\n    "
       else "") ++
      "# Use Smithery-required PORT environment variable\n    port = int(os.environ.get(\"PORT\", 8081))\n    print(f\"Listening on port \x7bport\x7d\")\n\n    uvicorn.run(app, host=\"0.0.0.0\", port=port, log_level=\"debug\")\n\nif __name__ == \"__main__\":\n    main()"

/-- `generateMiddleware` of the Python template: the companion
configuration-injecting middleware module. -/
def pyMiddleware : String :=
  "# src/middleware.py - Custom middleware for Smithery configuration\nimport json\nimport base64\nfrom urllib.parse import parse_qs, unquote\n\nclass SmitheryConfigMiddleware:\n    def __init__(self, app):\n        self.app = app\n\n    async def __call__(self, scope, receive, send):\n        if scope.get(\x27type\x27) == \x27http\x27:\n            query = scope.get(\x27query_string\x27, b\x27\x27).decode()\n            \n            if \x27config=\x27 in query:\n                try:\n                    config_b64 = unquote(parse_qs(query)[\x27config\x27][0])\n                    config = json.loads(base64.b64decode(config_b64))\n                    \n                    # Inject full config into request scope for per-request access\n                    scope[\x27smithery_config\x27] = config\n                except Exception as e:\n                    print(f\"SmitheryConfigMiddleware: Error parsing config: \x7be\x7d\")\n                    scope[\x27smithery_config\x27] = \x7b\x7d\n            else:\n                scope[\x27smithery_config\x27] = \x7b\x7d\n        \n        await self.app(scope, receive, send)"

/-- `generatePythonTemplate`: the complete Python source file. -/
def generatePythonTemplate (params : TemplateParams) : String :=
  let imports := generatePythonImports params.includeBackwardCompatibility
  let serverInit := generateServerInit params.serverName
  let configFunctions :=
    if cfgNonempty params.configSchema then pyConfigFunctions else ""
  let middleware :=
    if cfgNonempty params.configSchema then pyMiddleware else ""
  let toolsCode := generatePythonToolsCode params.tools params.configSchema
  let promptsCode := generatePythonPromptsCode params.prompts
  let resourcesCode := generatePythonResourcesCode params.resources
  let mainFunction :=
    generatePythonMainFunction params.includeBackwardCompatibility
      (cfgNonempty params.configSchema)
  imports ++ "\n\n" ++ serverInit ++ "\n" ++
    (if !configFunctions.isEmpty then "\n" ++ configFunctions ++ "\n"
     else "") ++ "\n" ++
    toolsCode ++ "\n\n" ++ promptsCode ++ "\n\n" ++ resourcesCode ++
    "\n\n" ++ mainFunction ++ "\n" ++
    (if !middleware.isEmpty then "\n" ++ middleware else "") ++ "\n"

/-- `generatePythonCustomContainerMigration`. -/
def generatePythonCustomContainerMigration (parse : YamlParse)
    (params : SmitheryMigrationParams) : String :=
  let extractedConfigSchema :=
    match params.smitheryYaml with
    | some y =>
      if y.isEmpty then none else extractConfigSchemaFromSmitheryYaml parse y
    | none => none
  generatePythonTemplate
    { tools := params.tools
      prompts := params.prompts
      resources := params.resources
      serverName := params.serverName
      serverVersion := params.serverVersion
      includeBackwardCompatibility := params.includeBackwardCompatibility
      configSchema := extractedConfigSchema }

/-! ## Unified dispatcher (`templates/index.ts`) -/

/-- `generateMigrationTemplate`: dispatch on the migration mode; the
`default` branch of the switch throws, modelled as `Except.error`. -/
def generateMigrationTemplate (parse : YamlParse) (migrationMode : String)
    (migrationParams : SmitheryMigrationParams) : Except String String :=
  if migrationMode = "ts-smithery-cli" then
    .ok (generateSmitheryCliMigration parse migrationParams)
  else if migrationMode = "ts-custom-container" then
    .ok (generateCustomContainerMigration parse migrationParams)
  else if migrationMode = "py-custom-container" then
    .ok (generatePythonCustomContainerMigration parse migrationParams)
  else
    .error ("Unsupported migration mode: " ++ migrationMode)

/-- `getFileExtension`. -/
def getFileExtension (migrationMode : String) : String :=
  if migrationMode = "ts-smithery-cli" ∨ migrationMode = "ts-custom-container"
  then "ts"
  else if migrationMode = "py-custom-container" then "py"
  else "txt"

/-! ## Dockerfile generator (`dockerfile-generator.ts`) -/

/-- The parameters of `generateDockerfile`, with the source's defaults. -/
structure DockerfileParams where
  containerType : String
  serverName : Option String := none
  nodeVersion : String := "22"
  pythonVersion : String := "3.12"
  buildCommand : String := "npm run build"
  startCommand : Option String := none
  sourceDir : String := "."
  outputDir : String := "dist"
  packageManager : String := "npm"
  pythonMainFile : String := "src/main.py"
  requirementsFile : Option String := none
  useUv : Bool := true
  workingDir : String := "/app"
  additionalPackages : List String := []
  environmentVars : List (String × String) := []
  includeBackwardCompatibility : Bool := false

/-- `generateTypeScriptDockerfile`. -/
def generateTypeScriptDockerfile (params : DockerfileParams) : String :=
  let installCmd :=
    if params.packageManager = "npm" then "npm ci --only=production"
    else if params.packageManager = "yarn" then
      "yarn install --production --frozen-lockfile"
    else "pnpm install --prod --frozen-lockfile"
  let packageFiles :=
    if params.packageManager = "npm" then "package*.json"
    else if params.packageManager = "yarn" then "package.json yarn.lock"
    else "package.json pnpm-lock.yaml"
  let defaultStartCmd :=
    jsOr params.startCommand ("node " ++ params.outputDir ++ "/index.js")
  let systemPackages :=
    if params.additionalPackages.length > 0 then
      "\n# Install additional system packages\nRUN apt-get update && apt-get install -y " ++
        String.intercalate " " params.additionalPackages ++
        " && rm -rf /var/lib/apt/lists/*\n"
    else ""
  let envVars :=
    if params.environmentVars.length > 0 then
      String.intercalate "\n" (params.environmentVars.map fun kv =>
        "ENV " ++ kv.1 ++ "=\"" ++ kv.2 ++ "\"") ++ "\n\n"
    else ""
  "# Dockerfile for TypeScript Custom Container\nFROM node:" ++
    params.nodeVersion ++ "-slim\n\nWORKDIR /app" ++ systemPackages ++
    "\n# Copy package files\nCOPY " ++ packageFiles ++
    " ./\n\n# Install dependencies\nRUN " ++ installCmd ++
    "\n\n# Copy source code\nCOPY " ++ params.sourceDir ++
    " .\n\n# Build TypeScript code\nRUN " ++ params.buildCommand ++ "\n\n" ++
    envVars ++ "\n" ++
    (if params.includeBackwardCompatibility then
      "# Force HTTP transport mode for Smithery deployment\nENV TRANSPORT=http\n\n"
     else "") ++
    "# Start the HTTP server\nCMD [\"" ++
    String.intercalate "\", \"" (defaultStartCmd.splitOn " ") ++ "\"]"

/-- `generatePythonDockerfile`. -/
def generatePythonDockerfile (params : DockerfileParams) : String :=
  let systemPackages :=
    if params.additionalPackages.length > 0 then
      "\n# Install additional system packages\nRUN apk add --no-cache " ++
        String.intercalate " " params.additionalPackages ++ "\n"
    else ""
  let envVars :=
    if params.environmentVars.length > 0 then
      String.intercalate "\n" (params.environmentVars.map fun kv =>
        "ENV " ++ kv.1 ++ "=\"" ++ kv.2 ++ "\"") ++ "\n\n"
    else ""
  if params.useUv then
    "# Dockerfile for Python Custom Container (using uv)\n# Use a Python image with uv pre-installed\nFROM ghcr.io/astral-sh/uv:python" ++
      params.pythonVersion ++ "-alpine\n\n# Install the project into " ++
      params.workingDir ++ "\nWORKDIR " ++ params.workingDir ++
      systemPackages ++
      "\n# Enable bytecode compilation\nENV UV_COMPILE_BYTECODE=1\n\n# Copy from the cache instead of linking since it\x27s a mounted volume\nENV UV_LINK_MODE=copy\n\n# Install the project\x27s dependencies using the lockfile and settings\nRUN --mount=type=cache,target=/root/.cache/uv \\\n    --mount=type=bind,source=uv.lock,target=uv.lock \\\n    --mount=type=bind,source=pyproject.toml,target=pyproject.toml \\\n    uv sync --locked --no-install-project --no-dev\n\n# Then, add the rest of the project source code and install it\nCOPY . " ++
      params.workingDir ++
      "\nRUN --mount=type=cache,target=/root/.cache/uv \\\n    uv sync --locked --no-dev\n\n# Place executables in the environment at the front of the path\nENV PATH=\"" ++
      params.workingDir ++
      "/.venv/bin:$PATH\"\n\n# Reset the entrypoint, don\x27t invoke `uv`\nENTRYPOINT []\n\n" ++
      envVars ++ "\n" ++
      (if params.includeBackwardCompatibility then
        "# Force HTTP transport mode for Smithery deployment\nENV TRANSPORT=http\n\n"
       else "") ++
      "# Start the HTTP server\nCMD [\"python\", \"" ++
      params.pythonMainFile ++ "\"]"
  else
    let reqFile := jsOr params.requirementsFile "requirements.txt"
    "# Dockerfile for Python Custom Container (using pip)\nFROM python:" ++
      params.pythonVersion ++ "-alpine\n\nWORKDIR " ++ params.workingDir ++
      systemPackages ++ "\n# Copy requirements file\nCOPY " ++ reqFile ++
      " .\n\n# Install Python dependencies\nRUN pip install --no-cache-dir -r " ++
      reqFile ++ "\n\n# Copy source code\nCOPY . .\n\n" ++ envVars ++ "\n" ++
      (if params.includeBackwardCompatibility then
        "# Force HTTP transport mode for Smithery deployment\nENV TRANSPORT=http\n\n"
       else "") ++
      "# Start the HTTP server\nCMD [\"python\", \"" ++
      params.pythonMainFile ++ "\"]"

/-- `generateDockerfile`: dispatch on the container type; the `default`
branch of the switch throws, modelled as `Except.error`. -/
def generateDockerfile (params : DockerfileParams) : Except String String :=
  if params.containerType = "ts-custom-container" then
    .ok (generateTypeScriptDockerfile params)
  else if params.containerType = "py-custom-container" then
    .ok (generatePythonDockerfile params)
  else
    .error ("Unsupported container type: " ++ params.containerType)

/-! ## Deployment-descriptor serializer (`smithery-yaml-generator.ts`) -/

/-- The parameters of `generateSmitheryYaml`, as validated by its input
schema (`runtime` and `startCommandType` are enumerations). -/
structure SmitheryYamlParams where
  runtime : Option String := none
  startCommandType : String
  configSchema : Option JObj := none
  exampleConfig : Option JObj := none
  env : Option (List (String × String)) := none
  dockerfile : Option String := none
  dockerBuildPath : Option String := none
  commandFunction : Option String := none

/-- A top-level value of the `yamlContent` object the serializer builds:
the `runtime` string, the `build` options object, the `startCommand`
object, or the `env` record. -/
inductive YamlTopVal where
  | vstr (s : String)
  | vbuild (dockerfile dockerBuildPath : Option String)
  | vstart (type : String) (commandFunction : Option String)
      (configSchema : JObj) (exampleConfig : JObj)
  | venv (pairs : List (String × String))

/-- JavaScript property assignment on a string-keyed object: replaces in
place when the key exists, otherwise appends (insertion order). -/
def upsert (l : List (String × YamlTopVal)) (k : String) (v : YamlTopVal) :
    List (String × YamlTopVal) :=
  if l.any (fun kv => kv.1 = k) then
    l.map fun kv => if kv.1 = k then (k, v) else kv
  else l ++ [(k, v)]

/-- The `yamlContent` object `generateSmitheryYaml` builds before
serialising, following the source's assignment order. -/
def buildYamlContent (params : SmitheryYamlParams) :
    List (String × YamlTopVal) :=
  let isLocalOnlyStdio :=
    params.startCommandType = "stdio" && strTruthy params.commandFunction
  let y : List (String × YamlTopVal) := []
  let y :=
    if params.runtime = some "typescript" then
      let y := upsert y "runtime" (.vstr "typescript")
      match params.env with
      | some env => upsert y "env" (.venv env)
      | none => y
    else if !isLocalOnlyStdio then
      let y :=
        match params.runtime with
        | some r => if r.isEmpty then y else upsert y "runtime" (.vstr r)
        | none => y
      if strTruthy params.dockerfile || strTruthy params.dockerBuildPath then
        upsert y "build" (.vbuild params.dockerfile params.dockerBuildPath)
      else y
    else y
  let commandFunction :=
    if params.startCommandType = "stdio" && strTruthy params.commandFunction
    then params.commandFunction
    else none
  let y := upsert y "startCommand"
    (.vstart params.startCommandType commandFunction
      (params.configSchema.getD []) (params.exampleConfig.getD []))
  match params.env with
  | some env => upsert y "env" (.venv env)
  | none => y

/-- JavaScript `String.prototype.split` at newlines. -/
def splitNl (s : String) : List String := (splitLines (dat s)).map (⟨·⟩)

/-- JavaScript `String.prototype.trimEnd`: remove trailing whitespace. -/
def jsTrimEnd (s : String) : String :=
  ⟨((dat s).reverse.dropWhile Char.isWhitespace).reverse⟩

/-- The serialisation of the `startCommand` entry. -/
def renderStartEntry (type : String) (commandFunction : Option String)
    (configSchema exampleConfig : JObj) : String :=
  let result := "startCommand:\n" ++ "  type: \"" ++ type ++ "\"\n"
  let result :=
    if strTruthy commandFunction then
      result ++
        "  commandFunction:\n    # A JS function that produces the CLI command based on the given config to start the MCP on stdio.\n    |-\n" ++
        String.join ((splitNl (commandFunction.getD "")).map fun line =>
          "    " ++ line ++ "\n")
    else result
  let result := result ++
    "  # JSON Schema defining the configuration options for the MCP.\n" ++
    "  configSchema:\n" ++
    (if configSchema.isEmpty then "    \x7b\x7d\n"
     else formatObjectAsYaml (.obj configSchema) 4)
  let result := result ++
    "  exampleConfig:\n" ++
    (if exampleConfig.isEmpty then "    \x7b\x7d\n"
     else formatObjectAsYaml (.obj exampleConfig) 4)
  jsTrimEnd result

/-- The serialisation of one top-level `yamlContent` entry. -/
def renderYamlEntry (kv : String × YamlTopVal) : String :=
  match kv.2 with
  | .vstart type cf cs ec => renderStartEntry type cf cs ec
  | .vbuild df dbp =>
    jsTrimEnd (kv.1 ++ ":\n" ++
      (match df with
        | some d => if d.isEmpty then "" else "  dockerfile: \"" ++ d ++ "\"\n"
        | none => "") ++
      (match dbp with
        | some d =>
          if d.isEmpty then "" else "  dockerBuildPath: \"" ++ d ++ "\"\n"
        | none => ""))
  | .venv pairs =>
    jsTrimEnd (kv.1 ++ ":\n" ++
      String.join (pairs.map fun ekv =>
        "  " ++ ekv.1 ++ ": \"" ++ ekv.2 ++ "\"\n"))
  | .vstr s => kv.1 ++ ": \"" ++ s ++ "\""

/-- `generateSmitheryYaml`: the leading comment line, then the serialised
top-level entries joined by newlines. -/
def generateSmitheryYaml (params : SmitheryYamlParams) : String :=
  let comment :=
    "# Smithery configuration file: https://smithery.ai/docs/build/project-config/smithery-yaml\n"
  let yamlString :=
    String.intercalate "\n" ((buildYamlContent params).map renderYamlEntry)
  comment ++ yamlString ++ "\n"

/-! ## Package-descriptor validator (`package-json-validation.ts`) -/

/-- The parsed package.json fields the validators read.  The `type` field
is named `typeField`.  Script and dependency records are association
lists in insertion order. -/
structure PackageJson where
  name : Option String := none
  version : Option String := none
  module : Option String := none
  typeField : Option String := none
  scripts : List (String × String) := []
  dependencies : List (String × String) := []
  devDependencies : List (String × String) := []

/-- One entry of `requiredChanges`. -/
structure ReqChange where
  field : String
  expected : String
  current : Option String
  action : String

/-- The `ValidationResult` record. -/
structure ValidationResult where
  isValid : Bool
  errors : List String
  warnings : List String
  suggestions : List String
  requiredChanges : List ReqChange

/-- Property access on a string-keyed record, `undefined` when absent. -/
def recGet (l : List (String × String)) (k : String) : Option String :=
  (l.find? (fun kv => kv.1 = k)).map (·.2)

/-- `validateSmitheryCliScripts`: the fixed build/dev script rules and the
stdio start-script warning. -/
def validateSmitheryCliScripts (scripts : List (String × String))
    (result : ValidationResult) : ValidationResult :=
  let requiredScripts : List (String × String) :=
    [("build", "npx @smithery/cli build"), ("dev", "npx @smithery/cli dev")]
  let result := requiredScripts.foldl (fun result se =>
    let scriptName := se.1
    let expectedCommand := se.2
    if !strTruthy (recGet scripts scriptName) then
      { result with
        errors := result.errors ++
          ["Missing required script: \x27" ++ scriptName ++ "\x27"]
        requiredChanges := result.requiredChanges ++
          [{ field := "scripts." ++ scriptName, expected := expectedCommand,
             current := none, action := "add" }] }
    else if recGet scripts scriptName ≠ some expectedCommand then
      { result with
        errors := result.errors ++
          ["Incorrect script for \x27" ++ scriptName ++ "\x27 - expected: \x27" ++
            expectedCommand ++ "\x27, got: \x27" ++
            (recGet scripts scriptName).getD "" ++ "\x27"]
        requiredChanges := result.requiredChanges ++
          [{ field := "scripts." ++ scriptName, expected := expectedCommand,
             current := recGet scripts scriptName, action := "modify" }] }
    else result) result
  if strTruthy (recGet scripts "start") &&
      ((recGet scripts "start").getD "").containsSubstr "stdio" then
    { result with
      warnings := result.warnings ++
        ["Start script appears to use STDIO transport - consider updating for HTTP transport"] }
  else result

/-- `validateSmitheryCliDependencies`: the two required development
dependencies. -/
def validateSmitheryCliDependencies (devDeps : List (String × String))
    (result : ValidationResult) : ValidationResult :=
  let result :=
    if !strTruthy (recGet devDeps "@smithery/cli") then
      { result with
        errors := result.errors ++
          ["Missing required devDependency: @smithery/cli"]
        requiredChanges := result.requiredChanges ++
          [{ field := "devDependencies.@smithery/cli",
             expected := "^1.0.0 (or your preferred version)",
             current := none, action := "add" }] }
    else result
  if !strTruthy (recGet devDeps "tsx") then
    { result with
      errors := result.errors ++ ["Missing required devDependency: tsx"]
      requiredChanges := result.requiredChanges ++
        [{ field := "devDependencies.tsx",
           expected := "^4.0.0 (or your preferred version)",
           current := none, action := "add" }] }
  else result

/-- `validateSmitheryCliPackageJson`: the CLI-mode rule set. -/
def validateSmitheryCliPackageJson (packageJson : PackageJson)
    (result : ValidationResult) : ValidationResult :=
  let result :=
    if !strTruthy packageJson.name then
      { result with
        errors := result.errors ++ ["Missing required field: \x27name\x27"]
        requiredChanges := result.requiredChanges ++
          [{ field := "name", expected := "your-server-name",
             current := none, action := "add" }] }
    else result
  let result :=
    if !strTruthy packageJson.version then
      { result with
        errors := result.errors ++ ["Missing required field: \x27version\x27"]
        requiredChanges := result.requiredChanges ++
          [{ field := "version", expected := "1.0.0", current := none,
             action := "add" }] }
    else result
  let result :=
    if !strTruthy packageJson.module then
      { result with
        errors := result.errors ++
          ["Missing \x27module\x27 field required for Smithery CLI"]
        requiredChanges := result.requiredChanges ++
          [{ field := "module", expected := "./src/index.ts",
             current := none, action := "add" }] }
    else if !(packageJson.module.getD "").endsWith ".ts" &&
        !(packageJson.module.getD "").endsWith ".js" then
      { result with
        warnings := result.warnings ++
          ["Module field should point to your main TypeScript or JavaScript file"] }
    else result
  let result :=
    if packageJson.typeField ≠ some "module" then
      { result with
        warnings := result.warnings ++
          ["Consider setting \x27type\x27: \x27module\x27 for ES modules support"]
        suggestions := result.suggestions ++
          ["Add \x27\"type\": \"module\"\x27 to package.json for better ES modules support"] }
    else result
  let result := validateSmitheryCliScripts packageJson.scripts result
  validateSmitheryCliDependencies packageJson.devDependencies result

/-- `validateCustomContainerPackageJson`: no hard rules, one suggestion. -/
def validateCustomContainerPackageJson (_packageJson : PackageJson)
    (result : ValidationResult) : ValidationResult :=
  { result with
    suggestions := result.suggestions ++
      ["Custom container migration allows full flexibility - configure dependencies and scripts as needed for your specific setup"] }

/-- `validatePythonContainerPackageJson`: advisory warnings only. -/
def validatePythonContainerPackageJson (packageJson : PackageJson)
    (result : ValidationResult) : ValidationResult :=
  let result :=
    if !strTruthy packageJson.name then
      { result with
        warnings := result.warnings ++
          ["Consider adding \x27name\x27 field for better project identification"] }
    else result
  let result :=
    if !strTruthy packageJson.version then
      { result with
        warnings := result.warnings ++
          ["Consider adding \x27version\x27 field for better project versioning"] }
    else result
  { result with
    suggestions := result.suggestions ++
      ["For Python projects, ensure requirements.txt or pyproject.toml contains your Python dependencies"] }

/-- `performValidation`: run the rule set selected by the migration mode
(an unmatched mode runs none), then derive `isValid` from the errors. -/
def performValidation (packageJson : PackageJson) (migrationPath : String) :
    ValidationResult :=
  let result : ValidationResult :=
    { isValid := true, errors := [], warnings := [], suggestions := [],
      requiredChanges := [] }
  let result :=
    if migrationPath = "ts-smithery-cli" then
      validateSmitheryCliPackageJson packageJson result
    else if migrationPath = "ts-custom-container" then
      validateCustomContainerPackageJson packageJson result
    else if migrationPath = "py-custom-container" then
      validatePythonContainerPackageJson packageJson result
    else result
  { result with isValid := result.errors.length = 0 }

/-! ## Migration overview generator (`migration-overview.ts`) -/

/-- One `filesNeeded` entry of a migration overview. -/
structure FileNeeded where
  filename : String
  description : String
  required : Bool
  generated : Bool

/-- The project-structure part of a migration overview (`structure` is a
Lean keyword, so that field is named `structureText`). -/
structure ProjectStructure where
  description : String
  structureText : String

/-- The `MigrationOverview` plan record. -/
structure MigrationOverview where
  migrationPath : String
  title : String
  description : String
  prerequisites : List String
  filesNeeded : List FileNeeded
  projectStructure : ProjectStructure
  deploymentSteps : List String
  additionalNotes : List String
  nextSteps : List String

/-- `analyzeSmitheryYamlForSessionConfig`: session configuration is needed
iff the descriptor parses and declares a non-empty configuration schema or
a non-empty example configuration; parse failure defaults to `false`. -/
def analyzeSmitheryYamlForSessionConfig (parse : YamlParse)
    (yamlContent : String) : Bool :=
  match parse yamlContent with
  | none => false
  | some parsed =>
    let hasConfigSchema :=
      match parsed.startCommand.bind (·.configSchema) with
      | some cs => cs.keysNonempty
      | none => false
    let hasExampleConfig :=
      match parsed.startCommand.bind (·.exampleConfig) with
      | some ec => !ec.isEmpty
      | none => false
    hasConfigSchema || hasExampleConfig

/-- The derived boolean bundle threaded into each overview builder. -/
structure OverviewCommonParams where
  includeBackwardCompatibility : Bool
  needsLocalAccess : Bool
  needsFileSystemAccess : Bool
  needsLocalApps : Bool
  needsSessionConfig : Bool

/-- `generateLocalStdioOverview`: the fixed "contact support" plan.  (The
`localReasons` list the source builds from the two need flags is dead: it
is never referenced in the returned record.) -/
def generateLocalStdioOverview (_params : OverviewCommonParams) :
    MigrationOverview :=
  { migrationPath := "local-stdio-only"
    title := "Local STDIO Servers - Contact Support"
    description := "Your server needs local file system access or local application integration. We\x27re actively working on improving support for local servers and would love to work with you personally to get yours set up - no migration work needed on your end!"
    prerequisites := ["Nothing! We\x27ll handle the setup for you."]
    filesNeeded := []
    projectStructure :=
      { description := "Keep your existing project structure - no changes needed"
        structureText := "No changes to your existing codebase required" }
    deploymentSteps :=
      ["📧 Email us: contact@smithery.ai",
       "💬 Join our Discord: https://discord.gg/sKd9uycgH9",
       "We\x27ll work with you directly to get your server set up - no work needed on your end!"]
    additionalNotes := []
    nextSteps := [] }

/-- `generateSmitheryCLIOverview`. -/
def generateSmitheryCLIOverview (params : OverviewCommonParams) :
    MigrationOverview :=
  { migrationPath := "ts-smithery-cli"
    title := "TypeScript with Smithery CLI Migration (RECOMMENDED)"
    description := "RECOMMENDED: This is the recommended approach for TypeScript projects. Migrate to HTTP transport using Smithery CLI with automatic deployment and containerization. This is the simplest migration path with built-in development tools and requires minimal configuration."
    prerequisites :=
      ["Node.js 18+ installed",
       "Existing TypeScript MCP server with STDIO transport",
       "GitHub repository for deployment",
       "Basic understanding of MCP concepts"]
    filesNeeded :=
      [{ filename := "src/index.ts (or main entry file)"
         description := "Entry point file that exports the createServer function"
         required := true, generated := true },
       { filename := "package.json"
         description := "Updated with Smithery CLI scripts and module field pointing to createServer export"
         required := true, generated := false },
       { filename := "yarn.lock or pnpm-lock.yaml"
         description := "Lock file required if using yarn or pnpm (not needed for npm)"
         required := false, generated := false },
       { filename := "smithery.yaml"
         description := "Smithery configuration (runtime: typescript)"
         required := true, generated := true }] ++
      (if params.includeBackwardCompatibility then
        [{ filename := "tsconfig.json"
           description := "TypeScript configuration for STDIO builds"
           required := false, generated := false }]
       else [])
    projectStructure :=
      { description := "Reference TypeScript project structure optimized for Smithery CLI"
        structureText := "my-mcp-server/\n├── src/\n│   └── index.ts          # Main server file (exported createServer)\n├── package.json          # Updated with Smithery CLI config\n├── smithery.yaml         # Smithery runtime configuration\n├── tsconfig.json         # TypeScript configuration\n└── README.md            # Documentation" }
    deploymentSteps :=
      ["1. Update package.json with Smithery CLI scripts and module field pointing to createServer export",
       "2. Add build and dev scripts: \"build\": \"npx @smithery/cli build\", \"dev\": \"npx @smithery/cli dev\"",
       "3. Generate new src/index.ts with exported createServer function",
       "4. Update smithery.yaml with runtime: typescript",
       "5. Test locally with \x27npm run dev\x27 (interactive playground)",
       "6. Push changes to your GitHub repository",
       "7. Wait a few minutes for auto-deploy, or manually trigger deployment from your Smithery server dashboard if it doesn\x27t start automatically"]
    additionalNotes :=
      ["No Dockerfile needed - Smithery CLI handles containerization",
       "Session-based configuration management",
       "Required scripts: \"build\": \"npx @smithery/cli build\", \"dev\": \"npx @smithery/cli dev\"",
       "Include your lock file (yarn.lock or pnpm-lock.yaml) if using yarn/pnpm - this helps detect your package manager",
       "The \x27module\x27 field in package.json must point to the file that exports createServer (e.g., \x27./src/index.ts\x27)"] ++
      (if params.includeBackwardCompatibility then
        ["STDIO backward compatibility included"]
       else [])
    nextSteps :=
      ["Use \x27create_migration_template\x27 tool with mode \x27ts-smithery-cli\x27",
       "Use \x27generate_smithery_yaml\x27 tool for smithery.yaml configuration",
       "Use \x27validate_package_json\x27 tool with migrationPath \x27ts-smithery-cli\x27 to ensure all required scripts and dependencies are present"] }

/-- `generateTypeScriptContainerOverview`. -/
def generateTypeScriptContainerOverview (params : OverviewCommonParams) :
    MigrationOverview :=
  { migrationPath := "ts-custom-container"
    title := "TypeScript Custom Container Migration"
    description := "Migrate to HTTP transport using custom Express server with full Docker control. Provides maximum flexibility for middleware and custom logic."
    prerequisites :=
      ["Node.js 18+ installed",
       "Docker installed and running",
       "Understanding of Express.js and middleware",
       "Existing TypeScript MCP server",
       "GitHub repository for deployment"]
    filesNeeded :=
      [{ filename := "src/index.ts"
         description := "Main server file with Express app and MCP request handler"
         required := true, generated := true },
       { filename := "Dockerfile"
         description := "Custom Docker container configuration"
         required := true, generated := true },
       { filename := "package.json"
         description := "Updated with Express dependencies and scripts"
         required := true, generated := false },
       { filename := "smithery.yaml"
         description := "Smithery configuration (runtime: container, type: http)"
         required := true, generated := true },
       { filename := "tsconfig.json"
         description := "TypeScript configuration for building"
         required := true, generated := false }] ++
      (if params.includeBackwardCompatibility then
        [{ filename := ".env.example"
           description := "Environment variables template"
           required := false, generated := false }]
       else [])
    projectStructure :=
      { description := "Reference TypeScript project with Express server and Docker containerization"
        structureText := "my-mcp-server/\n├── src/\n│   └── index.ts          # Express server with MCP handlers\n├── dist/                 # Built JavaScript output\n├── Dockerfile            # Custom container configuration\n├── package.json          # Express dependencies and build scripts\n├── smithery.yaml         # Container runtime configuration\n├── tsconfig.json         # TypeScript build configuration\n└── README.md            # Documentation" }
    deploymentSteps :=
      ["1. Generate Express-based src/index.ts with MCP request handlers",
       "2. Create custom Dockerfile with Node.js and build steps",
       "3. Update package.json with Express dependencies",
       "4. Create smithery.yaml with container runtime configuration",
       "5. Test locally: \x27npm run build && docker build -t server . && docker run -p 8081:8081 -e PORT=8081 server\x27",
       "6. Push changes to your GitHub repository",
       "7. Wait a few minutes for auto-deploy, or manually trigger deployment from your Smithery server dashboard if it doesn\x27t start automatically",
       "8. Smithery builds and deploys your custom container"]
    additionalNotes :=
      ["Full control over Express middleware and routing",
       "Custom Docker environment configuration",
       "Advanced CORS and security configurations",
       "Per-request configuration parsing from URL parameters",
       "IMPORTANT: Server must listen on process.env.PORT (Smithery provides this, defaults to 8081)"] ++
      (if params.includeBackwardCompatibility then
        ["STDIO backward compatibility with TRANSPORT env var"]
       else [])
    nextSteps :=
      ["Use \x27create_migration_template\x27 tool with mode \x27ts-custom-container\x27",
       "Use \x27generate_dockerfile\x27 tool with containerType \x27ts-custom-container\x27",
       "Use \x27generate_smithery_yaml\x27 tool for container runtime configuration",
       "Update package.json with Express, CORS, and other dependencies"] }

/-- `generatePythonContainerOverview`. -/
def generatePythonContainerOverview (params : OverviewCommonParams) :
    MigrationOverview :=
  { migrationPath := "py-custom-container"
    title := "Python Custom Container Migration"
    description := "Migrate to HTTP transport using FastMCP with custom middleware and Docker control. Ideal for Python-based MCP servers with advanced configuration needs."
    prerequisites :=
      ["Python 3.11+ installed",
       "uv or pip package manager",
       "Docker installed and running",
       "Understanding of FastAPI/Starlette middleware",
       "Existing Python MCP server",
       "GitHub repository for deployment"]
    filesNeeded :=
      [{ filename := "src/main.py"
         description := "Main server file with FastMCP and HTTP transport"
         required := true, generated := true }] ++
      (if params.needsSessionConfig then
        [{ filename := "src/middleware.py"
           description := "Custom middleware for Smithery configuration handling (access tokens, session settings)"
           required := true, generated := true }]
       else []) ++
      [{ filename := "Dockerfile"
         description := "Custom Docker container with Python and uv/pip"
         required := true, generated := true },
       { filename := "pyproject.toml"
         description := "Python project configuration with FastMCP dependencies"
         required := true, generated := false },
       { filename := "smithery.yaml"
         description := "Smithery configuration (runtime: container, type: http)"
         required := true, generated := true },
       { filename := "uv.lock"
         description := "Dependency lock file (if using uv)"
         required := false, generated := false }]
    projectStructure :=
      { description := "Reference Python project structure with FastMCP server and Docker containerization"
        structureText := "my-mcp-server/\n├── src/\n│   ├── main.py           # FastMCP server with HTTP transport" ++
          (if params.needsSessionConfig then
            "\n│   └── middleware.py     # Custom Smithery config middleware"
           else "") ++
          "\n├── Dockerfile            # Custom Python container\n├── pyproject.toml        # Python dependencies and config\n├── uv.lock              # Dependency lock file (uv)\n├── smithery.yaml         # Container runtime configuration\n└── README.md            # Documentation" }
    deploymentSteps :=
      ["1. Generate FastMCP-based src/main.py with HTTP transport"] ++
      (if params.needsSessionConfig then
        ["2. Create src/middleware.py for configuration handling"]
       else []) ++
      [(if params.needsSessionConfig then "3" else "2") ++
        ". Create custom Dockerfile with Python and dependency management",
       (if params.needsSessionConfig then "4" else "3") ++
        ". Update pyproject.toml with FastMCP and required dependencies",
       (if params.needsSessionConfig then "5" else "4") ++
        ". Create smithery.yaml with container runtime configuration",
       (if params.needsSessionConfig then "6" else "5") ++
        ". Test locally: \x27uv sync && docker build -t server . && docker run -p 8081:8081 -e PORT=8081 server\x27",
       (if params.needsSessionConfig then "7" else "6") ++
        ". Push changes to your GitHub repository",
       (if params.needsSessionConfig then "8" else "7") ++
        ". Wait a few minutes for auto-deploy, or manually trigger deployment from your Smithery server dashboard if it doesn\x27t start automatically"]
    additionalNotes :=
      ["FastMCP provides simple decorator-based tool registration"] ++
      (if params.needsSessionConfig then
        ["Per-request configuration access through middleware"]
       else ["No middleware needed if no session configuration required"]) ++
      (if params.includeBackwardCompatibility then
        ["STDIO backward compatibility with TRANSPORT env var"]
       else []) ++
      ["CORS handling for browser-based MCP clients",
       "IMPORTANT: Server must listen on int(os.environ.get(\x27PORT\x27, 8081)) - Smithery provides PORT env var"]
    nextSteps :=
      ["Use \x27create_migration_template\x27 tool with mode \x27py-custom-container\x27",
       "Use \x27generate_dockerfile\x27 tool with containerType \x27py-custom-container\x27",
       "Use \x27generate_smithery_yaml\x27 tool for container runtime configuration",
       "Create pyproject.toml with FastMCP and uvicorn dependencies"] }

/-- The parameter record of `generateMigrationOverview` (optional booleans
defaulted to `false` by its input schema). -/
structure MigrationOverviewParams where
  migrationPath : String
  includeBackwardCompatibility : Bool := false
  needsFileSystemAccess : Bool := false
  needsLocalApps : Bool := false
  existingSmitheryYaml : Option String := none

/-- `generateMigrationOverview`: derive the session-configuration need
from the optional existing descriptor, then dispatch on the migration
path; an unknown path throws, modelled as `Except.error`. -/
def generateMigrationOverview (parse : YamlParse)
    (params : MigrationOverviewParams) : Except String MigrationOverview :=
  let detectedSessionConfig :=
    match params.existingSmitheryYaml with
    | some y =>
      if y.isEmpty then false else analyzeSmitheryYamlForSessionConfig parse y
    | none => false
  let needsLocalAccess :=
    params.needsFileSystemAccess || params.needsLocalApps
  let commonParams : OverviewCommonParams :=
    { includeBackwardCompatibility := params.includeBackwardCompatibility
      needsLocalAccess := needsLocalAccess
      needsFileSystemAccess := params.needsFileSystemAccess
      needsLocalApps := params.needsLocalApps
      needsSessionConfig := detectedSessionConfig }
  if params.migrationPath = "local-stdio-only" then
    .ok (generateLocalStdioOverview commonParams)
  else if params.migrationPath = "ts-smithery-cli" then
    .ok (generateSmitheryCLIOverview commonParams)
  else if params.migrationPath = "ts-custom-container" then
    .ok (generateTypeScriptContainerOverview commonParams)
  else if params.migrationPath = "py-custom-container" then
    .ok (generatePythonContainerOverview commonParams)
  else
    .error ("Unsupported migration path: " ++ params.migrationPath)

/-! ## Observables on generated text -/

/-- The lines of a generated string. -/
def linesOf (s : String) : List (List Char) := splitLines (dat s)

/-- The number of lines of `s` that start with the marker `m`. -/
def cnt (m : String) (s : String) : Nat :=
  (linesOf s).countP (fun l => isPre (dat m) l)

/-- `s` has a line equal to `m`. -/
def hasLine (m : String) (s : String) : Prop := dat m ∈ linesOf s

instance (m s : String) : Decidable (hasLine m s) := by
  unfold hasLine; infer_instance

/-- The part of a line before its first colon, `none` when it has no
colon. -/
def takeKey : List Char → Option (List Char)
  | [] => none
  | ':' :: _ => some []
  | c :: rest => (takeKey rest).map (c :: ·)

/-- The top-level key carried by one line: the text before the colon when
the line starts at column zero and is not a comment, `none` otherwise. -/
def topf (l : List Char) : Option String :=
  if l = [] ∨ l.head? = some ' ' ∨ l.head? = some '#' then none
  else (takeKey l).map fun k => (⟨k⟩ : String)

/-- The top-level keys of a rendered YAML document: the key of every line
that starts at column zero and is not a comment. -/
def topKeys (s : String) : List String := (linesOf s).filterMap topf

/-- Rejoin split lines with newlines (the inverse of `splitLines`). -/
def unsplit : List (List Char) → List Char
  | [] => []
  | [l] => l
  | l :: rest => l ++ '\n' :: unsplit rest

/-- A rendered nested-object fragment is well formed when it is empty or
consists of full lines, each starting with a space and ending in a
non-whitespace character. -/
def fragOkB (s : String) : Bool :=
  ((linesOf s).getLast? = some []) &&
    (linesOf s).dropLast.all fun l =>
      l.head? = some ' ' &&
        (match l.getLast? with
         | some c => !c.isWhitespace
         | none => false)

/-- Every line of the fragment is empty, starts with a space, or is one of
the listed lines: the invariant used to exclude top-level markers from
inner code blocks. -/
def SafeOr (extra : List String) (s : String) : Prop :=
  ∀ l ∈ linesOf s, l = [] ∨ l.head? = some ' ' ∨ l ∈ extra.map dat

/-- The per-property lines of a zod schema rendered at the tool-template
indent all start with that indent. -/
def zodIndentOk : Option JSchema → Prop
  | some s => ∀ l ∈ linesOf (generateZodSchemaFromJson s "        "),
      isPre (dat "        ") l = true
  | none => True

instance : ∀ o, Decidable (zodIndentOk o)
  | some s => by unfold zodIndentOk; infer_instance
  | none => by unfold zodIndentOk; exact inferInstanceAs (Decidable True)

/-- Interpolated tool fields fit on one line and the rendered input
schema stays at its indent: the side conditions under which the
TypeScript tool blocks have a well-defined line structure. -/
def cliToolOk (t : McpTool) : Prop :=
  NlFree t.name ∧ NlFree t.description ∧ NlFree (jsTitleCase t.name) ∧
  zodIndentOk t.inputSchema

instance (t : McpTool) : Decidable (cliToolOk t) := by
  unfold cliToolOk
  infer_instance

/-- Interpolated python tool fields fit on one line. -/
def pyToolOk (t : McpTool) : Prop :=
  NlFree t.name ∧ NlFree t.description ∧
  NlFree (dashToUscore (sanitizeId t.name))

instance (t : McpTool) : Decidable (pyToolOk t) := by
  unfold pyToolOk
  infer_instance

/-- Every line of the python config-access block is empty or indented. -/
def pyCfgOk (cs : Option JSchema) : Prop :=
  ∀ l ∈ linesOf (pyConfigAccessCode cs), l = [] ∨ l.head? = some ' '

instance (cs : Option JSchema) : Decidable (pyCfgOk cs) := by
  unfold pyCfgOk
  infer_instance

/-- `s` contains `m` as a contiguous substring. -/
def hasInfix (m s : String) : Bool :=
  (dat s).tails.any fun t => isPre (dat m) t

/-- The body of the CLI template between the `createServer(...) {` header
line and the closing brace: server creation, resources, tools, prompts and
the return statement, separated by blank lines. -/
def cliMid (p : TemplateParams) (hc : Bool) : String :=
  generateServerCreation p.serverName p.serverVersion ++ "\n\n" ++
    generateResourcesCode p.resources ++ "\n\n" ++
    generateToolsCode p.tools hc ++ "\n\n" ++
    generatePromptsCode p.prompts ++ "\n\n" ++ generateServerReturn

/-- The body of the custom-container template between the
`createServer(...) {` header line and the closing brace. -/
def ccMid (p : TemplateParams) (hc : Bool) : String :=
  generateCustomContainerServerCreation p.serverName p.serverVersion ++
    "\n\n" ++ generateResourcesCode p.resources ++ "\n\n" ++
    generateCustomContainerToolsCode p.tools hc ++ "\n\n" ++
    generatePromptsCode p.prompts ++ "\n\n" ++ generateServerReturn

/-- The trailing part of the custom-container template: the MCP request
handler followed by the main function. -/
def ccEnd (p : TemplateParams) (hc : Bool) : String :=
  generateMcpRequestHandler hc ++ "\n\n" ++
    generateCustomContainerMainFunction p.includeBackwardCompatibility hc
      p.configSchema

/-- The part of the Python template after the configuration-access
functions: tools, prompts, resources and the main function. -/
def pyTail (p : TemplateParams) : String :=
  generatePythonToolsCode p.tools p.configSchema ++ "\n\n" ++
    generatePythonPromptsCode p.prompts ++ "\n\n" ++
    generatePythonResourcesCode p.resources ++ "\n\n" ++
    generatePythonMainFunction p.includeBackwardCompatibility true

/-- Indentation scanner: `atStart` records whether the scan stands at the
beginning of a line; a character other than a space or a newline at the
beginning of a line fails. -/
def shAux : Bool → List Char → Bool
  | _, [] => true
  | atStart, c :: rest =>
    if c = '\n' then shAux true rest
    else (!atStart || c = ' ') && shAux false rest

/-- Whether the scan stands at the beginning of a line after consuming the
list from state `b`. -/
def lsAfter : Bool → List Char → Bool
  | b, [] => b
  | _, c :: rest => if c = '\n' then lsAfter true rest else lsAfter false rest

/-- Every line of `s` is empty or starts with a space. -/
def SH (s : String) : Prop := shAux true (dat s) = true

instance (s : String) : Decidable (SH s) := by
  unfold SH; infer_instance

/-- Newline-freedom of an optional string field. -/
def nfOpt : Option String → Prop
  | none => True
  | some x => NlFree x

instance (o : Option String) : Decidable (nfOpt o) :=
  match o with
  | none => isTrue trivial
  | some x => inferInstanceAs (Decidable (NlFree x))

/-- The rendered zod lines of an optional embedded schema are empty or
indented. -/
def zodShOpt (o : Option JSchema) (indent : String) : Prop :=
  match o with
  | none => True
  | some s => SH (generateZodSchemaFromJson s indent)

instance (o : Option JSchema) (indent : String) :
    Decidable (zodShOpt o indent) :=
  match o with
  | none => isTrue trivial
  | some s => inferInstanceAs (Decidable (SH (generateZodSchemaFromJson s indent)))

/-- Line hygiene of one tool: the interpolated fields are newline-free and
the embedded input schema renders indented. -/
def toolSh (t : McpTool) : Prop :=
  NlFree t.name ∧ NlFree t.description ∧ NlFree (jsTitleCase t.name) ∧
    zodShOpt t.inputSchema "        "

instance (t : McpTool) : Decidable (toolSh t) := by
  unfold toolSh; infer_instance

/-- Line hygiene of one resource. -/
def resSh (r : McpResource) : Prop :=
  NlFree r.name ∧ NlFree r.uri ∧ NlFree r.description ∧
    NlFree (sanitizeId r.name) ∧ nfOpt r.mimeType

instance (r : McpResource) : Decidable (resSh r) := by
  unfold resSh; infer_instance

/-- Line hygiene of one prompt. -/
def promptSh (q : McpPrompt) : Prop :=
  NlFree q.name ∧ NlFree q.description ∧ NlFree (jsTitleCase q.name) ∧
    zodShOpt q.argsSchema "        " ∧ nfOpt q.template

instance (q : McpPrompt) : Decidable (promptSh q) := by
  unfold promptSh; infer_instance

/-- Line hygiene of a full template input: every interpolated field is
newline-free and every embedded schema renders indented. -/
def tplSh (p : TemplateParams) : Prop :=
  NlFree p.serverName ∧ NlFree p.serverVersion ∧
    (∀ t ∈ p.tools, toolSh t) ∧ (∀ r ∈ p.resources, resSh r) ∧
    (∀ q ∈ p.prompts, promptSh q) ∧ zodShOpt p.configSchema "  "

instance (p : TemplateParams) : Decidable (tplSh p) := by
  unfold tplSh; infer_instance

/-! ## Theorems -/

theorem dat_append (a b : String) : dat (a ++ b) = dat a ++ dat b := rfl

theorem splitLines_ne_nil (s : List Char) : splitLines s ≠ [] := by
  induction s with
  | nil => simp [splitLines]
  | cons c rest ih =>
    by_cases h : c = '\n'
    · simp [splitLines, h]
    · simp only [splitLines, if_neg h]
      cases hs : splitLines rest with
      | nil => simp
      | cons l ls => simp

theorem splitLines_newline_cons (rest : List Char) :
    splitLines ('\n' :: rest) = [] :: splitLines rest := by
  simp [splitLines]

theorem splitLines_cons_of_ne {c : Char} (h : c ≠ '\n') (rest : List Char) :
    splitLines (c :: rest) =
      match splitLines rest with
      | [] => [[c]]
      | l :: ls => (c :: l) :: ls := by
  simp [splitLines, h]

/-- Splitting a newline-free list yields exactly one line. -/
theorem splitLines_eq_single {s : List Char} (h : '\n' ∉ s) :
    splitLines s = [s] := by
  induction s with
  | nil => rfl
  | cons c rest ih =>
    have hc : c ≠ '\n' := by
      intro hc; exact h (hc ▸ List.mem_cons_self c rest)
    have hrest : '\n' ∉ rest := fun hm => h (List.mem_cons_of_mem c hm)
    rw [splitLines_cons_of_ne hc, ih hrest]

/-- Splitting distributes over a newline placed between two parts. -/
theorem splitLines_break (a b : List Char) :
    splitLines (a ++ '\n' :: b) = splitLines a ++ splitLines b := by
  induction a with
  | nil => simp [splitLines]
  | cons c rest ih =>
    by_cases h : c = '\n'
    · subst h
      simp only [List.cons_append, splitLines_newline_cons, ih]
    · simp only [List.cons_append, splitLines_cons_of_ne h]
      rw [ih]
      cases hs : splitLines rest with
      | nil => exact absurd hs (splitLines_ne_nil rest)
      | cons l ls => simp

theorem glueL_cons_cons (x : List Char) (xs : List (List Char))
    (ys : List (List Char)) (h : xs ≠ []) :
    glueL (x :: xs) ys = x :: glueL xs ys := by
  cases xs with
  | nil => exact absurd rfl h
  | cons a as =>
    cases ys with
    | nil => rfl
    | cons y ys => rfl

theorem splitLines_append (a b : List Char) :
    splitLines (a ++ b) = glueL (splitLines a) (splitLines b) := by
  induction a with
  | nil =>
    cases hb : splitLines b with
    | nil => exact absurd hb (splitLines_ne_nil b)
    | cons y ys => simp [splitLines, glueL, hb]
  | cons c rest ih =>
    by_cases h : c = '\n'
    · subst h
      rw [List.cons_append, splitLines_newline_cons, ih,
        splitLines_newline_cons,
        glueL_cons_cons [] (splitLines rest) (splitLines b)
          (splitLines_ne_nil rest)]
    · rw [List.cons_append, splitLines_cons_of_ne h, splitLines_cons_of_ne h]
      cases hs : splitLines rest with
      | nil => exact absurd hs (splitLines_ne_nil rest)
      | cons l ls =>
        rw [ih, hs]
        cases ls with
        | nil =>
          cases hb : splitLines b with
          | nil => exact absurd hb (splitLines_ne_nil b)
          | cons y ys => simp [glueL]
        | cons l2 ls2 =>
          rw [glueL_cons_cons l (l2 :: ls2) (splitLines b) (by simp),
            glueL_cons_cons (c :: l) (l2 :: ls2) (splitLines b) (by simp)]

theorem isPre_refl (l : List Char) : isPre l l = true := by
  induction l with
  | nil => rfl
  | cons c cs ih => simp [isPre, ih]

theorem isPre_append (m t : List Char) : isPre m (m ++ t) = true := by
  induction m with
  | nil => rfl
  | cons c cs ih => simp [isPre, ih]

theorem eq_append_of_isPre {m l : List Char} (h : isPre m l = true) :
    ∃ t, m ++ t = l := by
  induction m generalizing l with
  | nil => exact ⟨l, rfl⟩
  | cons c cs ih =>
    cases l with
    | nil => simp [isPre] at h
    | cons d ds =>
      simp only [isPre, Bool.and_eq_true, decide_eq_true_eq] at h
      obtain ⟨t, ht⟩ := ih h.2
      exact ⟨t, by simp [h.1, ht]⟩

/-- If `m` matches a prefix of `p ++ x`, then `m` and `p` are comparable as
prefixes. -/
theorem isPre_or_of_isPre_append {m p x : List Char}
    (h : isPre m (p ++ x) = true) : isPre m p = true ∨ isPre p m = true := by
  induction m generalizing p with
  | nil => exact Or.inl rfl
  | cons c cs ih =>
    cases p with
    | nil => exact Or.inr rfl
    | cons d ds =>
      simp only [List.cons_append, isPre, Bool.and_eq_true,
        decide_eq_true_eq] at h ⊢
      rcases ih h.2 with h' | h'
      · exact Or.inl ⟨h.1, h'⟩
      · exact Or.inr ⟨h.1.symm, h'⟩

/-- A marker that is prefix-incomparable with `p` cannot match at the start
of `p ++ x`, whatever `x` is. -/
theorem isPre_append_eq_false {m p : List Char} (x : List Char)
    (h1 : isPre m p = false) (h2 : isPre p m = false) :
    isPre m (p ++ x) = false := by
  by_contra h
  rcases isPre_or_of_isPre_append (Bool.of_not_eq_false h) with h' | h'
  · rw [h1] at h'; exact Bool.false_ne_true h'
  · rw [h2] at h'; exact Bool.false_ne_true h'

theorem append_ne_of_not_isPre {p m : List Char} (x : List Char)
    (h : isPre p m = false) : p ++ x ≠ m := by
  intro he
  have : isPre p m = true := he ▸ isPre_append p x
  rw [h] at this; exact Bool.false_ne_true this

theorem noDD_tail {c : Char} {l : List Char} (h : noDD (c :: l) = true) :
    noDD l = true := by
  cases l with
  | nil => rfl
  | cons d rest =>
    by_cases hc : c = '-' <;> by_cases hd : d = '-' <;>
      simp_all [noDD]

theorem noDD_cons {c : Char} {l : List Char}
    (h1 : c = '-' → l.head? ≠ some '-') (h2 : noDD l = true) :
    noDD (c :: l) = true := by
  cases l with
  | nil => by_cases hc : c = '-' <;> simp [noDD, hc]
  | cons d rest =>
    by_cases hc : c = '-'
    · have hd : d ≠ '-' := by
        intro hd; exact (h1 hc) (by simp [hd])
      subst hc; simp_all [noDD]
    · simp_all [noDD]

theorem collapseDashes_head (l : List Char) :
    (collapseDashes l).head? = l.head? := by
  induction l using collapseDashes.induct with
  | case1 => rfl
  | case2 rest ih => simpa [collapseDashes] using ih
  | case3 c rest h ih => simp [collapseDashes]

theorem collapseDashes_noDD (l : List Char) :
    noDD (collapseDashes l) = true := by
  induction l using collapseDashes.induct with
  | case1 => rfl
  | case2 rest ih => simpa [collapseDashes] using ih
  | case3 c rest h ih =>
    simp only [collapseDashes]
    refine noDD_cons (fun hc => ?_) ih
    rw [collapseDashes_head]
    intro hrest
    cases rest with
    | nil => simp at hrest
    | cons d tail =>
      simp only [List.head?_cons, Option.some.injEq] at hrest
      exact h tail hc (by rw [hrest])

theorem collapseDashes_eq_self {l : List Char} (h : noDD l = true) :
    collapseDashes l = l := by
  induction l using collapseDashes.induct with
  | case1 => rfl
  | case2 rest ih => simp [noDD] at h
  | case3 c rest hne ih =>
    simp only [collapseDashes]
    rw [ih (noDD_tail h)]

theorem mem_collapseDashes {c : Char} {l : List Char}
    (h : c ∈ collapseDashes l) : c ∈ l := by
  induction l using collapseDashes.induct with
  | case1 => simpa [collapseDashes] using h
  | case2 rest ih =>
    simp only [collapseDashes] at h
    have := ih h
    simp only [List.mem_cons] at this ⊢
    tauto
  | case3 d rest hne ih =>
    simp only [collapseDashes, List.mem_cons] at h
    rcases h with h | h
    · simp [h]
    · exact List.mem_cons_of_mem _ (ih h)

theorem dropTrailDash_eq_self {l : List Char}
    (h : l.getLast? ≠ some '-') : dropTrailDash l = l := by
  induction l using dropTrailDash.induct with
  | case1 => rfl
  | case2 => simp [List.getLast?] at h
  | case3 c hc => simp [dropTrailDash, hc]
  | case4 c rest hne ih =>
    cases rest with
    | nil => exact absurd rfl hne
    | cons d tail =>
      have h' : (d :: tail).getLast? ≠ some '-' := by
        rwa [List.getLast?_cons_cons] at h
      simp only [dropTrailDash]
      rw [ih h']

theorem dropTrailDash_head_or_nil (l : List Char) :
    (dropTrailDash l).head? = l.head? ∨ dropTrailDash l = [] := by
  induction l using dropTrailDash.induct with
  | case1 => exact Or.inl rfl
  | case2 => exact Or.inr (by simp [dropTrailDash])
  | case3 c hc => exact Or.inl (by simp [dropTrailDash, hc])
  | case4 c rest hne ih =>
    cases rest with
    | nil => exact absurd rfl hne
    | cons d tail => exact Or.inl (by simp [dropTrailDash])

theorem dropTrailDash_eq_nil {l : List Char} (h : dropTrailDash l = []) :
    l = [] ∨ l = ['-'] := by
  induction l using dropTrailDash.induct with
  | case1 => exact Or.inl rfl
  | case2 => exact Or.inr rfl
  | case3 c hc => simp [dropTrailDash, hc] at h
  | case4 c rest hne ih =>
    cases rest with
    | nil => exact absurd rfl hne
    | cons d tail => simp [dropTrailDash] at h

theorem dropTrailDash_getLast_ne {l : List Char} (h : noDD l = true) :
    (dropTrailDash l).getLast? ≠ some '-' := by
  induction l using dropTrailDash.induct with
  | case1 => simp [dropTrailDash]
  | case2 => simp [dropTrailDash]
  | case3 c hc =>
    simp only [dropTrailDash, if_neg hc, List.getLast?_singleton, ne_eq,
      Option.some.injEq]
    exact hc
  | case4 c rest hne ih =>
    cases rest with
    | nil => exact absurd rfl hne
    | cons d tail =>
      simp only [dropTrailDash]
      cases hd : dropTrailDash (d :: tail) with
      | nil =>
        rcases dropTrailDash_eq_nil hd with h' | h'
        · simp at h'
        · have hcne : c ≠ '-' := by
            intro hc
            rw [h'] at h
            subst hc
            simp [noDD] at h
          simp only [List.getLast?_singleton, ne_eq, Option.some.injEq]
          exact hcne
      | cons e etail =>
        have hlast := ih (noDD_tail h)
        rw [hd] at hlast
        rwa [List.getLast?_cons_cons]

theorem dropTrailDash_noDD {l : List Char} (h : noDD l = true) :
    noDD (dropTrailDash l) = true := by
  induction l using dropTrailDash.induct with
  | case1 => rfl
  | case2 => simp [dropTrailDash, noDD]
  | case3 c hc => simp [dropTrailDash, hc, noDD]
  | case4 c rest hne ih =>
    cases rest with
    | nil => exact absurd rfl hne
    | cons d tail =>
      simp only [dropTrailDash]
      refine noDD_cons (fun hc => ?_) (ih (noDD_tail h))
      rcases dropTrailDash_head_or_nil (d :: tail) with h' | h'
      · rw [h']
        intro hd
        simp only [List.head?_cons, Option.some.injEq] at hd
        subst hc hd
        simp [noDD] at h
      · simp [h']

theorem mem_dropTrailDash {c : Char} {l : List Char}
    (h : c ∈ dropTrailDash l) : c ∈ l := by
  induction l using dropTrailDash.induct with
  | case1 => simpa [dropTrailDash] using h
  | case2 => simp [dropTrailDash] at h
  | case3 d hd =>
    simp only [dropTrailDash, if_neg hd] at h
    exact h
  | case4 d rest hne ih =>
    cases rest with
    | nil => exact absurd rfl hne
    | cons e tail =>
      simp only [dropTrailDash, List.mem_cons] at h
      rcases h with h | h
      · simp [h]
      · exact List.mem_cons_of_mem _ (ih h)

theorem trimLeadDash_eq_self {l : List Char} (h : l.head? ≠ some '-') :
    trimLeadDash l = l := by
  cases l with
  | nil => rfl
  | cons c rest =>
    have hc : c ≠ '-' := by simpa using h
    simp [trimLeadDash, hc]

theorem trimLeadDash_cases (l : List Char) :
    (l.head? = some '-' ∧ trimLeadDash l = l.tail) ∨
      (l.head? ≠ some '-' ∧ trimLeadDash l = l) := by
  cases l with
  | nil => exact Or.inr (by simp [trimLeadDash])
  | cons c rest =>
    by_cases hc : c = '-'
    · subst hc; exact Or.inl (by simp [trimLeadDash])
    · exact Or.inr ⟨by simpa using hc, trimLeadDash_eq_self (by simpa using hc)⟩

theorem trimLeadDash_noDD {l : List Char} (h : noDD l = true) :
    noDD (trimLeadDash l) = true := by
  rcases trimLeadDash_cases l with ⟨_, he⟩ | ⟨_, he⟩
  · rw [he]
    cases l with
    | nil => rfl
    | cons c rest => exact noDD_tail h
  · rwa [he]

theorem trimLeadDash_head_ne {l : List Char} (h : noDD l = true) :
    (trimLeadDash l).head? ≠ some '-' := by
  rcases trimLeadDash_cases l with ⟨hh, he⟩ | ⟨hh, he⟩
  · rw [he]
    cases l with
    | nil => simp
    | cons c rest =>
      simp only [List.head?_cons, Option.some.injEq] at hh
      subst hh
      cases rest with
      | nil => simp
      | cons d tail =>
        intro hd
        simp only [List.tail_cons, List.head?_cons, Option.some.injEq] at hd
        subst hd
        simp [noDD] at h
  · rwa [he]

theorem mem_trimLeadDash {c : Char} {l : List Char}
    (h : c ∈ trimLeadDash l) : c ∈ l := by
  rcases trimLeadDash_cases l with ⟨_, he⟩ | ⟨_, he⟩
  · rw [he] at h
    exact List.mem_of_mem_tail h
  · rwa [he] at h

theorem sanitizeId_core_good (m : List Char) :
    SanitizedGood (trimDash (collapseDashes (m.map jsLowerChar |>.map dashify))) := by
  set base := (m.map jsLowerChar).map dashify with hbase
  have hchars : ∀ c ∈ base, idOk c = true ∨ c = '-' := by
    intro c hc
    rw [hbase] at hc
    rcases List.mem_map.mp hc with ⟨d, _, hd⟩
    by_cases h : idOk d = true
    · left; rw [← hd]; simp [dashify, h]
    · right; rw [← hd]; simp [dashify, h]
  have hnoDD : noDD (collapseDashes base) = true := collapseDashes_noDD base
  refine ⟨?_, ?_, ?_, ?_⟩
  · intro c hc
    exact hchars c (mem_collapseDashes
      (mem_trimLeadDash (mem_dropTrailDash hc)))
  · exact dropTrailDash_noDD (trimLeadDash_noDD hnoDD)
  · unfold trimDash
    rcases dropTrailDash_head_or_nil (trimLeadDash (collapseDashes base)) with h | h
    · rw [h]; exact trimLeadDash_head_ne hnoDD
    · simp [h]
  · exact dropTrailDash_getLast_ne (trimLeadDash_noDD hnoDD)

theorem jsLowerChar_fixed {c : Char} (h : idOk c = true ∨ c = '-') :
    jsLowerChar c = c := by
  rcases h with h | h
  · simp only [idOk, Bool.or_eq_true, Bool.and_eq_true,
      decide_eq_true_eq] at h
    unfold jsLowerChar Char.toLower
    rw [if_neg (by omega)]
  · subst h; rfl

theorem dashify_fixed {c : Char} (h : idOk c = true ∨ c = '-') :
    dashify c = c := by
  rcases h with h | h
  · simp [dashify, h]
  · subst h; rfl

theorem map_eq_self_of_fixed {f : Char → Char} {l : List Char}
    (h : ∀ c ∈ l, f c = c) : l.map f = l := by
  induction l with
  | nil => rfl
  | cons c rest ih =>
    simp only [List.map_cons]
    rw [h c (List.mem_cons_self c rest), ih fun d hd => h d (List.mem_cons_of_mem c hd)]

theorem sanitizeId_fixed {l : List Char} (h : SanitizedGood l) :
    sanitizeId ⟨l⟩ = ⟨l⟩ := by
  obtain ⟨hchars, hnoDD, hhead, hlast⟩ := h
  unfold sanitizeId
  have h1 : (dat ⟨l⟩).map jsLowerChar = l :=
    map_eq_self_of_fixed fun c hc => jsLowerChar_fixed (hchars c hc)
  rw [h1, map_eq_self_of_fixed fun c hc => dashify_fixed (hchars c hc),
    collapseDashes_eq_self hnoDD]
  unfold trimDash
  rw [trimLeadDash_eq_self hhead, dropTrailDash_eq_self hlast]

/-- **C8.** `sanitizeId "My Tool! v2"` is `"my-tool-v2"`, and `sanitizeId`
is idempotent: sanitizing an already-sanitized string returns it
unchanged. -/
theorem C8_sanitizeId_example_and_idempotent :
    sanitizeId "My Tool! v2" = "my-tool-v2" ∧
      ∀ x : String, sanitizeId (sanitizeId x) = sanitizeId x := by
  constructor
  · decide
  · intro x
    have : sanitizeId x =
        ⟨trimDash (collapseDashes ((dat x).map jsLowerChar |>.map dashify))⟩ := rfl
    rw [this]
    exact sanitizeId_fixed (sanitizeId_core_good (dat x))

/-! ## Line-structure infrastructure -/

theorem dat_mk (l : List Char) : dat ⟨l⟩ = l := rfl

theorem linesOf_append (a b : String) :
    linesOf (a ++ b) = glueL (linesOf a) (linesOf b) := by
  unfold linesOf
  rw [dat_append, splitLines_append]

theorem linesOf_ne_nil (s : String) : linesOf s ≠ [] :=
  splitLines_ne_nil (dat s)

theorem glueL_append_trailing_empty (L : List (List Char))
    (Y : List (List Char)) (hY : Y ≠ []) :
    glueL (L ++ [[]]) Y = L ++ Y := by
  induction L with
  | nil =>
    cases Y with
    | nil => exact absurd rfl hY
    | cons y ys => simp [glueL]
  | cons x xs ih =>
    rw [List.cons_append,
      glueL_cons_cons x (xs ++ [[]]) Y (by simp), ih, List.cons_append]

theorem glueL_single_cons (x : List Char) (y : List Char)
    (ys : List (List Char)) :
    glueL [x] (y :: ys) = (x ++ y) :: ys := rfl

/-- No produced line contains a newline character. -/
theorem splitLines_no_nl (s : List Char) : ∀ l ∈ splitLines s, '\n' ∉ l := by
  induction s with
  | nil =>
    intro l hl
    simp only [splitLines, List.mem_singleton] at hl
    simp [hl]
  | cons c rest ih =>
    by_cases h : c = '\n'
    · subst h
      intro l hl
      rw [splitLines_newline_cons] at hl
      rcases List.mem_cons.mp hl with h' | h'
      · simp [h']
      · exact ih l h'
    · intro l hl
      rw [splitLines_cons_of_ne h] at hl
      cases hs : splitLines rest with
      | nil => exact absurd hs (splitLines_ne_nil rest)
      | cons m ms =>
        rw [hs] at hl
        rcases List.mem_cons.mp hl with h' | h'
        · subst h'
          intro hmem
          rcases List.mem_cons.mp hmem with h'' | h''
          · exact h h''.symm
          · exact ih m (hs ▸ List.mem_cons_self m ms) h''
        · exact ih l (hs ▸ List.mem_cons_of_mem m h')

/-- `String.join` splits into the concatenation of the data of its parts. -/
theorem dat_join (ss : List String) :
    dat (String.join ss) = (ss.map dat).join := by
  suffices h : ∀ (acc : String),
      dat (ss.foldl (· ++ ·) acc) = dat acc ++ (ss.map dat).join by
    simpa using h ""
  induction ss with
  | nil => intro acc; simp
  | cons s rest ih =>
    intro acc
    simp only [List.foldl_cons, ih, dat_append, List.map_cons, List.join_cons,
      List.append_assoc]

/-- Splitting a concatenation of newline-terminated lines prepends them. -/
theorem splitLines_terminated_append (ls : List (List Char)) (X : List Char)
    (h : ∀ l ∈ ls, '\n' ∉ l) :
    splitLines ((ls.map (· ++ ['\n'])).flatten ++ X) = ls ++ splitLines X := by
  induction ls with
  | nil => simp
  | cons l rest ih =>
    have hl : '\n' ∉ l := h l (List.mem_cons_self l rest)
    have hrest : ∀ m ∈ rest, '\n' ∉ m :=
      fun m hm => h m (List.mem_cons_of_mem l hm)
    simp only [List.map_cons, List.flatten_cons, List.append_assoc,
      List.singleton_append, List.cons_append]
    rw [splitLines_break, splitLines_eq_single hl]
    simp only [List.nil_append, List.singleton_append]
    rw [ih hrest]

/-- The character data of the accumulating `String.intercalate.go`. -/
theorem intercalate_go_dat (as : List String) (acc sep : String) :
    dat (String.intercalate.go acc sep as) =
      dat acc ++ (as.map fun a => dat sep ++ dat a).flatten := by
  induction as generalizing acc with
  | nil => simp [String.intercalate.go]
  | cons a rest ih =>
    rw [String.intercalate.go, ih, List.map_cons, List.flatten_cons]
    simp [dat_append]

/-- Splitting a newline-free head followed by newline-prefixed pieces. -/
theorem splitLines_head_nlparts (X : List Char) (hX : '\n' ∉ X)
    (ls : List String) (h : ∀ l ∈ ls, NlFree l) :
    splitLines (X ++ (ls.map fun a => '\n' :: dat a).flatten) =
      X :: ls.map dat := by
  induction ls generalizing X with
  | nil => simp [splitLines_eq_single hX]
  | cons m ms ih =>
    have hm : NlFree m := h m (List.mem_cons_self m ms)
    have hms : ∀ x ∈ ms, NlFree x :=
      fun x hx => h x (List.mem_cons_of_mem m hx)
    simp only [List.map_cons, List.flatten_cons]
    have : X ++ (('\n' :: dat m) ++ (ms.map fun a => '\n' :: dat a).flatten) =
        X ++ '\n' :: (dat m ++ (ms.map fun a => '\n' :: dat a).flatten) := by
      simp
    rw [this, splitLines_break, splitLines_eq_single hX, ih (dat m) hm hms]
    simp

/-- Splitting an intercalation of newline-free pieces recovers them. -/
theorem splitLines_intercalate (ls : List String)
    (h : ∀ l ∈ ls, NlFree l) (hne : ls ≠ []) :
    linesOf (String.intercalate "\n" ls) = ls.map dat := by
  cases ls with
  | nil => exact absurd rfl hne
  | cons l rest =>
    have hl : NlFree l := h l (List.mem_cons_self l rest)
    have hrest : ∀ x ∈ rest, NlFree x :=
      fun x hx => h x (List.mem_cons_of_mem l hx)
    unfold linesOf
    rw [String.intercalate, intercalate_go_dat,
      show (dat "\n") = ['\n'] from rfl]
    rw [show (rest.map fun a => ['\n'] ++ dat a) =
        rest.map fun a => '\n' :: dat a by simp]
    rw [splitLines_head_nlparts (dat l) hl rest hrest, List.map_cons]

theorem jsTrimEnd_ends (s : String) (T : List Char) (c : Char)
    (h : dat s = T ++ [c, '\n']) (hc : c.isWhitespace = false) :
    dat (jsTrimEnd s) = T ++ [c] := by
  unfold jsTrimEnd
  rw [dat_mk, h]
  have hrev : (T ++ [c, '\n']).reverse = '\n' :: c :: T.reverse := by simp
  rw [hrev, List.dropWhile_cons, if_pos (by decide), List.dropWhile_cons,
    if_neg (by simp [hc])]
  simp

theorem splitLines_frag_append (U X : List Char) (L : List (List Char))
    (hu : splitLines U = L ++ [[]]) :
    splitLines (U ++ X) = L ++ splitLines X := by
  rw [splitLines_append, hu,
    glueL_append_trailing_empty _ _ (splitLines_ne_nil X)]

theorem linesOf_jsTrimEnd (s : String) (T : List Char) (c : Char)
    (h : dat s = T ++ [c, '\n']) (hc : c.isWhitespace = false) :
    linesOf (jsTrimEnd s) = splitLines (T ++ [c]) ∧
      linesOf s = splitLines (T ++ [c]) ++ [[]] := by
  constructor
  · unfold linesOf
    rw [jsTrimEnd_ends s T c h hc]
  · unfold linesOf
    rw [h, show T ++ [c, '\n'] = (T ++ [c]) ++ '\n' :: [] by simp,
      splitLines_break]
    rfl

theorem unsplit_cons_cons (m l : List Char) (rest : List (List Char)) :
    unsplit (m :: l :: rest) = m ++ '\n' :: unsplit (l :: rest) := rfl

theorem unsplit_splitLines (s : List Char) : unsplit (splitLines s) = s := by
  induction s with
  | nil => rfl
  | cons c rest ih =>
    by_cases h : c = '\n'
    · subst h
      rw [splitLines_newline_cons]
      cases hs : splitLines rest with
      | nil => exact absurd hs (splitLines_ne_nil rest)
      | cons l ls =>
        rw [unsplit_cons_cons, List.nil_append, ← hs, ih]
    · rw [splitLines_cons_of_ne h]
      cases hs : splitLines rest with
      | nil => exact absurd hs (splitLines_ne_nil rest)
      | cons l ls =>
        cases ls with
        | nil =>
          show c :: l = c :: rest
          have := ih
          rw [hs] at this
          simpa using this
        | cons l2 ls2 =>
          rw [unsplit_cons_cons]
          have := ih
          rw [hs, unsplit_cons_cons] at this
          simp [this]

theorem unsplit_append_empty (M : List (List Char)) :
    unsplit (M ++ [[]]) = (M.map (· ++ ['\n'])).flatten := by
  induction M with
  | nil => rfl
  | cons m rest ih =>
    cases rest with
    | nil =>
      show unsplit [m, []] = _
      rw [unsplit_cons_cons]
      simp [unsplit]
    | cons l ls =>
      have e1 : (m :: l :: ls) ++ [[]] = m :: (l :: (ls ++ [[]])) := by simp
      rw [e1, unsplit_cons_cons]
      have e2 : (l :: ls) ++ [[]] = l :: (ls ++ [[]]) := by simp
      rw [e2] at ih
      rw [ih]
      simp

theorem fragOk_spec (s : String) (h : fragOkB s = true) :
    ∃ L, linesOf s = L ++ [[]] ∧ (∀ l ∈ L, l.head? = some ' ') ∧
      (L ≠ [] → ∃ T c, dat s = T ++ [c, '\n'] ∧ c.isWhitespace = false) := by
  unfold fragOkB at h
  simp only [Bool.and_eq_true, List.all_eq_true, decide_eq_true_eq] at h
  obtain ⟨hlast, hall⟩ := h
  have hne : linesOf s ≠ [] := linesOf_ne_nil s
  have hsplit : linesOf s = (linesOf s).dropLast ++ [[]] := by
    conv_lhs => rw [← List.dropLast_append_getLast hne]
    rw [List.getLast?_eq_getLast _ hne] at hlast
    rw [Option.some_inj.mp hlast]
  refine ⟨(linesOf s).dropLast, hsplit, ?_, ?_⟩
  · intro l hl
    have := hall l hl
    simp only [Bool.and_eq_true, decide_eq_true_eq] at this
    exact this.1
  · intro hLne
    set L := (linesOf s).dropLast with hLdef
    set lastL := L.getLast hLne with hlastLdef
    have hmem : lastL ∈ L := List.getLast_mem hLne
    have hcond := hall lastL hmem
    simp only [Bool.and_eq_true, decide_eq_true_eq] at hcond
    obtain ⟨-, hend⟩ := hcond
    have hlastne : lastL ≠ [] := by
      intro hnil
      rw [hnil] at hend
      simp at hend
    obtain ⟨c, hc⟩ : ∃ c, lastL.getLast? = some c := by
      cases hg : lastL.getLast? with
      | none => exact absurd (List.getLast?_eq_none_iff.mp hg) hlastne
      | some c => exact ⟨c, rfl⟩
    have hcw : c.isWhitespace = false := by
      rw [hc] at hend
      simpa using hend
    have hlastdecomp : lastL = lastL.dropLast ++ [c] := by
      conv_lhs => rw [← List.dropLast_append_getLast hlastne]
      rw [List.getLast?_eq_getLast _ hlastne] at hc
      rw [Option.some_inj.mp hc]
    have hLdecomp : L = L.dropLast ++ [lastL] := by
      conv_lhs => rw [← List.dropLast_append_getLast hLne]
    have hdat : dat s = (L.map (· ++ ['\n'])).flatten := by
      have h1 : unsplit (splitLines (dat s)) = dat s := unsplit_splitLines _
      have h2 : splitLines (dat s) = L ++ [[]] := hsplit
      rw [h2, unsplit_append_empty] at h1
      exact h1.symm
    refine ⟨(L.dropLast.map (· ++ ['\n'])).flatten ++ lastL.dropLast, c, ?_, hcw⟩
    rw [hdat]
    conv_lhs => rw [hLdecomp]
    rw [List.map_append, List.flatten_append]
    conv_lhs => rw [hlastdecomp]
    simp

/-- Intercalating possibly multi-line strings concatenates their lines. -/
theorem linesOf_intercalate_flat (ss : List String) (hne : ss ≠ []) :
    linesOf (String.intercalate "\n" ss) = (ss.map linesOf).flatten := by
  cases ss with
  | nil => exact absurd rfl hne
  | cons a rest =>
    unfold linesOf
    rw [String.intercalate, intercalate_go_dat,
      show (dat "\n") = ['\n'] from rfl]
    rw [show (rest.map fun x => ['\n'] ++ dat x) =
        rest.map fun x => '\n' :: dat x by simp]
    rw [List.map_cons, List.flatten_cons]
    induction rest generalizing a with
    | nil => simp
    | cons m ms ih =>
      rw [List.map_cons, List.flatten_cons,
        show dat a ++ (('\n' :: dat m) ++
            (ms.map fun x => '\n' :: dat x).flatten) =
          dat a ++ '\n' :: (dat m ++ (ms.map fun x => '\n' :: dat x).flatten)
          from by simp,
        splitLines_break, ih m (by simp)]
      simp

theorem splitNl_nlFree (s : String) : ∀ l ∈ splitNl s, NlFree l := by
  intro l hl
  unfold splitNl at hl
  rcases List.mem_map.mp hl with ⟨m, hm, rfl⟩
  unfold NlFree
  rw [dat_mk]
  exact splitLines_no_nl (dat s) m hm

theorem splitNl_map_dat (s : String) :
    (splitNl s).map dat = splitLines (dat s) := by
  unfold splitNl
  rw [List.map_map]
  have : (dat ∘ fun l => (⟨l⟩ : String)) = id := by
    funext l
    simp [Function.comp, dat_mk]
  rw [this, List.map_id]

theorem splitLines_line_nl (L : List Char) (h : '\n' ∉ L) :
    splitLines (L ++ ['\n']) = [L] ++ [[]] := by
  rw [show L ++ ['\n'] = L ++ '\n' :: [] by simp, splitLines_break,
    splitLines_eq_single h]
  rfl

/-- A non-empty object renders to a fragment beginning with the
indentation spaces. -/
theorem formatYamlEntries_head (kv : String × JVal)
    (rest : List (String × JVal)) (indent : Nat) (hpos : 0 < indent) :
    (dat (formatYamlEntries (kv :: rest) indent)).head? = some ' ' := by
  obtain ⟨k, v⟩ := kv
  obtain ⟨n, rfl⟩ : ∃ n, indent = n + 1 := ⟨indent - 1, by omega⟩
  have hsp : dat (spacesN (n + 1)) = ' ' :: List.replicate n ' ' := by
    simp [spacesN, dat_mk, List.replicate_succ]
  rw [formatYamlEntries]
  cases v <;>
    · simp only [formatYamlEntry]
      simp only [dat_append, hsp]
      simp

theorem formatYamlEntries_ne_empty (kv : String × JVal)
    (rest : List (String × JVal)) (indent : Nat) (hpos : 0 < indent) :
    dat (formatYamlEntries (kv :: rest) indent) ≠ [] := by
  intro h
  have := formatYamlEntries_head kv rest indent hpos
  rw [h] at this
  simp at this

/-- The lines of the serialised `startCommand` entry: the `startCommand:`
header, the `type` line, the optional `commandFunction` block, the schema
comment and `configSchema:` header with the schema body (`{}` when
empty), then the `exampleConfig:` header with its body (`{}` when
empty). -/
theorem renderStartEntry_lines (type : String) (cf : Option String)
    (cs ec : JObj) (ht : NlFree type)
    (hcs : fragOkB (formatObjectAsYaml (.obj cs) 4) = true)
    (hec : fragOkB (formatObjectAsYaml (.obj ec) 4) = true) :
    linesOf (renderStartEntry type cf cs ec) =
      [dat "startCommand:", dat ("  type: \"" ++ type ++ "\"")] ++
      (if strTruthy cf then
        [dat "  commandFunction:",
         dat "    # A JS function that produces the CLI command based on the given config to start the MCP on stdio.",
         dat "    |-"] ++
        (splitNl (cf.getD "")).map (fun l => dat ("    " ++ l))
       else []) ++
      [dat "  # JSON Schema defining the configuration options for the MCP.",
       dat "  configSchema:"] ++
      (if cs.isEmpty then [dat "    \x7b\x7d"]
       else (linesOf (formatObjectAsYaml (.obj cs) 4)).dropLast) ++
      [dat "  exampleConfig:"] ++
      (if ec.isEmpty then [dat "    \x7b\x7d"]
       else (linesOf (formatObjectAsYaml (.obj ec) 4)).dropLast) := by
  -- Glue fact: splitting a concatenation of two newline-terminated
  -- fragments concatenates their line lists.
  have frag2 : ∀ (U V : List Char) (L M : List (List Char)),
      splitLines U = L ++ [[]] → splitLines V = M ++ [[]] →
      splitLines (U ++ V) = (L ++ M) ++ [[]] := by
    intro U V L M hU hV
    rw [splitLines_frag_append U V L hU, hV, List.append_assoc]
  -- Facts about a schema body piece: its split ends in an empty line and
  -- its text ends in a non-whitespace character followed by a newline.
  have bodyFacts : ∀ (o : JObj), fragOkB (formatObjectAsYaml (.obj o) 4) = true →
      splitLines (dat (if o.isEmpty then "    \x7b\x7d\n"
          else formatObjectAsYaml (.obj o) 4)) =
        (if o.isEmpty then [dat "    \x7b\x7d"]
         else (linesOf (formatObjectAsYaml (.obj o) 4)).dropLast) ++ [[]] ∧
      ∃ T c, dat (if o.isEmpty then "    \x7b\x7d\n"
          else formatObjectAsYaml (.obj o) 4) = T ++ [c, '\n'] ∧
        c.isWhitespace = false := by
    intro o ho
    by_cases hoe : o.isEmpty
    · refine ⟨?_, ?_⟩
      · rw [if_pos hoe, if_pos hoe]
        decide
      · rw [if_pos hoe]
        exact ⟨dat "    \x7b", '\x7d', by decide, by decide⟩
    · obtain ⟨L, hL, -, hEnd⟩ := fragOk_spec _ ho
      have hLne : L ≠ [] := by
        intro hnil
        rw [hnil] at hL
        unfold linesOf at hL
        have h1 := unsplit_splitLines (dat (formatObjectAsYaml (.obj o) 4))
        rw [hL] at h1
        simp only [List.nil_append, unsplit] at h1
        cases o with
        | nil => simp at hoe
        | cons kv rest =>
          refine formatYamlEntries_ne_empty kv rest 4 (by omega) ?_
          have e : formatObjectAsYaml (JVal.obj (kv :: rest)) 4 =
              formatYamlEntries (kv :: rest) 4 := by
            simp only [formatObjectAsYaml]
          rw [e] at h1
          exact h1.symm
      refine ⟨?_, ?_⟩
      · rw [if_neg hoe, if_neg hoe, hL]
        have hL2 : splitLines (dat (formatObjectAsYaml (JVal.obj o) 4)) =
            L ++ [[]] := hL
        rw [hL2]
        simp
      · rw [if_neg hoe]
        exact hEnd hLne
  obtain ⟨hcsL, -⟩ := bodyFacts cs hcs
  obtain ⟨hecL, Tec, cec, hecEnd, hecW⟩ := bodyFacts ec hec
  -- The final body piece split, with its terminating empty line removed.
  have hfin : splitLines (Tec ++ [cec]) =
      (if ec.isEmpty then [dat "    \x7b\x7d"]
       else (linesOf (formatObjectAsYaml (.obj ec) 4)).dropLast) := by
    have hecEnd2 : dat (if ec.isEmpty then "    \x7b\x7d\n"
        else formatObjectAsYaml (.obj ec) 4) =
        (Tec ++ [cec]) ++ '\n' :: [] := by
      rw [hecEnd]
      simp
    have h2 := hecL
    rw [hecEnd2, splitLines_break] at h2
    have h3 : splitLines (Tec ++ [cec]) ++ [([] : List Char)] =
        (if ec.isEmpty then [dat "    \x7b\x7d"]
         else (linesOf (formatObjectAsYaml (.obj ec) 4)).dropLast) ++ [[]] := h2
    exact List.append_cancel_right h3
  -- Line groups of the leading fragments.
  have hG1 : splitLines
      (dat ("startCommand:\n" ++ "  type: \"" ++ type ++ "\"\n")) =
      [dat "startCommand:", dat ("  type: \"" ++ type ++ "\"")] ++ [[]] := by
    have hl2 : '\n' ∉ dat ("  type: \"" ++ type ++ "\"") := by
      simp only [dat_append, List.mem_append]
      rintro ((h | h) | h)
      · exact absurd h (by decide)
      · exact ht h
      · exact absurd h (by decide)
    have e1 : dat "startCommand:\n" = dat "startCommand:" ++ ['\n'] := by decide
    have e2 : dat "\"\n" = ['"'] ++ ['\n'] := by decide
    have e3 : dat "startCommand:\n  type: \"" =
        dat "startCommand:" ++ '\n' :: dat "  type: \"" := by decide
    have e4 : dat "\"" = ['"'] := by decide
    have he : dat ("startCommand:\n" ++ "  type: \"" ++ type ++ "\"\n") =
        dat "startCommand:" ++ '\n' ::
          (dat ("  type: \"" ++ type ++ "\"") ++ ['\n']) := by
      simp [dat_append, e1, e2, e3, e4]
    rw [he, splitLines_break,
      splitLines_eq_single (by decide : '\n' ∉ dat "startCommand:"),
      splitLines_line_nl _ hl2]
    simp
  have hG3 : splitLines (dat "  commandFunction:\n    # A JS function that produces the CLI command based on the given config to start the MCP on stdio.\n    |-\n") =
      [dat "  commandFunction:",
       dat "    # A JS function that produces the CLI command based on the given config to start the MCP on stdio.",
       dat "    |-"] ++ [[]] := by decide
  have hG4 : splitLines (dat (String.join ((splitNl (cf.getD "")).map
      fun line => "    " ++ line ++ "\n"))) =
      (splitNl (cf.getD "")).map (fun l => dat ("    " ++ l)) ++ [[]] := by
    have enl : dat "\n" = ['\n'] := by decide
    have hm : (((splitNl (cf.getD "")).map fun line =>
        "    " ++ line ++ "\n").map dat) =
        ((splitNl (cf.getD "")).map fun l => dat ("    " ++ l)).map
          (· ++ ['\n']) := by
      simp only [List.map_map]
      refine List.map_congr_left ?_
      intro x hx
      simp [Function.comp, dat_append, enl]
    have hnl : ∀ l ∈ (splitNl (cf.getD "")).map fun l => dat ("    " ++ l),
        '\n' ∉ l := by
      intro l hl
      obtain ⟨x, hx, rfl⟩ := List.mem_map.1 hl
      have hxf := splitNl_nlFree (cf.getD "") x hx
      simp only [dat_append, List.mem_append]
      rintro (h | h)
      · exact absurd h (by decide)
      · exact hxf h
    have h2 := splitLines_terminated_append
      ((splitNl (cf.getD "")).map fun l => dat ("    " ++ l)) [] hnl
    simp only [List.append_nil] at h2
    rw [dat_join, hm]
    exact h2
  have hG5a : splitLines (dat "  # JSON Schema defining the configuration options for the MCP.\n") =
      [dat "  # JSON Schema defining the configuration options for the MCP."] ++
        [[]] := by decide
  have hG5b : splitLines (dat "  configSchema:\n") =
      [dat "  configSchema:"] ++ [[]] := by decide
  have hG7 : splitLines (dat "  exampleConfig:\n") =
      [dat "  exampleConfig:"] ++ [[]] := by decide
  show linesOf (jsTrimEnd
      ((if strTruthy cf then
          "startCommand:\n" ++ "  type: \"" ++ type ++ "\"\n" ++
            "  commandFunction:\n    # A JS function that produces the CLI command based on the given config to start the MCP on stdio.\n    |-\n" ++
            String.join ((splitNl (cf.getD "")).map fun line =>
              "    " ++ line ++ "\n")
        else "startCommand:\n" ++ "  type: \"" ++ type ++ "\"\n") ++
        "  # JSON Schema defining the configuration options for the MCP.\n" ++
        "  configSchema:\n" ++
        (if cs.isEmpty then "    \x7b\x7d\n"
         else formatObjectAsYaml (.obj cs) 4) ++
        "  exampleConfig:\n" ++
        (if ec.isEmpty then "    \x7b\x7d\n"
         else formatObjectAsYaml (.obj ec) 4))) = _
  cases hcf : strTruthy cf with
  | false =>
    rw [if_neg (show ¬ (false = true) by decide),
      if_neg (show ¬ (false = true) by decide)]
    have t1 : splitLines (dat ("startCommand:\n" ++ "  type: \"" ++ type ++
        "\"\n" ++
        "  # JSON Schema defining the configuration options for the MCP.\n")) =
        ([dat "startCommand:", dat ("  type: \"" ++ type ++ "\"")] ++
          [dat "  # JSON Schema defining the configuration options for the MCP."]) ++
          [[]] := frag2 _ _ _ _ hG1 hG5a
    have t2 : splitLines (dat ("startCommand:\n" ++ "  type: \"" ++ type ++
        "\"\n" ++
        "  # JSON Schema defining the configuration options for the MCP.\n" ++
        "  configSchema:\n")) =
        (([dat "startCommand:", dat ("  type: \"" ++ type ++ "\"")] ++
          [dat "  # JSON Schema defining the configuration options for the MCP."]) ++
          [dat "  configSchema:"]) ++ [[]] := frag2 _ _ _ _ t1 hG5b
    have t3 : splitLines (dat ("startCommand:\n" ++ "  type: \"" ++ type ++
        "\"\n" ++
        "  # JSON Schema defining the configuration options for the MCP.\n" ++
        "  configSchema:\n" ++
        (if cs.isEmpty then "    \x7b\x7d\n"
         else formatObjectAsYaml (.obj cs) 4))) =
        ((([dat "startCommand:", dat ("  type: \"" ++ type ++ "\"")] ++
          [dat "  # JSON Schema defining the configuration options for the MCP."]) ++
          [dat "  configSchema:"]) ++
          (if cs.isEmpty then [dat "    \x7b\x7d"]
           else (linesOf (formatObjectAsYaml (.obj cs) 4)).dropLast)) ++ [[]] :=
      frag2 _ _ _ _ t2 hcsL
    have t4 : splitLines (dat ("startCommand:\n" ++ "  type: \"" ++ type ++
        "\"\n" ++
        "  # JSON Schema defining the configuration options for the MCP.\n" ++
        "  configSchema:\n" ++
        (if cs.isEmpty then "    \x7b\x7d\n"
         else formatObjectAsYaml (.obj cs) 4) ++
        "  exampleConfig:\n")) =
        (((([dat "startCommand:", dat ("  type: \"" ++ type ++ "\"")] ++
          [dat "  # JSON Schema defining the configuration options for the MCP."]) ++
          [dat "  configSchema:"]) ++
          (if cs.isEmpty then [dat "    \x7b\x7d"]
           else (linesOf (formatObjectAsYaml (.obj cs) 4)).dropLast)) ++
          [dat "  exampleConfig:"]) ++ [[]] := frag2 _ _ _ _ t3 hG7
    have hBIG : dat (("startCommand:\n" ++ "  type: \"" ++ type ++ "\"\n" ++
        "  # JSON Schema defining the configuration options for the MCP.\n" ++
        "  configSchema:\n" ++
        (if cs.isEmpty then "    \x7b\x7d\n"
         else formatObjectAsYaml (.obj cs) 4) ++
        "  exampleConfig:\n") ++
        (if ec.isEmpty then "    \x7b\x7d\n"
         else formatObjectAsYaml (.obj ec) 4)) =
        (dat ("startCommand:\n" ++ "  type: \"" ++ type ++ "\"\n" ++
          "  # JSON Schema defining the configuration options for the MCP.\n" ++
          "  configSchema:\n" ++
          (if cs.isEmpty then "    \x7b\x7d\n"
           else formatObjectAsYaml (.obj cs) 4) ++
          "  exampleConfig:\n") ++ Tec) ++ [cec, '\n'] := by
      rw [dat_append, hecEnd, ← List.append_assoc]
    rw [(linesOf_jsTrimEnd _ _ _ hBIG hecW).1, List.append_assoc,
      splitLines_frag_append _ _ _ t4, hfin]
    simp
  | true =>
    rw [if_pos (show (true = true) from rfl),
      if_pos (show (true = true) from rfl)]
    have u1 : splitLines (dat ("startCommand:\n" ++ "  type: \"" ++ type ++
        "\"\n" ++
        "  commandFunction:\n    # A JS function that produces the CLI command based on the given config to start the MCP on stdio.\n    |-\n")) =
        ([dat "startCommand:", dat ("  type: \"" ++ type ++ "\"")] ++
          [dat "  commandFunction:",
           dat "    # A JS function that produces the CLI command based on the given config to start the MCP on stdio.",
           dat "    |-"]) ++ [[]] := frag2 _ _ _ _ hG1 hG3
    have u2 : splitLines (dat ("startCommand:\n" ++ "  type: \"" ++ type ++
        "\"\n" ++
        "  commandFunction:\n    # A JS function that produces the CLI command based on the given config to start the MCP on stdio.\n    |-\n" ++
        String.join ((splitNl (cf.getD "")).map fun line =>
          "    " ++ line ++ "\n"))) =
        (([dat "startCommand:", dat ("  type: \"" ++ type ++ "\"")] ++
          [dat "  commandFunction:",
           dat "    # A JS function that produces the CLI command based on the given config to start the MCP on stdio.",
           dat "    |-"]) ++
          (splitNl (cf.getD "")).map (fun l => dat ("    " ++ l))) ++ [[]] :=
      frag2 _ _ _ _ u1 hG4
    have u3 : splitLines (dat ("startCommand:\n" ++ "  type: \"" ++ type ++
        "\"\n" ++
        "  commandFunction:\n    # A JS function that produces the CLI command based on the given config to start the MCP on stdio.\n    |-\n" ++
        String.join ((splitNl (cf.getD "")).map fun line =>
          "    " ++ line ++ "\n") ++
        "  # JSON Schema defining the configuration options for the MCP.\n")) =
        ((([dat "startCommand:", dat ("  type: \"" ++ type ++ "\"")] ++
          [dat "  commandFunction:",
           dat "    # A JS function that produces the CLI command based on the given config to start the MCP on stdio.",
           dat "    |-"]) ++
          (splitNl (cf.getD "")).map (fun l => dat ("    " ++ l))) ++
          [dat "  # JSON Schema defining the configuration options for the MCP."]) ++
          [[]] := frag2 _ _ _ _ u2 hG5a
    have u4 : splitLines (dat ("startCommand:\n" ++ "  type: \"" ++ type ++
        "\"\n" ++
        "  commandFunction:\n    # A JS function that produces the CLI command based on the given config to start the MCP on stdio.\n    |-\n" ++
        String.join ((splitNl (cf.getD "")).map fun line =>
          "    " ++ line ++ "\n") ++
        "  # JSON Schema defining the configuration options for the MCP.\n" ++
        "  configSchema:\n")) =
        (((([dat "startCommand:", dat ("  type: \"" ++ type ++ "\"")] ++
          [dat "  commandFunction:",
           dat "    # A JS function that produces the CLI command based on the given config to start the MCP on stdio.",
           dat "    |-"]) ++
          (splitNl (cf.getD "")).map (fun l => dat ("    " ++ l))) ++
          [dat "  # JSON Schema defining the configuration options for the MCP."]) ++
          [dat "  configSchema:"]) ++ [[]] := frag2 _ _ _ _ u3 hG5b
    have u5 : splitLines (dat ("startCommand:\n" ++ "  type: \"" ++ type ++
        "\"\n" ++
        "  commandFunction:\n    # A JS function that produces the CLI command based on the given config to start the MCP on stdio.\n    |-\n" ++
        String.join ((splitNl (cf.getD "")).map fun line =>
          "    " ++ line ++ "\n") ++
        "  # JSON Schema defining the configuration options for the MCP.\n" ++
        "  configSchema:\n" ++
        (if cs.isEmpty then "    \x7b\x7d\n"
         else formatObjectAsYaml (.obj cs) 4))) =
        ((((([dat "startCommand:", dat ("  type: \"" ++ type ++ "\"")] ++
          [dat "  commandFunction:",
           dat "    # A JS function that produces the CLI command based on the given config to start the MCP on stdio.",
           dat "    |-"]) ++
          (splitNl (cf.getD "")).map (fun l => dat ("    " ++ l))) ++
          [dat "  # JSON Schema defining the configuration options for the MCP."]) ++
          [dat "  configSchema:"]) ++
          (if cs.isEmpty then [dat "    \x7b\x7d"]
           else (linesOf (formatObjectAsYaml (.obj cs) 4)).dropLast)) ++ [[]] :=
      frag2 _ _ _ _ u4 hcsL
    have u6 : splitLines (dat ("startCommand:\n" ++ "  type: \"" ++ type ++
        "\"\n" ++
        "  commandFunction:\n    # A JS function that produces the CLI command based on the given config to start the MCP on stdio.\n    |-\n" ++
        String.join ((splitNl (cf.getD "")).map fun line =>
          "    " ++ line ++ "\n") ++
        "  # JSON Schema defining the configuration options for the MCP.\n" ++
        "  configSchema:\n" ++
        (if cs.isEmpty then "    \x7b\x7d\n"
         else formatObjectAsYaml (.obj cs) 4) ++
        "  exampleConfig:\n")) =
        (((((([dat "startCommand:", dat ("  type: \"" ++ type ++ "\"")] ++
          [dat "  commandFunction:",
           dat "    # A JS function that produces the CLI command based on the given config to start the MCP on stdio.",
           dat "    |-"]) ++
          (splitNl (cf.getD "")).map (fun l => dat ("    " ++ l))) ++
          [dat "  # JSON Schema defining the configuration options for the MCP."]) ++
          [dat "  configSchema:"]) ++
          (if cs.isEmpty then [dat "    \x7b\x7d"]
           else (linesOf (formatObjectAsYaml (.obj cs) 4)).dropLast)) ++
          [dat "  exampleConfig:"]) ++ [[]] := frag2 _ _ _ _ u5 hG7
    have hBIG : dat (("startCommand:\n" ++ "  type: \"" ++ type ++ "\"\n" ++
        "  commandFunction:\n    # A JS function that produces the CLI command based on the given config to start the MCP on stdio.\n    |-\n" ++
        String.join ((splitNl (cf.getD "")).map fun line =>
          "    " ++ line ++ "\n") ++
        "  # JSON Schema defining the configuration options for the MCP.\n" ++
        "  configSchema:\n" ++
        (if cs.isEmpty then "    \x7b\x7d\n"
         else formatObjectAsYaml (.obj cs) 4) ++
        "  exampleConfig:\n") ++
        (if ec.isEmpty then "    \x7b\x7d\n"
         else formatObjectAsYaml (.obj ec) 4)) =
        (dat ("startCommand:\n" ++ "  type: \"" ++ type ++ "\"\n" ++
          "  commandFunction:\n    # A JS function that produces the CLI command based on the given config to start the MCP on stdio.\n    |-\n" ++
          String.join ((splitNl (cf.getD "")).map fun line =>
            "    " ++ line ++ "\n") ++
          "  # JSON Schema defining the configuration options for the MCP.\n" ++
          "  configSchema:\n" ++
          (if cs.isEmpty then "    \x7b\x7d\n"
           else formatObjectAsYaml (.obj cs) 4) ++
          "  exampleConfig:\n") ++ Tec) ++ [cec, '\n'] := by
      rw [dat_append, hecEnd, ← List.append_assoc]
    rw [(linesOf_jsTrimEnd _ _ _ hBIG hecW).1, List.append_assoc,
      splitLines_frag_append _ _ _ u6, hfin]
    simp

/-! ## Top-level key extraction -/

theorem takeKey_pref (p : List Char) (h : ':' ∉ p) (X : List Char) :
    takeKey (p ++ ':' :: X) = some p := by
  induction p with
  | nil => simp [takeKey]
  | cons c cs ih =>
    have hc : c ≠ ':' := fun he => h (he ▸ List.mem_cons_self c cs)
    have hcs : ':' ∉ cs := fun hm => h (List.mem_cons_of_mem c hm)
    simp [takeKey, hc, ih hcs]

theorem topf_space (l : List Char) (h : l.head? = some ' ') :
    topf l = none := by
  unfold topf
  rw [if_pos (Or.inr (Or.inl h))]

theorem topf_keyline (k : String) (tail : List Char) (hk : ':' ∉ dat k)
    (hne : dat k ≠ []) (hh : ∀ c, (dat k).head? = some c → c ≠ ' ' ∧ c ≠ '#') :
    topf (dat k ++ ':' :: tail) = some k := by
  unfold topf
  cases hdk : dat k with
  | nil => exact absurd hdk hne
  | cons c cs =>
    have hcc := hh c (by rw [hdk]; rfl)
    rw [if_neg (by
      simp only [List.cons_append, List.head?_cons, not_or]
      refine ⟨by simp, ?_, ?_⟩
      · intro he
        exact hcc.1 (by simpa using he)
      · intro he
        exact hcc.2 (by simpa using he))]
    rw [takeKey_pref (c :: cs) (hdk ▸ hk) tail, ← hdk]
    rfl

theorem filterMap_topf_none (M : List (List Char))
    (h : ∀ l ∈ M, topf l = none) : M.filterMap topf = [] := by
  induction M with
  | nil => rfl
  | cons a l ih =>
    rw [List.filterMap_cons, h a (List.mem_cons_self a l),
      ih fun x hx => h x (List.mem_cons_of_mem a hx)]

theorem filterMap_flatten (f : List Char → Option String)
    (L : List (List (List Char))) :
    L.flatten.filterMap f = (L.map (·.filterMap f)).flatten := by
  induction L with
  | nil => rfl
  | cons a l ih => simp [List.filterMap_append, ih]

theorem flatten_singletons (g : (String × YamlTopVal) → String)
    (l : List (String × YamlTopVal)) :
    (l.map fun x => [g x]).flatten = l.map g := by
  induction l with
  | nil => rfl
  | cons a t ih => simp [ih]

/-- The object `generateSmitheryYaml` builds, in closed form.  The
`typescript` runtime branch places `env` between `runtime` and
`startCommand` (the final `env` assignment only overwrites in place); the
local-only stdio branch starts at `startCommand` and appends `env`; every
other branch lists `runtime` (when non-empty), `build` (when a docker
option is set), `startCommand`, then `env`. -/
theorem buildYamlContent_eq (params : SmitheryYamlParams) :
    buildYamlContent params =
      (if params.runtime = some "typescript" then
        [("runtime", YamlTopVal.vstr "typescript")] ++
          (match params.env with
           | some e => [("env", YamlTopVal.venv e)]
           | none => []) ++
          [("startCommand", YamlTopVal.vstart params.startCommandType
            (if params.startCommandType = "stdio" &&
                strTruthy params.commandFunction
             then params.commandFunction else none)
            (params.configSchema.getD []) (params.exampleConfig.getD []))]
      else if params.startCommandType = "stdio" &&
          strTruthy params.commandFunction then
        [("startCommand", YamlTopVal.vstart params.startCommandType
            params.commandFunction
            (params.configSchema.getD []) (params.exampleConfig.getD []))] ++
          (match params.env with
           | some e => [("env", YamlTopVal.venv e)]
           | none => [])
      else
        (match params.runtime with
         | some r =>
           if r.isEmpty then [] else [("runtime", YamlTopVal.vstr r)]
         | none => []) ++
        (if strTruthy params.dockerfile || strTruthy params.dockerBuildPath
         then [("build", YamlTopVal.vbuild params.dockerfile
            params.dockerBuildPath)]
         else []) ++
        [("startCommand", YamlTopVal.vstart params.startCommandType none
            (params.configSchema.getD []) (params.exampleConfig.getD []))] ++
        (match params.env with
         | some e => [("env", YamlTopVal.venv e)]
         | none => [])) := by
  unfold buildYamlContent
  simp only []
  by_cases hts : params.runtime = some "typescript"
  · rw [if_pos hts, if_pos hts]
    cases henv : params.env <;> simp [upsert]
  · rw [if_neg hts, if_neg hts]
    by_cases hstd : params.startCommandType = "stdio" <;>
      cases hcf : strTruthy params.commandFunction <;>
        cases henv : params.env <;>
          cases hr : params.runtime <;>
            cases hb : strTruthy params.dockerfile ||
              strTruthy params.dockerBuildPath <;>
            simp [upsert, hstd, hb]

theorem join_eq_flatten (L : List (List Char)) : L.join = L.flatten := rfl

theorem head_append_some (l X : List Char) (c : Char)
    (h : l.head? = some c) : (l ++ X).head? = some c := by
  cases l with
  | nil => simp at h
  | cons a t => simpa using h

/-- Lines of a trimmed `key:` header followed by a newline-terminated,
space-indented body carry exactly the key. -/
theorem filterMap_topf_entry (k S : String) (M : List (List Char))
    (T : List Char) (c : Char)
    (hk1 : splitLines (dat (k ++ ":\n")) = [dat (k ++ ":")] ++ [[]])
    (hk2 : topf (dat (k ++ ":")) = some k)
    (hS : dat S = dat (k ++ ":\n") ++ (T ++ [c, '\n']))
    (hsplit : splitLines (T ++ [c, '\n']) = M ++ [[]])
    (hc : c.isWhitespace = false)
    (hM : ∀ l ∈ M, l.head? = some ' ') :
    (linesOf (jsTrimEnd S)).filterMap topf = [k] := by
  have hS2 : dat S = (dat (k ++ ":\n") ++ T) ++ [c, '\n'] := by
    rw [hS, ← List.append_assoc]
  rw [(linesOf_jsTrimEnd _ _ _ hS2 hc).1, List.append_assoc,
    splitLines_frag_append _ _ _ hk1]
  have hTc : splitLines (T ++ [c]) = M := by
    have h2 := hsplit
    rw [show T ++ [c, '\n'] = (T ++ [c]) ++ '\n' :: [] from by simp,
      splitLines_break] at h2
    exact List.append_cancel_right
      (show splitLines (T ++ [c]) ++ [([] : List Char)] = M ++ [[]] from h2)
  rw [hTc]
  have hrest : M.filterMap topf = [] :=
    filterMap_topf_none M fun l hl => topf_space l (hM l hl)
  simp [List.filterMap_append, List.filterMap_cons, hk2, hrest]

/-- A rendered `runtime` string entry is a single line keyed `runtime`. -/
theorem filterMap_topf_runtime (r : String) (hr : NlFree r) :
    (linesOf (renderYamlEntry ("runtime", YamlTopVal.vstr r))).filterMap
      topf = ["runtime"] := by
  show (linesOf ("runtime" ++ ": \"" ++ r ++ "\"")).filterMap topf = _
  have hone : linesOf ("runtime" ++ ": \"" ++ r ++ "\"") =
      [dat ("runtime" ++ ": \"" ++ r ++ "\"")] := by
    unfold linesOf
    apply splitLines_eq_single
    simp only [dat_append, List.mem_append]
    rintro ((h | h) | h)
    · exact absurd h (by decide)
    · exact hr h
    · exact absurd h (by decide)
  have hdec : dat ("runtime" ++ ": \"" ++ r ++ "\"") =
      dat "runtime" ++ ':' :: (' ' :: '"' :: (dat r ++ ['"'])) := by
    have e1 : dat ": \"" = ':' :: ' ' :: '"' :: [] := by decide
    have e2 : dat "\"" = ['"'] := by decide
    have e3 : dat "runtime: \"" =
        dat "runtime" ++ ':' :: ' ' :: '"' :: [] := by decide
    simp [dat_append, e1, e2, e3]
  have hkey : topf (dat ("runtime" ++ ": \"" ++ r ++ "\"")) =
      some "runtime" := by
    rw [hdec]
    refine topf_keyline "runtime" _ (by decide) (by decide) ?_
    intro c hc
    have hc2 : 'r' = c :=
      Option.some.inj
        ((by decide : (dat "runtime").head? = some 'r').symm.trans hc)
    cases hc2
    exact ⟨by decide, by decide⟩
  rw [hone, List.filterMap_cons, hkey]
  rfl

/-- Lines of a trimmed `key:` header followed by newline-terminated,
space-headed lines each ending in visible text carry exactly the key. -/
theorem filterMap_topf_entryL (k S : String) (ls : List (List Char))
    (hne : ls ≠ [])
    (hk1 : splitLines (dat (k ++ ":\n")) = [dat (k ++ ":")] ++ [[]])
    (hk2 : topf (dat (k ++ ":")) = some k)
    (hS : dat S = dat (k ++ ":\n") ++ (ls.map (· ++ ['\n'])).flatten)
    (hl1 : ∀ l ∈ ls, '\n' ∉ l)
    (hl2 : ∀ l ∈ ls, l.head? = some ' ')
    (hl3 : ∀ l ∈ ls, ∃ c0, l.getLast? = some c0 ∧ c0.isWhitespace = false) :
    (linesOf (jsTrimEnd S)).filterMap topf = [k] := by
  obtain ⟨M0, llast, hdecomp⟩ := (List.eq_nil_or_concat ls).resolve_left hne
  rw [List.concat_eq_append] at hdecomp
  subst hdecomp
  obtain ⟨c0, hlast, hc0⟩ := hl3 llast (by simp)
  have hlne : llast ≠ [] := by
    intro h0
    rw [h0] at hlast
    simp at hlast
  have hldecomp : llast = llast.dropLast ++ [c0] := by
    conv_lhs => rw [← List.dropLast_append_getLast hlne]
    rw [List.getLast?_eq_getLast _ hlne] at hlast
    rw [Option.some_inj.mp hlast]
  have hflat : ((M0 ++ [llast]).map (· ++ ['\n'])).flatten =
      ((M0.map (· ++ ['\n'])).flatten ++ llast.dropLast) ++ [c0, '\n'] := by
    rw [List.map_append, List.flatten_append,
      show ([llast].map (· ++ ['\n'])).flatten =
        llast.dropLast ++ [c0, '\n'] from by
          conv_lhs => rw [hldecomp]
          simp]
    simp
  have hS2 : dat S = (dat (k ++ ":\n") ++
      ((M0.map (· ++ ['\n'])).flatten ++ llast.dropLast)) ++ [c0, '\n'] := by
    rw [hS, hflat, ← List.append_assoc]
  have hfull : splitLines (dat S) =
      ([dat (k ++ ":")] ++ (M0 ++ [llast])) ++ [[]] := by
    rw [hS, splitLines_frag_append _ _ _ hk1]
    have hterm := splitLines_terminated_append (M0 ++ [llast]) [] hl1
    simp only [List.append_nil] at hterm
    rw [hterm, show splitLines ([] : List Char) = [[]] from rfl]
    simp
  have h2 := (linesOf_jsTrimEnd S _ c0 hS2 hc0).2
  have hTc : splitLines ((dat (k ++ ":\n") ++
      ((M0.map (· ++ ['\n'])).flatten ++ llast.dropLast)) ++ [c0]) =
      [dat (k ++ ":")] ++ (M0 ++ [llast]) := by
    have h4 : splitLines ((dat (k ++ ":\n") ++
        ((M0.map (· ++ ['\n'])).flatten ++ llast.dropLast)) ++ [c0]) ++
          [([] : List Char)] =
        ([dat (k ++ ":")] ++ (M0 ++ [llast])) ++ [[]] :=
      h2.symm.trans (show linesOf S = _ from hfull)
    exact List.append_cancel_right h4
  rw [(linesOf_jsTrimEnd S _ c0 hS2 hc0).1, hTc]
  have hrest : (M0 ++ [llast]).filterMap topf = [] :=
    filterMap_topf_none _ fun l hl => topf_space l (hl2 l hl)
  rw [List.filterMap_append, List.filterMap_cons, hk2, hrest]
  rfl

/-- A rendered `env` record entry is keyed `env` alone. -/
theorem filterMap_topf_env (pairs : List (String × String))
    (hp : ∀ kv ∈ pairs, NlFree kv.1 ∧ NlFree kv.2) :
    (linesOf (renderYamlEntry ("env", YamlTopVal.venv pairs))).filterMap
      topf = ["env"] := by
  show (linesOf (jsTrimEnd ("env" ++ ":\n" ++
      String.join (pairs.map fun ekv =>
        "  " ++ ekv.1 ++ ": \"" ++ ekv.2 ++ "\"\n")))).filterMap topf = _
  cases pairs with
  | nil => decide
  | cons p rest =>
    have hp2 : ∀ kv ∈ p :: rest, NlFree kv.1 ∧ NlFree kv.2 := hp
    apply filterMap_topf_entryL "env" _
      ((p :: rest).map fun ekv => dat ("  " ++ ekv.1 ++ ": \"" ++ ekv.2 ++ "\""))
    · simp
    · decide
    · decide
    · rw [dat_append, dat_join, List.map_map, List.map_map,
        join_eq_flatten]
      refine congrArg (dat ("env" ++ ":\n") ++ ·)
        (congrArg List.flatten (List.map_congr_left ?_))
      intro ekv hkv
      have e1 : dat "\"\n" = ['"', '\n'] := by decide
      have e2 : dat "\"" = ['"'] := by decide
      simp [Function.comp, dat_append, e1, e2]
    · intro l hl
      obtain ⟨ekv, hkv, rfl⟩ := List.mem_map.1 hl
      obtain ⟨h1, h2⟩ := hp2 ekv hkv
      simp only [dat_append, List.mem_append]
      rintro ((((h | h) | h) | h) | h)
      · exact absurd h (by decide)
      · exact h1 h
      · exact absurd h (by decide)
      · exact h2 h
      · exact absurd h (by decide)
    · intro l hl
      obtain ⟨ekv, hkv, rfl⟩ := List.mem_map.1 hl
      exact head_append_some
        (((dat "  " ++ dat ekv.1) ++ dat ": \"") ++ dat ekv.2) (dat "\"") ' '
        (head_append_some ((dat "  " ++ dat ekv.1) ++ dat ": \"")
          (dat ekv.2) ' '
          (head_append_some (dat "  " ++ dat ekv.1) (dat ": \"") ' '
            (head_append_some (dat "  ") (dat ekv.1) ' ' (by decide))))
    · intro l hl
      obtain ⟨ekv, hkv, rfl⟩ := List.mem_map.1 hl
      exact ⟨'"', List.getLast?_concat _, by decide⟩

theorem build_line_df (d : String) (hd : NlFree d) :
    (linesOf (jsTrimEnd ("build" ++ ":\n" ++
      ("  dockerfile: \"" ++ d ++ "\"\n") ++ ""))).filterMap topf =
      ["build"] := by
  apply filterMap_topf_entryL "build" _ [dat ("  dockerfile: \"" ++ d ++ "\"")]
  · simp
  · decide
  · decide
  · have e1 : dat "\"\n" = ['"', '\n'] := by decide
    have e2 : dat "\"" = ['"'] := by decide
    have e3 : dat "" = [] := by decide
    simp [dat_append, e1, e2, e3]
  · intro l hl
    rw [List.mem_singleton] at hl
    subst hl
    simp only [dat_append, List.mem_append]
    rintro ((h | h) | h)
    · exact absurd h (by decide)
    · exact hd h
    · exact absurd h (by decide)
  · intro l hl
    rw [List.mem_singleton] at hl
    subst hl
    exact head_append_some (dat "  dockerfile: \"" ++ dat d) (dat "\"") ' '
      (head_append_some (dat "  dockerfile: \"") (dat d) ' ' (by decide))
  · intro l hl
    rw [List.mem_singleton] at hl
    subst hl
    exact ⟨'"', List.getLast?_concat _, by decide⟩

theorem build_line_dbp (d : String) (hd : NlFree d) :
    (linesOf (jsTrimEnd ("build" ++ ":\n" ++ "" ++
      ("  dockerBuildPath: \"" ++ d ++ "\"\n")))).filterMap topf =
      ["build"] := by
  apply filterMap_topf_entryL "build" _
    [dat ("  dockerBuildPath: \"" ++ d ++ "\"")]
  · simp
  · decide
  · decide
  · have e1 : dat "\"\n" = ['"', '\n'] := by decide
    have e2 : dat "\"" = ['"'] := by decide
    have e3 : dat "" = [] := by decide
    simp [dat_append, e1, e2, e3]
  · intro l hl
    rw [List.mem_singleton] at hl
    subst hl
    simp only [dat_append, List.mem_append]
    rintro ((h | h) | h)
    · exact absurd h (by decide)
    · exact hd h
    · exact absurd h (by decide)
  · intro l hl
    rw [List.mem_singleton] at hl
    subst hl
    exact head_append_some (dat "  dockerBuildPath: \"" ++ dat d)
      (dat "\"") ' '
      (head_append_some (dat "  dockerBuildPath: \"") (dat d) ' ' (by decide))
  · intro l hl
    rw [List.mem_singleton] at hl
    subst hl
    exact ⟨'"', List.getLast?_concat _, by decide⟩

theorem build_two_lines (d1 d2 : String) (hd1 : NlFree d1)
    (hd2 : NlFree d2) :
    (linesOf (jsTrimEnd ("build" ++ ":\n" ++
      ("  dockerfile: \"" ++ d1 ++ "\"\n") ++
      ("  dockerBuildPath: \"" ++ d2 ++ "\"\n")))).filterMap topf =
      ["build"] := by
  apply filterMap_topf_entryL "build" _
    [dat ("  dockerfile: \"" ++ d1 ++ "\""),
     dat ("  dockerBuildPath: \"" ++ d2 ++ "\"")]
  · simp
  · decide
  · decide
  · have e1 : dat "\"\n" = ['"', '\n'] := by decide
    have e2 : dat "\"" = ['"'] := by decide
    simp [dat_append, e1, e2]
  · intro l hl
    simp only [List.mem_cons, List.not_mem_nil, or_false] at hl
    rcases hl with rfl | rfl <;>
      (simp only [dat_append, List.mem_append]
       rintro ((h | h) | h))
    · exact absurd h (by decide)
    · exact hd1 h
    · exact absurd h (by decide)
    · exact absurd h (by decide)
    · exact hd2 h
    · exact absurd h (by decide)
  · intro l hl
    simp only [List.mem_cons, List.not_mem_nil, or_false] at hl
    rcases hl with rfl | rfl
    · exact head_append_some (dat "  dockerfile: \"" ++ dat d1)
        (dat "\"") ' '
        (head_append_some (dat "  dockerfile: \"") (dat d1) ' ' (by decide))
    · exact head_append_some (dat "  dockerBuildPath: \"" ++ dat d2)
        (dat "\"") ' '
        (head_append_some (dat "  dockerBuildPath: \"") (dat d2) ' '
          (by decide))
  · intro l hl
    simp only [List.mem_cons, List.not_mem_nil, or_false] at hl
    rcases hl with rfl | rfl <;>
      exact ⟨'"', List.getLast?_concat _, by decide⟩

/-- A rendered `build` options entry is keyed `build` alone. -/
theorem filterMap_topf_build (df dbp : Option String)
    (hdf : ∀ d, df = some d → NlFree d)
    (hdbp : ∀ d, dbp = some d → NlFree d) :
    (linesOf (renderYamlEntry ("build", YamlTopVal.vbuild df dbp))).filterMap
      topf = ["build"] := by
  cases df with
  | none =>
    cases dbp with
    | none => decide
    | some d2 =>
      show (linesOf (jsTrimEnd ("build" ++ ":\n" ++ "" ++
        (if d2.isEmpty then ""
         else "  dockerBuildPath: \"" ++ d2 ++ "\"\n")))).filterMap topf = _
      by_cases h2 : d2.isEmpty
      · rw [if_pos h2]
        decide
      · rw [if_neg h2]
        exact build_line_dbp d2 (hdbp d2 rfl)
  | some d1 =>
    cases dbp with
    | none =>
      show (linesOf (jsTrimEnd ("build" ++ ":\n" ++
        (if d1.isEmpty then ""
         else "  dockerfile: \"" ++ d1 ++ "\"\n") ++ ""))).filterMap topf = _
      by_cases h1 : d1.isEmpty
      · rw [if_pos h1]
        decide
      · rw [if_neg h1]
        exact build_line_df d1 (hdf d1 rfl)
    | some d2 =>
      show (linesOf (jsTrimEnd ("build" ++ ":\n" ++
        (if d1.isEmpty then ""
         else "  dockerfile: \"" ++ d1 ++ "\"\n") ++
        (if d2.isEmpty then ""
         else "  dockerBuildPath: \"" ++ d2 ++ "\"\n")))).filterMap topf = _
      by_cases h1 : d1.isEmpty <;> by_cases h2 : d2.isEmpty
      · rw [if_pos h1, if_pos h2]
        decide
      · rw [if_pos h1, if_neg h2]
        exact build_line_dbp d2 (hdbp d2 rfl)
      · rw [if_neg h1, if_pos h2]
        exact build_line_df d1 (hdf d1 rfl)
      · rw [if_neg h1, if_neg h2]
        exact build_two_lines d1 d2 (hdf d1 rfl) (hdbp d2 rfl)

/-- A rendered `startCommand` entry is keyed `startCommand` alone. -/
theorem filterMap_topf_startCommand (type : String) (cf : Option String)
    (cs ec : JObj) (ht : NlFree type)
    (hcs : fragOkB (formatObjectAsYaml (.obj cs) 4) = true)
    (hec : fragOkB (formatObjectAsYaml (.obj ec) 4) = true) :
    (linesOf (renderStartEntry type cf cs ec)).filterMap topf =
      ["startCommand"] := by
  rw [renderStartEntry_lines type cf cs ec ht hcs hec]
  have htype : topf (dat ("  type: \"" ++ type ++ "\"")) = none :=
    topf_space _ (head_append_some (dat "  type: \"" ++ dat type)
      (dat "\"") ' '
      (head_append_some (dat "  type: \"") (dat type) ' ' (by decide)))
  have hCF : (if strTruthy cf then
      [dat "  commandFunction:",
       dat "    # A JS function that produces the CLI command based on the given config to start the MCP on stdio.",
       dat "    |-"] ++
      (splitNl (cf.getD "")).map (fun l => dat ("    " ++ l))
     else []).filterMap topf = [] := by
    split
    · rw [List.filterMap_append,
        filterMap_topf_none _ (by
          intro l hl
          simp only [List.mem_cons, List.not_mem_nil, or_false] at hl
          rcases hl with rfl | rfl | rfl <;> decide),
        filterMap_topf_none _ (by
          intro l hl
          obtain ⟨x, hx, rfl⟩ := List.mem_map.1 hl
          exact topf_space _
            (head_append_some (dat "    ") (dat x) ' ' (by decide)))]
      rfl
    · rfl
  have hCSL : (if cs.isEmpty then [dat "    \x7b\x7d"]
      else (linesOf (formatObjectAsYaml (.obj cs) 4)).dropLast).filterMap
      topf = [] := by
    split
    · decide
    · obtain ⟨L, hL, hheads, -⟩ := fragOk_spec _ hcs
      have hdrop : (linesOf (formatObjectAsYaml (JVal.obj cs) 4)).dropLast =
          L := by
        rw [hL]
        simp
      rw [hdrop]
      exact filterMap_topf_none L fun l hl => topf_space l (hheads l hl)
  have hECL : (if ec.isEmpty then [dat "    \x7b\x7d"]
      else (linesOf (formatObjectAsYaml (.obj ec) 4)).dropLast).filterMap
      topf = [] := by
    split
    · decide
    · obtain ⟨L, hL, hheads, -⟩ := fragOk_spec _ hec
      have hdrop : (linesOf (formatObjectAsYaml (JVal.obj ec) 4)).dropLast =
          L := by
        rw [hL]
        simp
      rw [hdrop]
      exact filterMap_topf_none L fun l hl => topf_space l (hheads l hl)
  have h0 : topf (dat "startCommand:") = some "startCommand" := by decide
  have hc1 : topf (dat "  # JSON Schema defining the configuration options for the MCP.") = none := by decide
  have hc2 : topf (dat "  configSchema:") = none := by decide
  have he1 : topf (dat "  exampleConfig:") = none := by decide
  rw [List.filterMap_append, List.filterMap_append, List.filterMap_append,
    List.filterMap_append, List.filterMap_append, hCF, hCSL, hECL]
  simp only [List.filterMap_cons, List.filterMap_nil, h0, htype, hc1, hc2,
    he1, List.append_nil, List.nil_append]

/-- The line structure of the whole serialized document: the comment
line, the lines of the intercalated entries, and a final empty line. -/
theorem linesOf_generateSmitheryYaml (params : SmitheryYamlParams) :
    linesOf (generateSmitheryYaml params) =
      [dat "# Smithery configuration file: https://smithery.ai/docs/build/project-config/smithery-yaml"] ++
      (linesOf (String.intercalate "\n"
        ((buildYamlContent params).map renderYamlEntry)) ++ [[]]) := by
  show splitLines (dat ("# Smithery configuration file: https://smithery.ai/docs/build/project-config/smithery-yaml\n" ++
      String.intercalate "\n" ((buildYamlContent params).map renderYamlEntry) ++
      "\n")) = _
  have h1 : splitLines (dat "# Smithery configuration file: https://smithery.ai/docs/build/project-config/smithery-yaml\n") =
      [dat "# Smithery configuration file: https://smithery.ai/docs/build/project-config/smithery-yaml"] ++
      [[]] := by decide
  have h2 : dat ("# Smithery configuration file: https://smithery.ai/docs/build/project-config/smithery-yaml\n" ++
      String.intercalate "\n" ((buildYamlContent params).map renderYamlEntry) ++
      "\n") =
      dat "# Smithery configuration file: https://smithery.ai/docs/build/project-config/smithery-yaml\n" ++
      (dat (String.intercalate "\n"
        ((buildYamlContent params).map renderYamlEntry)) ++ '\n' :: []) := by
    have e : dat "\n" = ['\n'] := by decide
    simp [dat_append, e]
  rw [h2, splitLines_frag_append _ _ _ h1, splitLines_break]
  rfl

theorem buildYamlContent_ne_nil (params : SmitheryYamlParams) :
    buildYamlContent params ≠ [] := by
  rw [buildYamlContent_eq]
  split
  · cases params.env <;> simp
  · split
    · cases params.env <;> simp
    · cases params.env <;> simp

/-- The top-level keys of the document are the keys of the built object,
provided every entry renders to a block of lines keyed by its own key. -/
theorem topKeys_generateSmitheryYaml (params : SmitheryYamlParams)
    (h : ∀ kv ∈ buildYamlContent params,
      (linesOf (renderYamlEntry kv)).filterMap topf = [kv.1]) :
    topKeys (generateSmitheryYaml params) =
      (buildYamlContent params).map fun kv => kv.1 := by
  unfold topKeys
  rw [linesOf_generateSmitheryYaml params]
  have hne : (buildYamlContent params).map renderYamlEntry ≠ [] := by
    intro hx
    exact buildYamlContent_ne_nil params (List.map_eq_nil.mp hx)
  have hI : linesOf (String.intercalate "\n"
      ((buildYamlContent params).map renderYamlEntry)) =
      (((buildYamlContent params).map renderYamlEntry).map linesOf).flatten :=
    linesOf_intercalate_flat _ hne
  rw [hI, List.map_map, List.filterMap_append, List.filterMap_append,
    filterMap_flatten, List.map_map]
  have hmap : (buildYamlContent params).map
      ((·.filterMap topf) ∘ (linesOf ∘ renderYamlEntry)) =
      (buildYamlContent params).map (fun kv => [kv.1]) :=
    List.map_congr_left fun kv hkv => h kv hkv
  rw [hmap, flatten_singletons]
  have hcmt : topf (dat "# Smithery configuration file: https://smithery.ai/docs/build/project-config/smithery-yaml") = none := by decide
  have hnil : topf ([] : List Char) = none := by decide
  simp [List.filterMap_cons, hcmt, hnil]

theorem formatObjectAsYaml_nil :
    formatObjectAsYaml (JVal.obj []) 4 = "" := by
  simp [formatObjectAsYaml, formatYamlEntries]

/-! ## Claim C7 -/

/-- **C7** (amended).  The serializer omits the `runtime` and `build`
top-level fields exactly when the runtime is not `typescript` and the
descriptor is a local-only stdio server (`startCommandType = "stdio"`
with a command function); in every other non-typescript case the provided
runtime and build fields are emitted in the order runtime, build,
startCommand, env — but in the `typescript` runtime branch an `env`
record is emitted between `runtime` and `startCommand`, not after it.
Inside `startCommand` the order is always type, commandFunction (when
stdio with a command function), configSchema, exampleConfig. -/
theorem C7_yaml_runtime_build_omission_and_key_order
    (params : SmitheryYamlParams)
    (ht : NlFree params.startCommandType)
    (hcs : fragOkB (formatObjectAsYaml
      (.obj (params.configSchema.getD [])) 4) = true)
    (hec : fragOkB (formatObjectAsYaml
      (.obj (params.exampleConfig.getD [])) 4) = true)
    (hrt : ∀ r, params.runtime = some r → NlFree r)
    (hdf : ∀ d, params.dockerfile = some d → NlFree d)
    (hdbp : ∀ d, params.dockerBuildPath = some d → NlFree d)
    (henv : ∀ e, params.env = some e →
      ∀ kv ∈ e, NlFree kv.1 ∧ NlFree kv.2) :
    topKeys (generateSmitheryYaml params) =
      (if params.runtime = some "typescript" then
        ["runtime"] ++
          (match params.env with
           | some _ => ["env"]
           | none => []) ++ ["startCommand"]
      else if params.startCommandType = "stdio" &&
          strTruthy params.commandFunction then
        ["startCommand"] ++
          (match params.env with
           | some _ => ["env"]
           | none => [])
      else
        (match params.runtime with
         | some r => if r.isEmpty then [] else ["runtime"]
         | none => []) ++
        (if strTruthy params.dockerfile || strTruthy params.dockerBuildPath
         then ["build"] else []) ++
        ["startCommand"] ++
        (match params.env with
         | some _ => ["env"]
         | none => [])) ∧
    linesOf (renderStartEntry params.startCommandType
      (if params.startCommandType = "stdio" &&
          strTruthy params.commandFunction
       then params.commandFunction else none)
      (params.configSchema.getD []) (params.exampleConfig.getD [])) =
      [dat "startCommand:",
       dat ("  type: \"" ++ params.startCommandType ++ "\"")] ++
      (if strTruthy (if params.startCommandType = "stdio" &&
          strTruthy params.commandFunction
       then params.commandFunction else none) then
        [dat "  commandFunction:",
         dat "    # A JS function that produces the CLI command based on the given config to start the MCP on stdio.",
         dat "    |-"] ++
        (splitNl ((if params.startCommandType = "stdio" &&
            strTruthy params.commandFunction
         then params.commandFunction else none).getD "")).map
          (fun l => dat ("    " ++ l))
       else []) ++
      [dat "  # JSON Schema defining the configuration options for the MCP.",
       dat "  configSchema:"] ++
      (if (params.configSchema.getD []).isEmpty then [dat "    \x7b\x7d"]
       else (linesOf (formatObjectAsYaml
        (.obj (params.configSchema.getD [])) 4)).dropLast) ++
      [dat "  exampleConfig:"] ++
      (if (params.exampleConfig.getD []).isEmpty then [dat "    \x7b\x7d"]
       else (linesOf (formatObjectAsYaml
        (.obj (params.exampleConfig.getD [])) 4)).dropLast) := by
  have hentries : ∀ kv ∈ buildYamlContent params,
      (linesOf (renderYamlEntry kv)).filterMap topf = [kv.1] := by
    intro kv hkv
    rw [buildYamlContent_eq] at hkv
    split at hkv
    · rcases List.mem_append.1 hkv with hkv | hkv
      · rcases List.mem_append.1 hkv with hkv | hkv
        · rw [List.mem_singleton.1 hkv]
          exact filterMap_topf_runtime "typescript" (by decide)
        · cases hpe : params.env with
          | none =>
            rw [hpe] at hkv
            simp at hkv
          | some e =>
            rw [hpe] at hkv
            simp only [List.mem_singleton] at hkv
            rw [hkv]
            exact filterMap_topf_env e (henv e hpe)
      · rw [List.mem_singleton.1 hkv]
        exact filterMap_topf_startCommand _ _ _ _ ht hcs hec
    · split at hkv
      · rcases List.mem_append.1 hkv with hkv | hkv
        · rw [List.mem_singleton.1 hkv]
          exact filterMap_topf_startCommand _ _ _ _ ht hcs hec
        · cases hpe : params.env with
          | none =>
            rw [hpe] at hkv
            simp at hkv
          | some e =>
            rw [hpe] at hkv
            simp only [List.mem_singleton] at hkv
            rw [hkv]
            exact filterMap_topf_env e (henv e hpe)
      · rcases List.mem_append.1 hkv with hkv | hkv
        · rcases List.mem_append.1 hkv with hkv | hkv
          · rcases List.mem_append.1 hkv with hkv | hkv
            · cases hpr : params.runtime with
              | none =>
                rw [hpr] at hkv
                simp at hkv
              | some r =>
                rw [hpr] at hkv
                have hkv2 : kv ∈ (if r.isEmpty then []
                    else [("runtime", YamlTopVal.vstr r)]) := hkv
                by_cases hre : r.isEmpty
                · rw [if_pos hre] at hkv2
                  simp at hkv2
                · rw [if_neg hre] at hkv2
                  simp only [List.mem_singleton] at hkv2
                  rw [hkv2]
                  exact filterMap_topf_runtime r (hrt r hpr)
            · split at hkv
              · simp only [List.mem_singleton] at hkv
                rw [hkv]
                exact filterMap_topf_build _ _ hdf hdbp
              · simp at hkv
          · rw [List.mem_singleton.1 hkv]
            exact filterMap_topf_startCommand _ _ _ _ ht hcs hec
        · cases hpe : params.env with
          | none =>
            rw [hpe] at hkv
            simp at hkv
          | some e =>
            rw [hpe] at hkv
            simp only [List.mem_singleton] at hkv
            rw [hkv]
            exact filterMap_topf_env e (henv e hpe)
  constructor
  · rw [topKeys_generateSmitheryYaml params hentries, buildYamlContent_eq]
    split
    · cases params.env <;> simp
    · split
      · cases params.env <;> simp
      · by_cases hb : (strTruthy params.dockerfile ||
            strTruthy params.dockerBuildPath) = true <;>
          cases hpe : params.env <;>
            cases hpr : params.runtime <;>
              simp [hb] <;> (split <;> simp)
  · exact renderStartEntry_lines _ _ _ _ ht hcs hec

/-- **C7 counterexample.**  For a typescript-runtime descriptor with an
`env` record the serializer emits `env` between `runtime` and
`startCommand`, so the claimed fixed top-level order
runtime, build, startCommand, env does not hold. -/
theorem C7_counterexample_env_before_startCommand :
    topKeys (generateSmitheryYaml
      { runtime := some "typescript", startCommandType := "http",
        env := some [("API_KEY", "x")] }) =
      ["runtime", "env", "startCommand"] ∧
    topKeys (generateSmitheryYaml
      { runtime := some "typescript", startCommandType := "http",
        env := some [("API_KEY", "x")] }) ≠
      ["runtime", "startCommand", "env"] := by
  constructor <;> decide

/-- Closed witness for C7: a local-only stdio descriptor (runtime
`docker`, stdio with a command function, an `env` record) serializes with
`runtime` and `build` omitted and keys `startCommand`, `env`. -/
theorem C7_yaml_runtime_build_omission_witness :
    NlFree "stdio" ∧
    topKeys (generateSmitheryYaml
      { runtime := some "docker", startCommandType := "stdio",
        commandFunction := some "run", env := some [("A", "b")] }) =
      ["startCommand", "env"] := by
  refine ⟨by decide, ?_⟩
  have hfe : fragOkB (formatObjectAsYaml (JVal.obj []) 4) = true := by
    rw [formatObjectAsYaml_nil]
    decide
  exact (C7_yaml_runtime_build_omission_and_key_order
    { runtime := some "docker", startCommandType := "stdio",
      commandFunction := some "run", env := some [("A", "b")] }
    (by decide) hfe hfe
    (by intro r hr; cases hr; decide)
    (by intro d hd; cases hd)
    (by intro d hd; cases hd)
    (by intro e he; cases he; decide)).1.trans (by decide)

/-! ## Claim C10 -/

theorem startCommand_mem_buildYamlContent (params : SmitheryYamlParams) :
    ("startCommand", YamlTopVal.vstart params.startCommandType
      (if params.startCommandType = "stdio" &&
          strTruthy params.commandFunction
       then params.commandFunction else none)
      (params.configSchema.getD []) (params.exampleConfig.getD [])) ∈
      buildYamlContent params := by
  rw [buildYamlContent_eq]
  split
  · simp
  · split <;> simp

/-- **C10.**  For every input of the deployment-descriptor serializer the
emitted `startCommand` block contains both a `configSchema` and an
`exampleConfig` entry; when the corresponding parameter is absent the
entry body is the empty object, rendered as the line `    \x7b\x7d`
directly after the entry header. -/
theorem C10_configSchema_exampleConfig_always_present
    (params : SmitheryYamlParams)
    (ht : NlFree params.startCommandType)
    (hcs : fragOkB (formatObjectAsYaml
      (.obj (params.configSchema.getD [])) 4) = true)
    (hec : fragOkB (formatObjectAsYaml
      (.obj (params.exampleConfig.getD [])) 4) = true) :
    hasLine "  configSchema:" (generateSmitheryYaml params) ∧
    hasLine "  exampleConfig:" (generateSmitheryYaml params) ∧
    (params.configSchema = none →
      [dat "  configSchema:", dat "    \x7b\x7d"] <:+:
        linesOf (generateSmitheryYaml params)) ∧
    (params.exampleConfig = none →
      [dat "  exampleConfig:", dat "    \x7b\x7d"] <:+:
        linesOf (generateSmitheryYaml params)) := by
  have hmem := startCommand_mem_buildYamlContent params
  have hlines := renderStartEntry_lines params.startCommandType
    (if params.startCommandType = "stdio" &&
        strTruthy params.commandFunction
     then params.commandFunction else none)
    (params.configSchema.getD []) (params.exampleConfig.getD []) ht hcs hec
  have hinf : linesOf (renderStartEntry params.startCommandType
      (if params.startCommandType = "stdio" &&
          strTruthy params.commandFunction
       then params.commandFunction else none)
      (params.configSchema.getD []) (params.exampleConfig.getD [])) <:+:
      linesOf (generateSmitheryYaml params) := by
    rw [linesOf_generateSmitheryYaml params]
    have hne : (buildYamlContent params).map renderYamlEntry ≠ [] := fun hx =>
      buildYamlContent_ne_nil params (List.map_eq_nil.mp hx)
    rw [linesOf_intercalate_flat _ hne]
    have hm1 : renderStartEntry params.startCommandType
        (if params.startCommandType = "stdio" &&
            strTruthy params.commandFunction
         then params.commandFunction else none)
        (params.configSchema.getD []) (params.exampleConfig.getD []) ∈
        (buildYamlContent params).map renderYamlEntry :=
      List.mem_map.2 ⟨_, hmem, rfl⟩
    have hm2 := List.mem_map_of_mem linesOf hm1
    have hflat := List.infix_of_mem_join hm2
    obtain ⟨s, t, hst⟩ := hflat
    refine ⟨[dat "# Smithery configuration file: https://smithery.ai/docs/build/project-config/smithery-yaml"] ++ s,
      t ++ [[]], ?_⟩
    rw [← hst]
    simp
  refine ⟨?_, ?_, ?_, ?_⟩
  · apply hinf.sublist.subset
    rw [hlines]
    simp
  · apply hinf.sublist.subset
    rw [hlines]
    simp
  · intro hnone
    have hcs0 : params.configSchema.getD [] = ([] : JObj) := by
      rw [hnone]
      rfl
    refine List.IsInfix.trans ?_ hinf
    rw [hlines, hcs0]
    simp only [List.isEmpty_nil, if_true]
    refine ⟨[dat "startCommand:",
      dat ("  type: \"" ++ params.startCommandType ++ "\"")] ++
      (if strTruthy (if params.startCommandType = "stdio" &&
          strTruthy params.commandFunction
       then params.commandFunction else none) then
        [dat "  commandFunction:",
         dat "    # A JS function that produces the CLI command based on the given config to start the MCP on stdio.",
         dat "    |-"] ++
        (splitNl ((if params.startCommandType = "stdio" &&
            strTruthy params.commandFunction
         then params.commandFunction else none).getD "")).map
          (fun l => dat ("    " ++ l))
       else []) ++
      [dat "  # JSON Schema defining the configuration options for the MCP."],
      [dat "  exampleConfig:"] ++
      (if (params.exampleConfig.getD []).isEmpty then [dat "    \x7b\x7d"]
       else (linesOf (formatObjectAsYaml
        (.obj (params.exampleConfig.getD [])) 4)).dropLast), ?_⟩
    simp
  · intro hnone
    have hec0 : params.exampleConfig.getD [] = ([] : JObj) := by
      rw [hnone]
      rfl
    refine List.IsInfix.trans ?_ hinf
    rw [hlines, hec0]
    simp only [List.isEmpty_nil, if_true]
    refine ⟨[dat "startCommand:",
      dat ("  type: \"" ++ params.startCommandType ++ "\"")] ++
      (if strTruthy (if params.startCommandType = "stdio" &&
          strTruthy params.commandFunction
       then params.commandFunction else none) then
        [dat "  commandFunction:",
         dat "    # A JS function that produces the CLI command based on the given config to start the MCP on stdio.",
         dat "    |-"] ++
        (splitNl ((if params.startCommandType = "stdio" &&
            strTruthy params.commandFunction
         then params.commandFunction else none).getD "")).map
          (fun l => dat ("    " ++ l))
       else []) ++
      [dat "  # JSON Schema defining the configuration options for the MCP.",
       dat "  configSchema:"] ++
      (if (params.configSchema.getD []).isEmpty then [dat "    \x7b\x7d"]
       else (linesOf (formatObjectAsYaml
        (.obj (params.configSchema.getD [])) 4)).dropLast),
      ([] : List (List Char)), ?_⟩
    simp

/-- Closed witness for C10: with neither schema parameter supplied, the
output has `configSchema` and `exampleConfig` headers each followed by an
empty-object line. -/
theorem C10_configSchema_exampleConfig_witness :
    NlFree "http" ∧
    hasLine "  configSchema:"
      (generateSmitheryYaml { startCommandType := "http" }) ∧
    ([dat "  configSchema:", dat "    \x7b\x7d"] <:+:
      linesOf (generateSmitheryYaml { startCommandType := "http" })) := by
  have hfe : fragOkB (formatObjectAsYaml (JVal.obj []) 4) = true := by
    rw [formatObjectAsYaml_nil]
    decide
  refine ⟨by decide, ?_, ?_⟩
  · exact (C10_configSchema_exampleConfig_always_present
      { startCommandType := "http" } (by decide) hfe hfe).1
  · exact (C10_configSchema_exampleConfig_always_present
      { startCommandType := "http" } (by decide) hfe hfe).2.2.1 rfl

/-! ## Block line enumeration -/

theorem flatten_terminated_eq_unsplit (L : List (List Char)) (hL : L ≠ []) :
    (L.map (· ++ ['\n'])).flatten = unsplit L ++ ['\n'] := by
  induction L with
  | nil => exact absurd rfl hL
  | cons l rest ih =>
    cases rest with
    | nil => simp [unsplit]
    | cons m ms =>
      rw [List.map_cons, List.flatten_cons, ih (by simp),
        unsplit_cons_cons]
      simp

theorem terminated_flatten_linesOf (s : String) :
    ((linesOf s).map (· ++ ['\n'])).flatten = dat s ++ ['\n'] := by
  rw [flatten_terminated_eq_unsplit _ (linesOf_ne_nil s)]
  unfold linesOf
  rw [unsplit_splitLines]

/-- The lines of a string assembled as newline-terminated lines followed
by one unterminated final line. -/
theorem linesOf_structured (S : String) (ls : List (List Char))
    (lastL : List Char)
    (hS : dat S = (ls.map (· ++ ['\n'])).flatten ++ lastL)
    (hnl : ∀ l ∈ ls, '\n' ∉ l) (hlast : '\n' ∉ lastL) :
    linesOf S = ls ++ [lastL] := by
  unfold linesOf
  rw [hS, splitLines_terminated_append ls lastL hnl,
    splitLines_eq_single hlast]

theorem linesOf_sep2 (a b : String) :
    linesOf (a ++ "\n\n" ++ b) = linesOf a ++ [[]] ++ linesOf b := by
  unfold linesOf
  rw [show dat (a ++ "\n\n" ++ b) =
      dat a ++ '\n' :: ('\n' :: dat b) from by
    have e : dat "\n\n" = ['\n', '\n'] := by decide
    simp [dat_append, e]]
  rw [splitLines_break, splitLines_newline_cons]
  simp

theorem linesOf_sep1 (a b : String) :
    linesOf (a ++ "\n" ++ b) = linesOf a ++ linesOf b := by
  unfold linesOf
  rw [show dat (a ++ "\n" ++ b) = dat a ++ '\n' :: dat b from by
    have e : dat "\n" = ['\n'] := by decide
    simp [dat_append, e]]
  rw [splitLines_break]

theorem NlFree_append (a b : String) (ha : NlFree a) (hb : NlFree b) :
    NlFree (a ++ b) := by
  unfold NlFree at *
  rw [dat_append]
  simp only [List.mem_append, not_or]
  exact ⟨ha, hb⟩

theorem nlf_nil : ∀ l ∈ ([] : List (List Char)), '\n' ∉ l := by simp

theorem nlf_cons {x : List Char} {A : List (List Char)} (hx : '\n' ∉ x)
    (hA : ∀ l ∈ A, '\n' ∉ l) : ∀ l ∈ x :: A, '\n' ∉ l := by
  intro l hl
  rcases List.mem_cons.1 hl with rfl | hl
  · exact hx
  · exact hA l hl

theorem nlf_append {A B : List (List Char)} (hA : ∀ l ∈ A, '\n' ∉ l)
    (hB : ∀ l ∈ B, '\n' ∉ l) : ∀ l ∈ A ++ B, '\n' ∉ l := by
  intro l hl
  rcases List.mem_append.1 hl with hl | hl
  · exact hA l hl
  · exact hB l hl

theorem nlf_ite {c : Prop} [Decidable c] {A B : List (List Char)}
    (hA : ∀ l ∈ A, '\n' ∉ l) (hB : ∀ l ∈ B, '\n' ∉ l) :
    ∀ l ∈ (if c then A else B), '\n' ∉ l := by
  split
  · exact hA
  · exact hB

/-- The line structure of a fully-registered CLI tool block. -/
theorem cliToolBlock_lines (t : McpTool) (hc : Bool) (h : cliToolOk t) :
    linesOf (cliToolBlock t hc) =
      [dat ("  // Tool: " ++ t.name),
       dat "  server.registerTool(",
       dat ("    \"" ++ t.name ++ "\","),
       dat "    \x7b",
       dat ("      title: \"" ++ jsTitleCase t.name ++ "\","),
       dat ("      description: \"" ++ t.description ++ "\",")] ++
      (match t.inputSchema with
       | some s => [dat "      inputSchema: \x7b"] ++
           linesOf (generateZodSchemaFromJson s "        ") ++
           [dat "      \x7d"]
       | none => [dat "      inputSchema: \x7b\x7d"]) ++
      ([dat "    \x7d,",
        dat "    async (request) => \x7b",
        dat ("      // TODO: Implement tool handler for " ++ t.name)] ++
       (if hc then [dat "      // TODO: Use the config parameter for API calls, timeout settings, etc."]
        else []) ++
       [dat ("      console.log(\x27Tool " ++ t.name ++
         " called with args:\x27, request);")] ++
       (if hc then [dat "      console.log(\x27Available config:\x27, config);"]
        else []) ++
       [dat "      return \x7b",
        dat "        content: [\x7b",
        dat "          type: \"text\" as const,",
        dat ("          text: \"Tool " ++ t.name ++
          " executed successfully\""),
        dat "        \x7d]",
        dat "      \x7d;",
        dat "    \x7d"]) ++ [dat "  );"] := by
  obtain ⟨hn, hd, ht, hz⟩ := h
  refine linesOf_structured _ _ _ ?_ ?_ (by decide)
  · unfold cliToolBlock
    have e2 : dat "\n  server.registerTool(\n    \"" =
        ['\n'] ++ dat "  server.registerTool(" ++ ['\n'] ++ dat "    \"" := by
      decide
    have e3 : dat "\",\n    \x7b\n      title: \"" =
        dat "\"," ++ ['\n'] ++ dat "    \x7b" ++ ['\n'] ++
          dat "      title: \"" := by decide
    have e4 : dat "\",\n      description: \"" =
        dat "\"," ++ ['\n'] ++ dat "      description: \"" := by decide
    have e5 : dat "\",\n" = dat "\"," ++ ['\n'] := by decide
    have e6 : dat "\n    \x7d,\n    async (request) => \x7b\n      // TODO: Implement tool handler for " =
        ['\n'] ++ dat "    \x7d," ++ ['\n'] ++
          dat "    async (request) => \x7b" ++ ['\n'] ++
          dat "      // TODO: Implement tool handler for " := by decide
    have e7 : dat "\n      console.log(\x27Tool " =
        ['\n'] ++ dat "      console.log(\x27Tool " := by decide
    have e9 : dat "\n      return \x7b\n        content: [\x7b\n          type: \"text\" as const,\n          text: \"Tool " =
        ['\n'] ++ dat "      return \x7b" ++ ['\n'] ++
          dat "        content: [\x7b" ++ ['\n'] ++
          dat "          type: \"text\" as const," ++ ['\n'] ++
          dat "          text: \"Tool " := by decide
    have e10 : dat " executed successfully\"\n        \x7d]\n      \x7d;\n    \x7d\n  );" =
        dat " executed successfully\"" ++ ['\n'] ++ dat "        \x7d]" ++
          ['\n'] ++ dat "      \x7d;" ++ ['\n'] ++ dat "    \x7d" ++ ['\n'] ++
          dat "  );" := by decide
    have eIS1 : dat "      inputSchema: \x7b\n" =
        dat "      inputSchema: \x7b" ++ ['\n'] := by decide
    have eIS2 : dat "\n      \x7d" = ['\n'] ++ dat "      \x7d" := by decide
    have eCC : dat "\n      // TODO: Use the config parameter for API calls, timeout settings, etc." =
        ['\n'] ++ dat "      // TODO: Use the config parameter for API calls, timeout settings, etc." := by
      decide
    have eCL : dat "\n      console.log(\x27Available config:\x27, config);" =
        ['\n'] ++ dat "      console.log(\x27Available config:\x27, config);" := by
      decide
    cases hsch : t.inputSchema <;> cases hc <;>
      simp [dat_append, terminated_flatten_linesOf, e2, e3, e4, e5, e6, e7,
        e9, e10, eIS1, eIS2, eCC, eCL]
  · refine nlf_append (nlf_append ?_ ?_) ?_
    · refine nlf_cons (NlFree_append _ _ (by decide) hn) (nlf_cons (by decide)
        (nlf_cons (NlFree_append _ _ (NlFree_append _ _ (by decide) hn)
          (by decide))
        (nlf_cons (by decide)
        (nlf_cons (NlFree_append _ _ (NlFree_append _ _ (by decide) ht)
          (by decide))
        (nlf_cons (NlFree_append _ _ (NlFree_append _ _ (by decide) hd)
          (by decide)) nlf_nil)))))
    · cases hsch : t.inputSchema with
      | none => exact nlf_cons (by decide) nlf_nil
      | some s =>
        refine nlf_append (nlf_append (nlf_cons (by decide) nlf_nil) ?_)
          (nlf_cons (by decide) nlf_nil)
        exact fun l hl => splitLines_no_nl _ l hl
    · refine nlf_append (nlf_append (nlf_append (nlf_append ?_ ?_) ?_) ?_) ?_
      · exact nlf_cons (by decide) (nlf_cons (by decide)
          (nlf_cons (NlFree_append _ _ (by decide) hn) nlf_nil))
      · exact nlf_ite (nlf_cons (by decide) nlf_nil) nlf_nil
      · exact nlf_cons (NlFree_append _ _ (NlFree_append _ _ (by decide) hn)
          (by decide)) nlf_nil
      · exact nlf_ite (nlf_cons (by decide) nlf_nil) nlf_nil
      · exact nlf_cons (by decide) (nlf_cons (by decide)
          (nlf_cons (by decide)
          (nlf_cons (NlFree_append _ _ (NlFree_append _ _ (by decide) hn)
            (by decide))
          (nlf_cons (by decide)
          (nlf_cons (by decide)
          (nlf_cons (by decide) nlf_nil))))))

/-- The line structure of a custom-container tool block. -/
theorem ccToolBlock_lines (t : McpTool) (hc : Bool) (h : cliToolOk t) :
    linesOf (ccToolBlock t hc) =
      [dat ("  // Tool: " ++ t.name),
       dat "  server.registerTool(",
       dat ("    \"" ++ t.name ++ "\","),
       dat "    \x7b",
       dat ("      title: \"" ++ jsTitleCase t.name ++ "\","),
       dat ("      description: \"" ++ t.description ++ "\",")] ++
      (match t.inputSchema with
       | some s => [dat "      inputSchema: \x7b"] ++
           linesOf (generateZodSchemaFromJson s "        ") ++
           [dat "      \x7d"]
       | none => [dat "      inputSchema: \x7b\x7d"]) ++
      ([dat "    \x7d,",
        dat "    async (params) => \x7b",
        dat ("      // TODO: Implement tool handler for " ++ t.name)] ++
       (if hc then [dat "      // TODO: Use the config parameter for API calls, timeout settings, etc."]
        else []) ++
       [dat ("      console.log(\x27Tool " ++ t.name ++
         " called with params:\x27, params);")] ++
       (if hc then [dat "      console.log(\x27Available config:\x27, config);"]
        else []) ++
       [dat "      return \x7b",
        dat "        content: [\x7b",
        dat "          type: \"text\",",
        dat ("          text: \"Tool " ++ t.name ++
          " executed successfully\""),
        dat "        \x7d]",
        dat "      \x7d;",
        dat "    \x7d"]) ++ [dat "  );"] := by
  obtain ⟨hn, hd, ht, hz⟩ := h
  refine linesOf_structured _ _ _ ?_ ?_ (by decide)
  · unfold ccToolBlock
    have e2 : dat "\n  server.registerTool(\n    \"" =
        ['\n'] ++ dat "  server.registerTool(" ++ ['\n'] ++ dat "    \"" := by
      decide
    have e3 : dat "\",\n    \x7b\n      title: \"" =
        dat "\"," ++ ['\n'] ++ dat "    \x7b" ++ ['\n'] ++
          dat "      title: \"" := by decide
    have e4 : dat "\",\n      description: \"" =
        dat "\"," ++ ['\n'] ++ dat "      description: \"" := by decide
    have e5 : dat "\",\n" = dat "\"," ++ ['\n'] := by decide
    have e6 : dat "\n    \x7d,\n    async (params) => \x7b\n      // TODO: Implement tool handler for " =
        ['\n'] ++ dat "    \x7d," ++ ['\n'] ++
          dat "    async (params) => \x7b" ++ ['\n'] ++
          dat "      // TODO: Implement tool handler for " := by decide
    have e7 : dat "\n      console.log(\x27Tool " =
        ['\n'] ++ dat "      console.log(\x27Tool " := by decide
    have e9 : dat "\n      return \x7b\n        content: [\x7b\n          type: \"text\",\n          text: \"Tool " =
        ['\n'] ++ dat "      return \x7b" ++ ['\n'] ++
          dat "        content: [\x7b" ++ ['\n'] ++
          dat "          type: \"text\"," ++ ['\n'] ++
          dat "          text: \"Tool " := by decide
    have e10 : dat " executed successfully\"\n        \x7d]\n      \x7d;\n    \x7d\n  );" =
        dat " executed successfully\"" ++ ['\n'] ++ dat "        \x7d]" ++
          ['\n'] ++ dat "      \x7d;" ++ ['\n'] ++ dat "    \x7d" ++ ['\n'] ++
          dat "  );" := by decide
    have eIS1 : dat "      inputSchema: \x7b\n" =
        dat "      inputSchema: \x7b" ++ ['\n'] := by decide
    have eIS2 : dat "\n      \x7d" = ['\n'] ++ dat "      \x7d" := by decide
    have eCC : dat "\n      // TODO: Use the config parameter for API calls, timeout settings, etc." =
        ['\n'] ++ dat "      // TODO: Use the config parameter for API calls, timeout settings, etc." := by
      decide
    have eCL : dat "\n      console.log(\x27Available config:\x27, config);" =
        ['\n'] ++ dat "      console.log(\x27Available config:\x27, config);" := by
      decide
    cases hsch : t.inputSchema <;> cases hc <;>
      simp [dat_append, terminated_flatten_linesOf, e2, e3, e4, e5, e6, e7,
        e9, e10, eIS1, eIS2, eCC, eCL]
  · refine nlf_append (nlf_append ?_ ?_) ?_
    · refine nlf_cons (NlFree_append _ _ (by decide) hn) (nlf_cons (by decide)
        (nlf_cons (NlFree_append _ _ (NlFree_append _ _ (by decide) hn)
          (by decide))
        (nlf_cons (by decide)
        (nlf_cons (NlFree_append _ _ (NlFree_append _ _ (by decide) ht)
          (by decide))
        (nlf_cons (NlFree_append _ _ (NlFree_append _ _ (by decide) hd)
          (by decide)) nlf_nil)))))
    · cases hsch : t.inputSchema with
      | none => exact nlf_cons (by decide) nlf_nil
      | some s =>
        refine nlf_append (nlf_append (nlf_cons (by decide) nlf_nil) ?_)
          (nlf_cons (by decide) nlf_nil)
        exact fun l hl => splitLines_no_nl _ l hl
    · refine nlf_append (nlf_append (nlf_append (nlf_append ?_ ?_) ?_) ?_) ?_
      · exact nlf_cons (by decide) (nlf_cons (by decide)
          (nlf_cons (NlFree_append _ _ (by decide) hn) nlf_nil))
      · exact nlf_ite (nlf_cons (by decide) nlf_nil) nlf_nil
      · exact nlf_cons (NlFree_append _ _ (NlFree_append _ _ (by decide) hn)
          (by decide)) nlf_nil
      · exact nlf_ite (nlf_cons (by decide) nlf_nil) nlf_nil
      · exact nlf_cons (by decide) (nlf_cons (by decide)
          (nlf_cons (by decide)
          (nlf_cons (NlFree_append _ _ (NlFree_append _ _ (by decide) hn)
            (by decide))
          (nlf_cons (by decide)
          (nlf_cons (by decide)
          (nlf_cons (by decide) nlf_nil))))))

/-- The line structure of a python tool block: a decorated handler. -/
theorem pyToolBlock_lines (t : McpTool) (cs : Option JSchema)
    (h : pyToolOk t) :
    linesOf (pyToolBlock t cs) =
      [dat ("# Tool: " ++ t.name),
       dat "@mcp.tool()",
       dat ("def " ++ dashToUscore (sanitizeId t.name) ++ "() -> str:"),
       dat ("    \"\"\"" ++ t.description ++ "\"\"\"")] ++
      linesOf (pyConfigAccessCode cs) ++
      [dat ("    # TODO: Implement tool logic for " ++ t.name)] ++
      [dat ("    return f\"Tool " ++ t.name ++
        " executed successfully\"")] := by
  obtain ⟨hn, hd, hf⟩ := h
  refine linesOf_structured _ _ _ ?_ ?_
    (NlFree_append _ _ (NlFree_append _ _ (by decide) hn) (by decide))
  · unfold pyToolBlock
    have ep1 : dat "\n@mcp.tool()\ndef " =
        ['\n'] ++ dat "@mcp.tool()" ++ ['\n'] ++ dat "def " := by decide
    have ep2 : dat "() -> str:\n    \"\"\"" =
        dat "() -> str:" ++ ['\n'] ++ dat "    \"\"\"" := by decide
    have ep3 : dat "\"\"\"\n" = dat "\"\"\"" ++ ['\n'] := by decide
    have ep4 : dat "\n    # TODO: Implement tool logic for " =
        ['\n'] ++ dat "    # TODO: Implement tool logic for " := by decide
    have ep5 : dat "\n    return f\"Tool " =
        ['\n'] ++ dat "    return f\"Tool " := by decide
    simp [dat_append, terminated_flatten_linesOf, ep1, ep2, ep3, ep4, ep5]
  · refine nlf_append (nlf_append ?_ ?_) ?_
    · exact nlf_cons (NlFree_append _ _ (by decide) hn)
        (nlf_cons (by decide)
        (nlf_cons (NlFree_append _ _ (NlFree_append _ _ (by decide) hf)
          (by decide))
        (nlf_cons (NlFree_append _ _ (NlFree_append _ _ (by decide) hd)
          (by decide)) nlf_nil)))
    · exact fun l hl => splitLines_no_nl _ l hl
    · exact nlf_cons (NlFree_append _ _ (by decide) hn) nlf_nil

theorem cnt_M1_cliBlock (t : McpTool) (hc : Bool) (h : cliToolOk t) :
    cnt "  server.registerTool(" (cliToolBlock t hc) = 1 := by
  have hz := h.2.2.2
  unfold cnt
  rw [cliToolBlock_lines t hc h]
  have f1 : isPre (dat "  server.registerTool(")
      (dat ("  // Tool: " ++ t.name)) = false :=
    isPre_append_eq_false (dat t.name)
      (show isPre (dat "  server.registerTool(") (dat "  // Tool: ") =
        false by decide)
      (show isPre (dat "  // Tool: ") (dat "  server.registerTool(") =
        false by decide)
  have f3 : isPre (dat "  server.registerTool(")
      (dat ("    \"" ++ t.name ++ "\",")) = false :=
    isPre_append_eq_false (dat t.name ++ dat "\",")
      (show isPre (dat "  server.registerTool(") (dat "    \"") =
        false by decide)
      (show isPre (dat "    \"") (dat "  server.registerTool(") =
        false by decide)
  have f5 : isPre (dat "  server.registerTool(")
      (dat ("      title: \"" ++ jsTitleCase t.name ++ "\",")) = false :=
    isPre_append_eq_false (dat (jsTitleCase t.name) ++ dat "\",")
      (show isPre (dat "  server.registerTool(") (dat "      title: \"") =
        false by decide)
      (show isPre (dat "      title: \"") (dat "  server.registerTool(") =
        false by decide)
  have f6 : isPre (dat "  server.registerTool(")
      (dat ("      description: \"" ++ t.description ++ "\",")) = false :=
    isPre_append_eq_false (dat t.description ++ dat "\",")
      (show isPre (dat "  server.registerTool(")
        (dat "      description: \"") = false by decide)
      (show isPre (dat "      description: \"")
        (dat "  server.registerTool(") = false by decide)
  have f9 : isPre (dat "  server.registerTool(")
      (dat ("      // TODO: Implement tool handler for " ++ t.name)) =
      false :=
    isPre_append_eq_false (dat t.name)
      (show isPre (dat "  server.registerTool(")
        (dat "      // TODO: Implement tool handler for ") = false by decide)
      (show isPre (dat "      // TODO: Implement tool handler for ")
        (dat "  server.registerTool(") = false by decide)
  have f10 : isPre (dat "  server.registerTool(")
      (dat ("      console.log(\x27Tool " ++ t.name ++
        " called with args:\x27, request);")) = false :=
    isPre_append_eq_false (dat t.name ++ dat " called with args:\x27, request);")
      (show isPre (dat "  server.registerTool(")
        (dat "      console.log(\x27Tool ") = false by decide)
      (show isPre (dat "      console.log(\x27Tool ")
        (dat "  server.registerTool(") = false by decide)
  have f13 : isPre (dat "  server.registerTool(")
      (dat ("          text: \"Tool " ++ t.name ++
        " executed successfully\"")) = false :=
    isPre_append_eq_false (dat t.name ++ dat " executed successfully\"")
      (show isPre (dat "  server.registerTool(")
        (dat "          text: \"Tool ") = false by decide)
      (show isPre (dat "          text: \"Tool ")
        (dat "  server.registerTool(") = false by decide)
  have hz0 : ∀ o, zodIndentOk o →
      (match o with
       | some s => [dat "      inputSchema: \x7b"] ++
           linesOf (generateZodSchemaFromJson s "        ") ++
           [dat "      \x7d"]
       | none => [dat "      inputSchema: \x7b\x7d"]).countP
        (fun l => isPre (dat "  server.registerTool(") l) = 0 := by
    intro o ho
    cases o with
    | none => decide
    | some s =>
      rw [List.countP_append, List.countP_append]
      have : (linesOf (generateZodSchemaFromJson s "        ")).countP
          (fun l => isPre (dat "  server.registerTool(") l) = 0 := by
        rw [List.countP_eq_zero]
        intro l hl
        obtain ⟨x, hx⟩ := eq_append_of_isPre (ho l hl)
        rw [← hx]
        simp [isPre_append_eq_false x (by decide : isPre
          (dat "  server.registerTool(") (dat "        ") = false)
          (by decide : isPre (dat "        ")
            (dat "  server.registerTool(") = false)]
      rw [this]
      decide
  rw [List.countP_append, List.countP_append, List.countP_append,
    List.countP_append, List.countP_append, List.countP_append,
    List.countP_append, hz0 t.inputSchema hz]
  simp +decide [List.countP_cons, f1, f3, f5, f6, f9, f10, f13]

theorem cnt_M2_cliBlock (t : McpTool) (hc : Bool) (h : cliToolOk t) :
    cnt "  // TODO: Register tool \"" (cliToolBlock t hc) = 0 := by
  have hz := h.2.2.2
  unfold cnt
  rw [cliToolBlock_lines t hc h]
  have f1 : isPre (dat "  // TODO: Register tool \"")
      (dat ("  // Tool: " ++ t.name)) = false :=
    isPre_append_eq_false (dat t.name)
      (show isPre (dat "  // TODO: Register tool \"") (dat "  // Tool: ") =
        false by decide)
      (show isPre (dat "  // Tool: ") (dat "  // TODO: Register tool \"") =
        false by decide)
  have f3 : isPre (dat "  // TODO: Register tool \"")
      (dat ("    \"" ++ t.name ++ "\",")) = false :=
    isPre_append_eq_false (dat t.name ++ dat "\",")
      (show isPre (dat "  // TODO: Register tool \"") (dat "    \"") =
        false by decide)
      (show isPre (dat "    \"") (dat "  // TODO: Register tool \"") =
        false by decide)
  have f5 : isPre (dat "  // TODO: Register tool \"")
      (dat ("      title: \"" ++ jsTitleCase t.name ++ "\",")) = false :=
    isPre_append_eq_false (dat (jsTitleCase t.name) ++ dat "\",")
      (show isPre (dat "  // TODO: Register tool \"")
        (dat "      title: \"") = false by decide)
      (show isPre (dat "      title: \"")
        (dat "  // TODO: Register tool \"") = false by decide)
  have f6 : isPre (dat "  // TODO: Register tool \"")
      (dat ("      description: \"" ++ t.description ++ "\",")) = false :=
    isPre_append_eq_false (dat t.description ++ dat "\",")
      (show isPre (dat "  // TODO: Register tool \"")
        (dat "      description: \"") = false by decide)
      (show isPre (dat "      description: \"")
        (dat "  // TODO: Register tool \"") = false by decide)
  have f9 : isPre (dat "  // TODO: Register tool \"")
      (dat ("      // TODO: Implement tool handler for " ++ t.name)) =
      false :=
    isPre_append_eq_false (dat t.name)
      (show isPre (dat "  // TODO: Register tool \"")
        (dat "      // TODO: Implement tool handler for ") = false by decide)
      (show isPre (dat "      // TODO: Implement tool handler for ")
        (dat "  // TODO: Register tool \"") = false by decide)
  have f10 : isPre (dat "  // TODO: Register tool \"")
      (dat ("      console.log(\x27Tool " ++ t.name ++
        " called with args:\x27, request);")) = false :=
    isPre_append_eq_false (dat t.name ++ dat " called with args:\x27, request);")
      (show isPre (dat "  // TODO: Register tool \"")
        (dat "      console.log(\x27Tool ") = false by decide)
      (show isPre (dat "      console.log(\x27Tool ")
        (dat "  // TODO: Register tool \"") = false by decide)
  have f13 : isPre (dat "  // TODO: Register tool \"")
      (dat ("          text: \"Tool " ++ t.name ++
        " executed successfully\"")) = false :=
    isPre_append_eq_false (dat t.name ++ dat " executed successfully\"")
      (show isPre (dat "  // TODO: Register tool \"")
        (dat "          text: \"Tool ") = false by decide)
      (show isPre (dat "          text: \"Tool ")
        (dat "  // TODO: Register tool \"") = false by decide)
  have hz0 : ∀ o, zodIndentOk o →
      (match o with
       | some s => [dat "      inputSchema: \x7b"] ++
           linesOf (generateZodSchemaFromJson s "        ") ++
           [dat "      \x7d"]
       | none => [dat "      inputSchema: \x7b\x7d"]).countP
        (fun l => isPre (dat "  // TODO: Register tool \"") l) = 0 := by
    intro o ho
    cases o with
    | none => decide
    | some s =>
      rw [List.countP_append, List.countP_append]
      have : (linesOf (generateZodSchemaFromJson s "        ")).countP
          (fun l => isPre (dat "  // TODO: Register tool \"") l) = 0 := by
        rw [List.countP_eq_zero]
        intro l hl
        obtain ⟨x, hx⟩ := eq_append_of_isPre (ho l hl)
        rw [← hx]
        simp [isPre_append_eq_false x (show isPre
          (dat "  // TODO: Register tool \"") (dat "        ") =
            false by decide)
          (show isPre (dat "        ")
            (dat "  // TODO: Register tool \"") = false by decide)]
      rw [this]
      decide
  rw [List.countP_append, List.countP_append, List.countP_append,
    List.countP_append, List.countP_append, List.countP_append,
    List.countP_append, hz0 t.inputSchema hz]
  simp +decide [List.countP_cons, f1, f3, f5, f6, f9, f10, f13]

theorem cnt_M1_ccBlock (t : McpTool) (hc : Bool) (h : cliToolOk t) :
    cnt "  server.registerTool(" (ccToolBlock t hc) = 1 := by
  have hz := h.2.2.2
  unfold cnt
  rw [ccToolBlock_lines t hc h]
  have f1 : isPre (dat "  server.registerTool(")
      (dat ("  // Tool: " ++ t.name)) = false :=
    isPre_append_eq_false (dat t.name)
      (show isPre (dat "  server.registerTool(") (dat "  // Tool: ") =
        false by decide)
      (show isPre (dat "  // Tool: ") (dat "  server.registerTool(") =
        false by decide)
  have f3 : isPre (dat "  server.registerTool(")
      (dat ("    \"" ++ t.name ++ "\",")) = false :=
    isPre_append_eq_false (dat t.name ++ dat "\",")
      (show isPre (dat "  server.registerTool(") (dat "    \"") =
        false by decide)
      (show isPre (dat "    \"") (dat "  server.registerTool(") =
        false by decide)
  have f5 : isPre (dat "  server.registerTool(")
      (dat ("      title: \"" ++ jsTitleCase t.name ++ "\",")) = false :=
    isPre_append_eq_false (dat (jsTitleCase t.name) ++ dat "\",")
      (show isPre (dat "  server.registerTool(") (dat "      title: \"") =
        false by decide)
      (show isPre (dat "      title: \"") (dat "  server.registerTool(") =
        false by decide)
  have f6 : isPre (dat "  server.registerTool(")
      (dat ("      description: \"" ++ t.description ++ "\",")) = false :=
    isPre_append_eq_false (dat t.description ++ dat "\",")
      (show isPre (dat "  server.registerTool(")
        (dat "      description: \"") = false by decide)
      (show isPre (dat "      description: \"")
        (dat "  server.registerTool(") = false by decide)
  have f9 : isPre (dat "  server.registerTool(")
      (dat ("      // TODO: Implement tool handler for " ++ t.name)) =
      false :=
    isPre_append_eq_false (dat t.name)
      (show isPre (dat "  server.registerTool(")
        (dat "      // TODO: Implement tool handler for ") = false by decide)
      (show isPre (dat "      // TODO: Implement tool handler for ")
        (dat "  server.registerTool(") = false by decide)
  have f10 : isPre (dat "  server.registerTool(")
      (dat ("      console.log(\x27Tool " ++ t.name ++
        " called with params:\x27, params);")) = false :=
    isPre_append_eq_false (dat t.name ++ dat " called with params:\x27, params);")
      (show isPre (dat "  server.registerTool(")
        (dat "      console.log(\x27Tool ") = false by decide)
      (show isPre (dat "      console.log(\x27Tool ")
        (dat "  server.registerTool(") = false by decide)
  have f13 : isPre (dat "  server.registerTool(")
      (dat ("          text: \"Tool " ++ t.name ++
        " executed successfully\"")) = false :=
    isPre_append_eq_false (dat t.name ++ dat " executed successfully\"")
      (show isPre (dat "  server.registerTool(")
        (dat "          text: \"Tool ") = false by decide)
      (show isPre (dat "          text: \"Tool ")
        (dat "  server.registerTool(") = false by decide)
  have hz0 : ∀ o, zodIndentOk o →
      (match o with
       | some s => [dat "      inputSchema: \x7b"] ++
           linesOf (generateZodSchemaFromJson s "        ") ++
           [dat "      \x7d"]
       | none => [dat "      inputSchema: \x7b\x7d"]).countP
        (fun l => isPre (dat "  server.registerTool(") l) = 0 := by
    intro o ho
    cases o with
    | none => decide
    | some s =>
      rw [List.countP_append, List.countP_append]
      have : (linesOf (generateZodSchemaFromJson s "        ")).countP
          (fun l => isPre (dat "  server.registerTool(") l) = 0 := by
        rw [List.countP_eq_zero]
        intro l hl
        obtain ⟨x, hx⟩ := eq_append_of_isPre (ho l hl)
        rw [← hx]
        simp [isPre_append_eq_false x (show isPre
          (dat "  server.registerTool(") (dat "        ") = false by decide)
          (show isPre (dat "        ")
            (dat "  server.registerTool(") = false by decide)]
      rw [this]
      decide
  rw [List.countP_append, List.countP_append, List.countP_append,
    List.countP_append, List.countP_append, List.countP_append,
    List.countP_append, hz0 t.inputSchema hz]
  simp +decide [List.countP_cons, f1, f3, f5, f6, f9, f10, f13]

theorem cnt_M3_pyBlock (t : McpTool) (cs : Option JSchema)
    (h : pyToolOk t) (hcfg : pyCfgOk cs) :
    cnt "@mcp.tool()" (pyToolBlock t cs) = 1 := by
  unfold cnt
  rw [pyToolBlock_lines t cs h]
  have f1 : isPre (dat "@mcp.tool()") (dat ("# Tool: " ++ t.name)) =
      false :=
    isPre_append_eq_false (dat t.name)
      (show isPre (dat "@mcp.tool()") (dat "# Tool: ") = false by decide)
      (show isPre (dat "# Tool: ") (dat "@mcp.tool()") = false by decide)
  have f3 : isPre (dat "@mcp.tool()")
      (dat ("def " ++ dashToUscore (sanitizeId t.name) ++
        "() -> str:")) = false :=
    isPre_append_eq_false
      (dat (dashToUscore (sanitizeId t.name)) ++ dat "() -> str:")
      (show isPre (dat "@mcp.tool()") (dat "def ") = false by decide)
      (show isPre (dat "def ") (dat "@mcp.tool()") = false by decide)
  have f4 : isPre (dat "@mcp.tool()")
      (dat ("    \"\"\"" ++ t.description ++ "\"\"\"")) = false :=
    isPre_append_eq_false (dat t.description ++ dat "\"\"\"")
      (show isPre (dat "@mcp.tool()") (dat "    \"\"\"") = false by decide)
      (show isPre (dat "    \"\"\"") (dat "@mcp.tool()") = false by decide)
  have f5 : isPre (dat "@mcp.tool()")
      (dat ("    # TODO: Implement tool logic for " ++ t.name)) = false :=
    isPre_append_eq_false (dat t.name)
      (show isPre (dat "@mcp.tool()")
        (dat "    # TODO: Implement tool logic for ") = false by decide)
      (show isPre (dat "    # TODO: Implement tool logic for ")
        (dat "@mcp.tool()") = false by decide)
  have f6 : isPre (dat "@mcp.tool()")
      (dat ("    return f\"Tool " ++ t.name ++
        " executed successfully\"")) = false :=
    isPre_append_eq_false (dat t.name ++ dat " executed successfully\"")
      (show isPre (dat "@mcp.tool()") (dat "    return f\"Tool ") =
        false by decide)
      (show isPre (dat "    return f\"Tool ") (dat "@mcp.tool()") =
        false by decide)
  have hcfg0 : (linesOf (pyConfigAccessCode cs)).countP
      (fun l => isPre (dat "@mcp.tool()") l) = 0 := by
    rw [List.countP_eq_zero]
    intro l hl
    rcases hcfg l hl with rfl | hh
    · decide
    · cases l with
      | nil => simp at hh
      | cons c rest =>
        have hc : c = ' ' := by simpa using hh
        subst hc
        rw [show dat "@mcp.tool()" = '@' :: dat "mcp.tool()" from by decide]
        simp [isPre]
  rw [List.countP_append, List.countP_append, List.countP_append, hcfg0]
  simp +decide [List.countP_cons, f1, f3, f4, f5, f6]

theorem dat_intercalate2 (sep a b : String) :
    dat (String.intercalate sep [a, b]) = dat a ++ dat sep ++ dat b := by
  have h := intercalate_go_dat [b] a sep
  simpa using h

theorem linesOf_intercalate_sep2_3 (a b c : String) :
    linesOf (String.intercalate "\n\n" [a, b, c]) =
      linesOf a ++ [[]] ++ linesOf b ++ [[]] ++ linesOf c := by
  have e : dat (String.intercalate "\n\n" [a, b, c]) =
      dat a ++ '\n' :: ('\n' :: (dat b ++ '\n' :: ('\n' :: dat c))) := by
    have h := intercalate_go_dat [b, c] a "\n\n"
    have e2 : dat "\n\n" = ['\n', '\n'] := by decide
    simpa [e2] using h
  unfold linesOf
  rw [e, splitLines_break, splitLines_newline_cons, splitLines_break,
    splitLines_newline_cons]
  simp

/-- The lines of the CLI tool section for three tools: header, the first
tool fully registered, then one TODO comment line per remaining tool. -/
theorem generateToolsCode_lines3 (t1 t2 t3 : McpTool) (hc : Bool)
    (hn2 : NlFree t2.name) (hd2 : NlFree t2.description)
    (hn3 : NlFree t3.name) (hd3 : NlFree t3.description) :
    linesOf (generateToolsCode [t1, t2, t3] hc) =
      [dat "  // Register tools"] ++ linesOf (cliToolBlock t1 hc) ++
      [[]] ++ [dat "  // Additional tools to implement:"] ++
      [dat ("  // TODO: Register tool \"" ++ t2.name ++ "\" - " ++
        t2.description)] ++
      [dat ("  // TODO: Register tool \"" ++ t3.name ++ "\" - " ++
        t3.description)] := by
  refine linesOf_structured _ _ _ ?_ ?_
    (NlFree_append _ _ (NlFree_append _ _ (NlFree_append _ _ (by decide)
      hn3) (by decide)) hd3)
  · show dat ("  // Register tools\n" ++ (cliToolBlock t1 hc ++
      "\n\n  // Additional tools to implement:\n" ++
      String.intercalate "\n"
        [("  // TODO: Register tool \"" ++ t2.name ++ "\" - " ++
          t2.description),
         ("  // TODO: Register tool \"" ++ t3.name ++ "\" - " ++
          t3.description)])) = _
    have eh : dat "  // Register tools\n" =
        dat "  // Register tools" ++ ['\n'] := by decide
    have eT : dat "\n\n  // Additional tools to implement:\n" =
        ['\n'] ++ ['\n'] ++ dat "  // Additional tools to implement:" ++
          ['\n'] := by decide
    have eI := dat_intercalate2 "\n"
      ("  // TODO: Register tool \"" ++ t2.name ++ "\" - " ++ t2.description)
      ("  // TODO: Register tool \"" ++ t3.name ++ "\" - " ++ t3.description)
    have en : dat "\n" = ['\n'] := by decide
    simp [dat_append, terminated_flatten_linesOf, eh, eT, eI, en]
  · refine nlf_append (nlf_append (nlf_append (nlf_append ?_ ?_) ?_) ?_) ?_
    · exact nlf_cons (by decide) nlf_nil
    · exact fun l hl => splitLines_no_nl _ l hl
    · exact nlf_cons (by decide) nlf_nil
    · exact nlf_cons (by decide) nlf_nil
    · exact nlf_cons (NlFree_append _ _ (NlFree_append _ _
        (NlFree_append _ _ (by decide) hn2) (by decide)) hd2) nlf_nil

/-- The lines of the custom-container tool section for three tools:
header, then every tool fully registered, separated by blank lines. -/
theorem generateCustomContainerToolsCode_lines3 (t1 t2 t3 : McpTool)
    (hc : Bool) :
    linesOf (generateCustomContainerToolsCode [t1, t2, t3] hc) =
      [dat "  // Register tools"] ++ (linesOf (ccToolBlock t1 hc) ++ [[]] ++
        linesOf (ccToolBlock t2 hc) ++ [[]] ++
        linesOf (ccToolBlock t3 hc)) := by
  show linesOf ("  // Register tools\n" ++ String.intercalate "\n\n"
    [ccToolBlock t1 hc, ccToolBlock t2 hc, ccToolBlock t3 hc]) = _
  rw [show ("  // Register tools\n" : String) =
      "  // Register tools" ++ "\n" from by decide, linesOf_sep1,
    linesOf_intercalate_sep2_3,
    show linesOf ("  // Register tools" : String) =
      [dat "  // Register tools"] from by decide]

/-- The lines of the python tool section for three tools: header, then
every tool as a decorated handler, separated by blank lines. -/
theorem generatePythonToolsCode_lines3 (t1 t2 t3 : McpTool)
    (cs : Option JSchema) :
    linesOf (generatePythonToolsCode [t1, t2, t3] cs) =
      [dat "# Register tools"] ++ (linesOf (pyToolBlock t1 cs) ++ [[]] ++
        linesOf (pyToolBlock t2 cs) ++ [[]] ++
        linesOf (pyToolBlock t3 cs)) := by
  show linesOf ("# Register tools\n" ++ String.intercalate "\n\n"
    [pyToolBlock t1 cs, pyToolBlock t2 cs, pyToolBlock t3 cs]) = _
  rw [show ("# Register tools\n" : String) =
      "# Register tools" ++ "\n" from by decide, linesOf_sep1,
    linesOf_intercalate_sep2_3,
    show linesOf ("# Register tools" : String) =
      [dat "# Register tools"] from by decide]

/-! ## Claim C1 -/

/-- **C1** (amended).  For every list of 3 tools, the CLI-managed
TypeScript generator fully registers exactly 1 tool and emits the
remaining 2 only as single-line TODO comments; the custom-container
TypeScript generator and the Python generator fully register all 3
tools. -/
theorem C1_first_only_policy (t1 t2 t3 : McpTool) (hc : Bool)
    (cs : Option JSchema)
    (h1 : cliToolOk t1) (h2 : cliToolOk t2) (h3 : cliToolOk t3)
    (hp1 : pyToolOk t1) (hp2 : pyToolOk t2) (hp3 : pyToolOk t3)
    (hcfg : pyCfgOk cs) :
    cnt "  server.registerTool(" (generateToolsCode [t1, t2, t3] hc) = 1 ∧
    cnt "  // TODO: Register tool \""
      (generateToolsCode [t1, t2, t3] hc) = 2 ∧
    cnt "  server.registerTool("
      (generateCustomContainerToolsCode [t1, t2, t3] hc) = 3 ∧
    cnt "@mcp.tool()" (generatePythonToolsCode [t1, t2, t3] cs) = 3 := by
  have hb1 := cnt_M1_cliBlock t1 hc h1
  have hb2 := cnt_M2_cliBlock t1 hc h1
  have hc1 := cnt_M1_ccBlock t1 hc h1
  have hc2 := cnt_M1_ccBlock t2 hc h2
  have hc3 := cnt_M1_ccBlock t3 hc h3
  have hq1 := cnt_M3_pyBlock t1 cs hp1 hcfg
  have hq2 := cnt_M3_pyBlock t2 cs hp2 hcfg
  have hq3 := cnt_M3_pyBlock t3 cs hp3 hcfg
  unfold cnt at hb1 hb2 hc1 hc2 hc3 hq1 hq2 hq3 ⊢
  have g2f : isPre (dat "  server.registerTool(")
      (dat ("  // TODO: Register tool \"" ++ t2.name ++ "\" - " ++
        t2.description)) = false :=
    isPre_append_eq_false
      ((dat t2.name ++ dat "\" - ") ++ dat t2.description)
      (show isPre (dat "  server.registerTool(")
        (dat "  // TODO: Register tool \"") = false by decide)
      (show isPre (dat "  // TODO: Register tool \"")
        (dat "  server.registerTool(") = false by decide)
  have g3f : isPre (dat "  server.registerTool(")
      (dat ("  // TODO: Register tool \"" ++ t3.name ++ "\" - " ++
        t3.description)) = false :=
    isPre_append_eq_false
      ((dat t3.name ++ dat "\" - ") ++ dat t3.description)
      (show isPre (dat "  server.registerTool(")
        (dat "  // TODO: Register tool \"") = false by decide)
      (show isPre (dat "  // TODO: Register tool \"")
        (dat "  server.registerTool(") = false by decide)
  have g2t : isPre (dat "  // TODO: Register tool \"")
      (dat ("  // TODO: Register tool \"" ++ t2.name ++ "\" - " ++
        t2.description)) = true :=
    isPre_append (dat "  // TODO: Register tool \"")
      ((dat t2.name ++ dat "\" - ") ++ dat t2.description)
  have g3t : isPre (dat "  // TODO: Register tool \"")
      (dat ("  // TODO: Register tool \"" ++ t3.name ++ "\" - " ++
        t3.description)) = true :=
    isPre_append (dat "  // TODO: Register tool \"")
      ((dat t3.name ++ dat "\" - ") ++ dat t3.description)
  refine ⟨?_, ?_, ?_, ?_⟩
  · rw [generateToolsCode_lines3 t1 t2 t3 hc h2.1 h2.2.1 h3.1 h3.2.1]
    simp +decide [List.countP_append, List.countP_cons, hb1, g2f, g3f]
  · rw [generateToolsCode_lines3 t1 t2 t3 hc h2.1 h2.2.1 h3.1 h3.2.1]
    simp +decide [List.countP_append, List.countP_cons, hb2, g2t, g3t]
  · rw [generateCustomContainerToolsCode_lines3 t1 t2 t3 hc]
    simp +decide [List.countP_append, List.countP_cons, hc1, hc2, hc3]
  · rw [generatePythonToolsCode_lines3 t1 t2 t3 cs]
    simp +decide [List.countP_append, List.countP_cons, hq1, hq2, hq3]

/-- **C1 counterexample.**  With three concrete tools, the
custom-container TypeScript generator emits three full registrations, not
one: the claimed first-only policy does not apply to it. -/
theorem C1_counterexample_cc_registers_all :
    cnt "  server.registerTool("
      (generateCustomContainerToolsCode
        [{ name := "alpha", description := "a" },
         { name := "beta", description := "b" },
         { name := "gamma", description := "c" }] false) = 3 ∧
    cnt "  server.registerTool("
      (generateCustomContainerToolsCode
        [{ name := "alpha", description := "a" },
         { name := "beta", description := "b" },
         { name := "gamma", description := "c" }] false) ≠ 1 := by
  constructor <;> decide

/-- Closed witness for C1 at three concrete tools. -/
theorem C1_first_only_policy_witness :
    cliToolOk { name := "alpha", description := "a" } ∧
    cnt "  server.registerTool("
      (generateToolsCode
        [{ name := "alpha", description := "a" },
         { name := "beta", description := "b" },
         { name := "gamma", description := "c" }] false) = 1 ∧
    cnt "@mcp.tool()"
      (generatePythonToolsCode
        [{ name := "alpha", description := "a" },
         { name := "beta", description := "b" },
         { name := "gamma", description := "c" }] none) = 3 := by
  refine ⟨by decide, ?_, ?_⟩
  · exact (C1_first_only_policy
      { name := "alpha", description := "a" }
      { name := "beta", description := "b" }
      { name := "gamma", description := "c" } false none
      (by decide) (by decide) (by decide) (by decide) (by decide)
      (by decide) (by decide)).1
  · exact (C1_first_only_policy
      { name := "alpha", description := "a" }
      { name := "beta", description := "b" }
      { name := "gamma", description := "c" } false none
      (by decide) (by decide) (by decide) (by decide) (by decide)
      (by decide) (by decide)).2.2.2

/-! ## Claims C4, C5, C6, C9 -/

/-- **C5.** For every package-descriptor validation input and mode, the
returned `ValidationResult` satisfies `isValid = (errors is empty)`:
`isValid` is derived from the errors list alone, after every rule has
run, so warnings and suggestions never influence it. -/
theorem C5_isValid_iff_errors_empty (packageJson : PackageJson)
    (migrationPath : String) :
    (performValidation packageJson migrationPath).isValid = true ↔
      (performValidation packageJson migrationPath).errors = [] := by
  unfold performValidation
  simp [List.length_eq_zero]

/-- **C4.** A package descriptor that is missing only `module`,
`scripts.build`, and `devDependencies.tsx`, and otherwise satisfies every
CLI-mode rule, validates in CLI mode to `isValid = false` with exactly
those three conditions as errors and required changes; the same
descriptor in custom-container mode validates to `isValid = true`,
because container mode imposes no hard requirements. -/
theorem C4_cli_three_errors_container_valid (packageJson : PackageJson)
    (hName : strTruthy packageJson.name = true)
    (hVer : strTruthy packageJson.version = true)
    (hMod : strTruthy packageJson.module = false)
    (hBuild : strTruthy (recGet packageJson.scripts "build") = false)
    (hDev : recGet packageJson.scripts "dev" = some "npx @smithery/cli dev")
    (hCli : strTruthy (recGet packageJson.devDependencies "@smithery/cli") = true)
    (hTsx : strTruthy (recGet packageJson.devDependencies "tsx") = false) :
    (performValidation packageJson "ts-smithery-cli").errors =
      ["Missing \x27module\x27 field required for Smithery CLI",
       "Missing required script: \x27build\x27",
       "Missing required devDependency: tsx"] ∧
    (performValidation packageJson "ts-smithery-cli").requiredChanges.map
        (fun c => (c.field, c.action)) =
      [("module", "add"), ("scripts.build", "add"),
       ("devDependencies.tsx", "add")] ∧
    (performValidation packageJson "ts-smithery-cli").isValid = false ∧
    (performValidation packageJson "ts-custom-container").errors = [] ∧
    (performValidation packageJson "ts-custom-container").isValid = true := by
  have hDevT : strTruthy (recGet packageJson.scripts "dev") = true := by
    rw [hDev]; rfl
  unfold performValidation validateSmitheryCliPackageJson
    validateSmitheryCliScripts validateSmitheryCliDependencies
    validateCustomContainerPackageJson
  by_cases hType : packageJson.typeField = some "module" <;>
    (first
      | simp_all [List.foldl, hName, hVer, hMod, hBuild, hDev, hDevT, hCli, hTsx]
      | skip) <;>
    (try (split <;> simp_all)) <;>
    simp_all [List.foldl, hName, hVer, hMod, hBuild, hDev, hDevT, hCli, hTsx]

/-- Closed witness for C4: a concrete descriptor with name, version, the
correct dev script, and the CLI dependency, but no module field, no build
script, and no tsx dependency. -/
theorem C4_cli_three_errors_container_valid_witness :
    strTruthy (some "my-server") = true ∧
    (performValidation
      { name := some "my-server", version := some "1.0.0",
        scripts := [("dev", "npx @smithery/cli dev")],
        devDependencies := [("@smithery/cli", "^1.0.0")] }
      "ts-smithery-cli").isValid = false ∧
    (performValidation
      { name := some "my-server", version := some "1.0.0",
        scripts := [("dev", "npx @smithery/cli dev")],
        devDependencies := [("@smithery/cli", "^1.0.0")] }
      "ts-custom-container").isValid = true := by
  refine ⟨by decide, ?_, ?_⟩
  · exact (C4_cli_three_errors_container_valid
      { name := some "my-server", version := some "1.0.0",
        scripts := [("dev", "npx @smithery/cli dev")],
        devDependencies := [("@smithery/cli", "^1.0.0")] }
      (by decide) (by decide) (by decide) (by decide) (by decide)
      (by decide) (by decide)).2.2.1
  · exact (C4_cli_three_errors_container_valid
      { name := some "my-server", version := some "1.0.0",
        scripts := [("dev", "npx @smithery/cli dev")],
        devDependencies := [("@smithery/cli", "^1.0.0")] }
      (by decide) (by decide) (by decide) (by decide) (by decide)
      (by decide) (by decide)).2.2.2.2

/-- **C6.** For every combination of the boolean flags and any optional
descriptor text (under any parser), the migration-overview generator with
`migrationPath = "local-stdio-only"` returns the identical fixed
"contact support" plan: same title and description, fixed prerequisites
and deployment steps, no files needed, and empty notes and next steps. -/
theorem C6_local_stdio_fixed_plan (parse : YamlParse)
    (params : MigrationOverviewParams)
    (hPath : params.migrationPath = "local-stdio-only") :
    generateMigrationOverview parse params = .ok
      { migrationPath := "local-stdio-only"
        title := "Local STDIO Servers - Contact Support"
        description := "Your server needs local file system access or local application integration. We\x27re actively working on improving support for local servers and would love to work with you personally to get yours set up - no migration work needed on your end!"
        prerequisites := ["Nothing! We\x27ll handle the setup for you."]
        filesNeeded := []
        projectStructure :=
          { description := "Keep your existing project structure - no changes needed"
            structureText := "No changes to your existing codebase required" }
        deploymentSteps :=
          ["📧 Email us: contact@smithery.ai",
           "💬 Join our Discord: https://discord.gg/sKd9uycgH9",
           "We\x27ll work with you directly to get your server set up - no work needed on your end!"]
        additionalNotes := []
        nextSteps := [] } := by
  unfold generateMigrationOverview
  rw [if_pos hPath]
  rfl

/-- Closed witness for C6: the plan is the same under every flag
combination and any supplied descriptor text. -/
theorem C6_local_stdio_fixed_plan_witness :
    (({ migrationPath := "local-stdio-only"
        includeBackwardCompatibility := true
        needsFileSystemAccess := true
        needsLocalApps := true
        existingSmitheryYaml := some "startCommand:\n  type: http" } :
          MigrationOverviewParams)).migrationPath = "local-stdio-only" ∧
    generateMigrationOverview (fun _ => none)
      { migrationPath := "local-stdio-only"
        includeBackwardCompatibility := true
        needsFileSystemAccess := true
        needsLocalApps := true
        existingSmitheryYaml := some "startCommand:\n  type: http" } =
      generateMigrationOverview (fun _ => none)
        { migrationPath := "local-stdio-only" } := by
  refine ⟨rfl, ?_⟩
  rw [C6_local_stdio_fixed_plan (fun _ => none) _ rfl,
    C6_local_stdio_fixed_plan (fun _ => none) _ rfl]

/-- **C9.** The migration-template dispatcher errors with an
invalid-enumeration message for every mode outside the three supported
values, and returns generated text for every mode inside the set, for
every parser and all tools/prompts/resources/names and optional
descriptor text; the Dockerfile generator behaves the same on its
container-type enumeration. -/
theorem C9_dispatch_enumeration (parse : YamlParse) (migrationMode : String)
    (migrationParams : SmitheryMigrationParams)
    (dockerParams : DockerfileParams) :
    ((migrationMode = "ts-smithery-cli" ∨ migrationMode = "ts-custom-container" ∨
        migrationMode = "py-custom-container") →
      ∃ s, generateMigrationTemplate parse migrationMode migrationParams =
        .ok s) ∧
    (¬(migrationMode = "ts-smithery-cli" ∨ migrationMode = "ts-custom-container" ∨
        migrationMode = "py-custom-container") →
      generateMigrationTemplate parse migrationMode migrationParams =
        .error ("Unsupported migration mode: " ++ migrationMode)) ∧
    ((dockerParams.containerType = "ts-custom-container" ∨
        dockerParams.containerType = "py-custom-container") →
      ∃ s, generateDockerfile dockerParams = .ok s) ∧
    (¬(dockerParams.containerType = "ts-custom-container" ∨
        dockerParams.containerType = "py-custom-container") →
      generateDockerfile dockerParams = .error
        ("Unsupported container type: " ++ dockerParams.containerType)) := by
  refine ⟨?_, ?_, ?_, ?_⟩
  · rintro (h | h | h)
    · exact ⟨generateSmitheryCliMigration parse migrationParams,
        by rw [h]; rfl⟩
    · exact ⟨generateCustomContainerMigration parse migrationParams,
        by rw [h]; rfl⟩
    · exact ⟨generatePythonCustomContainerMigration parse migrationParams,
        by rw [h]; rfl⟩
  · intro h
    push_neg at h
    simp [generateMigrationTemplate, h.1, h.2.1, h.2.2]
  · rintro (h | h)
    · exact ⟨generateTypeScriptDockerfile dockerParams,
        by unfold generateDockerfile; rw [if_pos h]⟩
    · exact ⟨generatePythonDockerfile dockerParams, by
        unfold generateDockerfile
        rcases eq_or_ne dockerParams.containerType "ts-custom-container" with
          he | hne
        · rw [h] at he; exact absurd he (by decide)
        · rw [if_neg hne, if_pos h]⟩
  · intro h
    push_neg at h
    simp [generateDockerfile, h.1, h.2]

/-- Closed witness for C9: a supported mode generates text, an unsupported
mode raises the invalid-enumeration error, for both dispatchers. -/
theorem C9_dispatch_enumeration_witness :
    (∃ s, generateMigrationTemplate (fun _ => none) "ts-smithery-cli"
      { tools := [], prompts := [], resources := [], serverName := "S",
        serverVersion := "1.0.0", includeBackwardCompatibility := false } =
      .ok s) ∧
    generateMigrationTemplate (fun _ => none) "bogus-mode"
      { tools := [], prompts := [], resources := [], serverName := "S",
        serverVersion := "1.0.0", includeBackwardCompatibility := false } =
      .error "Unsupported migration mode: bogus-mode" ∧
    (∃ s, generateDockerfile { containerType := "py-custom-container" } = .ok s) ∧
    generateDockerfile { containerType := "nope" } =
      .error "Unsupported container type: nope" := by
  refine ⟨?_, ?_, ?_, ?_⟩
  · exact (C9_dispatch_enumeration (fun _ => none) "ts-smithery-cli"
      { tools := [], prompts := [], resources := [], serverName := "S",
        serverVersion := "1.0.0", includeBackwardCompatibility := false }
      { containerType := "py-custom-container" }).1 (by decide)
  · exact (C9_dispatch_enumeration (fun _ => none) "bogus-mode"
      { tools := [], prompts := [], resources := [], serverName := "S",
        serverVersion := "1.0.0", includeBackwardCompatibility := false }
      { containerType := "py-custom-container" }).2.1 (by decide)
  · exact (C9_dispatch_enumeration (fun _ => none) "ts-smithery-cli"
      { tools := [], prompts := [], resources := [], serverName := "S",
        serverVersion := "1.0.0", includeBackwardCompatibility := false }
      { containerType := "py-custom-container" }).2.2.1 (by decide)
  · exact (C9_dispatch_enumeration (fun _ => none) "ts-smithery-cli"
      { tools := [], prompts := [], resources := [], serverName := "S",
        serverVersion := "1.0.0", includeBackwardCompatibility := false }
      { containerType := "nope" }).2.2.2 (by decide)

/-! ## Line-extraction helpers for whole-template reasoning -/

theorem hasLine_dat (m s : String) (U V : List Char) (hm : NlFree m)
    (h : dat s = U ++ '\n' :: (dat m ++ '\n' :: V)) : hasLine m s := by
  unfold hasLine linesOf
  rw [h, splitLines_break, splitLines_break, splitLines_eq_single hm]
  simp

theorem hasLine_trans (m x s : String) (U V : List Char)
    (h : dat s = U ++ '\n' :: (dat x ++ '\n' :: V)) (hx : hasLine m x) :
    hasLine m s := by
  unfold hasLine linesOf
  rw [h, splitLines_break, splitLines_break]
  unfold hasLine linesOf at hx
  simp only [List.mem_append]
  exact Or.inr (Or.inl hx)

theorem hasLine_trans_head (m x s : String) (V : List Char)
    (h : dat s = dat x ++ '\n' :: V) (hx : hasLine m x) : hasLine m s := by
  unfold hasLine linesOf
  rw [h, splitLines_break]
  unfold hasLine linesOf at hx
  simp only [List.mem_append]
  exact Or.inl hx

theorem isEmpty_false_of_append (a b : String) (ha : a.isEmpty = false) :
    (a ++ b).isEmpty = false := by
  by_contra hcon
  rw [Bool.not_eq_false, String.isEmpty_iff] at hcon
  have hd : dat a ++ dat b = ([] : List Char) := by
    have h2 := congrArg String.data hcon
    simpa [dat] using h2
  have ha0 : a = "" := by
    apply String.ext
    exact (List.append_eq_nil.mp hd).1
  rw [ha0] at ha
  exact absurd ha (by decide)

/-! ### Literal-splitting facts for the template seams -/

theorem eNl1 : dat "\n" = ['\n'] := by decide

theorem eNl2 : dat "\n\n" = ['\n', '\n'] := by decide

theorem eBrace1 : dat "\n\x7d" = '\n' :: dat "\x7d" := by decide

theorem eBrace2 : dat "\n\x7d\n\n" = '\n' :: (dat "\x7d" ++ ['\n', '\n']) := by
  decide

theorem eCliElse :
    dat "\n// Configuration schema for smithery.yaml\nexport const configSchema = z.object(\x7b\x7d);\n" =
      '\n' :: (dat "// Configuration schema for smithery.yaml" ++ '\n' ::
        (dat "export const configSchema = z.object(\x7b\x7d);" ++ ['\n'])) := by
  decide

theorem eCliCreate :
    dat "\nexport default function createServer(\x7b\n  config,\n\x7d: \x7b\n  config: z.infer<typeof configSchema>;\n\x7d) \x7b\n" =
      '\n' :: (dat "export default function createServer(\x7b" ++ '\n' ::
        (dat "  config," ++ '\n' :: (dat "\x7d: \x7b" ++ '\n' ::
        (dat "  config: z.infer<typeof configSchema>;" ++ '\n' ::
        (dat "\x7d) \x7b" ++ ['\n']))))) := by
  decide

theorem eCfgHead :
    dat "// Configuration schema extracted from your existing server\nexport const configSchema = z.object(\x7b\n" =
      dat "// Configuration schema extracted from your existing server" ++
        '\n' :: (dat "export const configSchema = z.object(\x7b" ++ ['\n']) := by
  decide

theorem eCfgTail : dat "\n\x7d);" = '\n' :: dat "\x7d);" := by decide

theorem eCcCreate :
    dat "\n\nexport default function createServer(" =
      '\n' :: '\n' :: dat "export default function createServer(" := by
  decide

theorem eCcClose : dat ") \x7b\n" = dat ") \x7b" ++ ['\n'] := by decide

theorem eCcParam :
    dat "\x7b\n  config,\n\x7d: \x7b\n  config: z.infer<typeof configSchema>;\n\x7d" =
      dat "\x7b" ++ '\n' :: (dat "  config," ++ '\n' :: (dat "\x7d: \x7b" ++
        '\n' :: (dat "  config: z.infer<typeof configSchema>;" ++ '\n' ::
        dat "\x7d"))) := by
  decide

theorem eCcLineNoCfg :
    dat "export default function createServer() \x7b" =
      dat "export default function createServer(" ++ dat ") \x7b" := by
  decide

theorem eCcLineCfg :
    dat "export default function createServer(\x7b" =
      dat "export default function createServer(" ++ dat "\x7b" := by
  decide

/-! ### Indentation-scanner toolkit -/

theorem shAux_cons_nl (b : Bool) (rest : List Char) :
    shAux b ('\n' :: rest) = shAux true rest := by
  simp [shAux]

theorem shAux_cons_of_ne (b : Bool) (c : Char) (rest : List Char)
    (h : c ≠ '\n') :
    shAux b (c :: rest) = ((!b || c = ' ') && shAux false rest) := by
  simp [shAux, h]

theorem lsAfter_append (b : Bool) (xs ys : List Char) :
    lsAfter b (xs ++ ys) = lsAfter (lsAfter b xs) ys := by
  induction xs generalizing b with
  | nil => rfl
  | cons c rest ih =>
    by_cases h : c = '\n' <;> simp [lsAfter, h, ih]

theorem shAux_append (b : Bool) (xs ys : List Char) :
    shAux b (xs ++ ys) = (shAux b xs && shAux (lsAfter b xs) ys) := by
  induction xs generalizing b with
  | nil => simp [shAux, lsAfter]
  | cons c rest ih =>
    by_cases h : c = '\n'
    · subst h
      simp [shAux, lsAfter, ih]
    · simp [shAux, lsAfter, h, ih, Bool.and_assoc]

theorem shAux_false_nlfree (xs : List Char) (h : '\n' ∉ xs) :
    shAux false xs = true := by
  induction xs with
  | nil => rfl
  | cons c rest ih =>
    have hc : c ≠ '\n' := fun he => h (he ▸ List.mem_cons_self c rest)
    have hr : '\n' ∉ rest := fun hm => h (List.mem_cons_of_mem c hm)
    simp [shAux, hc, ih hr]

theorem lsAfter_false_nlfree (xs : List Char) (h : '\n' ∉ xs) :
    lsAfter false xs = false := by
  induction xs with
  | nil => rfl
  | cons c rest ih =>
    have hc : c ≠ '\n' := fun he => h (he ▸ List.mem_cons_self c rest)
    have hr : '\n' ∉ rest := fun hm => h (List.mem_cons_of_mem c hm)
    simp [lsAfter, hc, ih hr]

theorem shAux_lines_aux (cs : List Char) :
    (shAux true cs = true →
      ∀ l ∈ splitLines cs, l = [] ∨ l.head? = some ' ') ∧
    (shAux false cs = true →
      ∀ l ∈ (splitLines cs).tail, l = [] ∨ l.head? = some ' ') := by
  induction cs with
  | nil =>
    constructor
    · intro _ l hl
      simp [splitLines] at hl
      exact Or.inl hl
    · intro _ l hl
      simp [splitLines] at hl
  | cons c rest ih =>
    by_cases h : c = '\n'
    · subst h
      rw [splitLines_newline_cons]
      constructor
      · intro hs l hl
        rw [shAux_cons_nl] at hs
        rcases List.mem_cons.mp hl with rfl | hl
        · exact Or.inl rfl
        · exact ih.1 hs l hl
      · intro hs l hl
        rw [shAux_cons_nl] at hs
        exact ih.1 hs l (by simpa using hl)
    · rw [splitLines_cons_of_ne h]
      cases hsr : splitLines rest with
      | nil => exact absurd hsr (splitLines_ne_nil rest)
      | cons l0 ls =>
        constructor
        · intro hs l hl
          rw [shAux_cons_of_ne _ _ _ h] at hs
          simp only [Bool.not_true, Bool.false_or, Bool.and_eq_true,
            decide_eq_true_eq] at hs
          rcases List.mem_cons.mp hl with rfl | hl
          · right; simp [hs.1]
          · have h2 := ih.2 hs.2
            rw [hsr] at h2
            exact h2 l hl
        · intro hs l hl
          rw [shAux_cons_of_ne _ _ _ h] at hs
          simp only [Bool.not_false, Bool.true_or, Bool.true_and] at hs
          have h2 := ih.2 hs
          rw [hsr] at h2
          exact h2 l hl

theorem SH_lines (s : String) (h : SH s) :
    ∀ l ∈ linesOf s, l = [] ∨ l.head? = some ' ' :=
  (shAux_lines_aux (dat s)).1 h

theorem countP_isPre_zero (m : String) (c : Char) (L : List (List Char))
    (hm : (dat m).head? = some c) (hc : c ≠ ' ')
    (hsp : ∀ l ∈ L, l = [] ∨ l.head? = some ' ') :
    L.countP (fun l => isPre (dat m) l) = 0 := by
  rw [List.countP_eq_zero]
  intro l hl
  cases hd : dat m with
  | nil => rw [hd] at hm; simp at hm
  | cons a t =>
    rw [hd] at hm
    have ha : a = c := by simpa using hm
    rcases hsp l hl with rfl | hh
    · simp [isPre]
    · cases l with
      | nil => simp at hh
      | cons b bs =>
        have hb : b = ' ' := by simpa using hh
        simp only [isPre, Bool.and_eq_true, decide_eq_true_eq]
        intro he
        exact hc (by rw [← ha, he.1]; exact hb)

theorem shAux_step (b : Bool) (x rest : List Char) (h1 : shAux b x = true)
    (h2 : lsAfter b x = false) : shAux b (x ++ rest) = shAux false rest := by
  rw [shAux_append, h1, h2]
  simp

theorem shAux_step_nl (b : Bool) (x rest : List Char)
    (h1 : shAux b x = true) (h2 : lsAfter b x = true) :
    shAux b (x ++ rest) = shAux true rest := by
  rw [shAux_append, h1, h2]
  simp

theorem shAux_var (x : String) (rest : List Char) (hx : NlFree x) :
    shAux false (dat x ++ rest) = shAux false rest :=
  shAux_step false (dat x) rest (shAux_false_nlfree _ hx)
    (lsAfter_false_nlfree _ hx)

theorem SH_of_head_space (s : String) (hs : NlFree s)
    (hh : (dat s).head? = some ' ') : SH s := by
  unfold SH
  cases hd : dat s with
  | nil => rfl
  | cons c rest =>
    unfold NlFree at hs
    rw [hd] at hh hs
    have hc : c = ' ' := by simpa using hh
    subst hc
    rw [shAux_cons_of_ne _ _ _ (by decide)]
    have hr : '\n' ∉ rest := fun hm => hs (List.mem_cons_of_mem _ hm)
    simp [shAux_false_nlfree rest hr]

theorem SH_seam (a m b : String) (ha : SH a) (hb : SH b)
    (hm1 : ∀ x, shAux x (dat m) = true)
    (hm2 : ∀ x, lsAfter x (dat m) = true) : SH (a ++ m ++ b) := by
  unfold SH at *
  rw [show dat (a ++ m ++ b) = (dat a ++ dat m) ++ dat b from by
    simp [dat_append]]
  rw [shAux_append, shAux_append, lsAfter_append, ha, hm1, hm2, hb]
  rfl

theorem SH_lit_prefix (L b : String) (h1 : shAux true (dat L) = true)
    (h2 : lsAfter true (dat L) = true) (hb : SH b) : SH (L ++ b) := by
  unfold SH at *
  rw [dat_append, shAux_step_nl true (dat L) (dat b) h1 h2]
  exact hb

theorem shAux_flatten_nl (parts : List String)
    (h : ∀ x ∈ parts, shAux true (dat x) = true) (b : Bool) :
    shAux b ((parts.map fun x => '\n' :: dat x).flatten) = true := by
  induction parts generalizing b with
  | nil => rfl
  | cons x rest ih =>
    rw [List.map_cons, List.flatten_cons, List.cons_append, shAux_cons_nl,
      shAux_append, h x (List.mem_cons_self x rest)]
    simp [ih (fun y hy => h y (List.mem_cons_of_mem x hy))]

theorem shAux_flatten_nl2 (parts : List String)
    (h : ∀ x ∈ parts, shAux true (dat x) = true) (b : Bool) :
    shAux b ((parts.map fun x => '\n' :: '\n' :: dat x).flatten) = true := by
  induction parts generalizing b with
  | nil => rfl
  | cons x rest ih =>
    rw [List.map_cons, List.flatten_cons, List.cons_append, List.cons_append,
      shAux_cons_nl, shAux_cons_nl, shAux_append,
      h x (List.mem_cons_self x rest)]
    simp [ih (fun y hy => h y (List.mem_cons_of_mem x hy))]

theorem SH_intercalate (parts : List String) (h : ∀ x ∈ parts, SH x) :
    SH (String.intercalate "\n" parts) := by
  cases parts with
  | nil => decide
  | cons a rest =>
    unfold SH
    rw [String.intercalate, intercalate_go_dat]
    rw [show (rest.map fun x => dat "\n" ++ dat x) =
        rest.map fun x => '\n' :: dat x from by simp [eNl1]]
    rw [shAux_append, h a (List.mem_cons_self a rest)]
    simp [shAux_flatten_nl rest
      (fun x hx => h x (List.mem_cons_of_mem a hx))]

theorem SH_intercalate2 (parts : List String) (h : ∀ x ∈ parts, SH x) :
    SH (String.intercalate "\n\n" parts) := by
  cases parts with
  | nil => decide
  | cons a rest =>
    unfold SH
    rw [String.intercalate, intercalate_go_dat]
    rw [show (rest.map fun x => dat "\n\n" ++ dat x) =
        rest.map fun x => '\n' :: '\n' :: dat x from by simp [eNl2]]
    rw [shAux_append, h a (List.mem_cons_self a rest)]
    simp [shAux_flatten_nl2 rest
      (fun x hx => h x (List.mem_cons_of_mem a hx))]

theorem NlFree_jsOr (x : Option String) (d : String) (hx : nfOpt x)
    (hd : NlFree d) : NlFree (jsOr x d) := by
  cases x with
  | none => exact hd
  | some s =>
    show NlFree (if s.isEmpty = true then d else s)
    by_cases hse : s.isEmpty = true
    · rw [if_pos hse]; exact hd
    · rw [if_neg hse]; exact hx

/-! ### Space-headedness of the generated sections -/

set_option maxRecDepth 40000 in
theorem SH_serverCreation (n v : String) (hn : NlFree n) (hv : NlFree v) :
    SH (generateServerCreation n v) := by
  unfold SH
  simp only [generateServerCreation]
  simp only [dat_append, List.append_assoc]
  rw [shAux_step true (dat "  const server = new McpServer(\x7b\n    name: \"") _ (by decide) (by decide)]
  rw [shAux_var (n) _ hn]
  rw [shAux_step false (dat "\",\n    version: \"") _ (by decide) (by decide)]
  rw [shAux_var (v) _ hv]
  decide

theorem ccServerCreation_eq (n v : String) :
    generateCustomContainerServerCreation n v = generateServerCreation n v := rfl

set_option maxRecDepth 40000 in
theorem SH_cliToolBlock (t : McpTool) (hc : Bool) (h : toolSh t) :
    SH (cliToolBlock t hc) := by
  obtain ⟨hn, hd, ht, hz⟩ := h
  have hcc1 : shAux false (dat (if hc = true then
        "\n      // TODO: Use the config parameter for API calls, timeout settings, etc."
      else "")) = true := by
    cases hc <;> decide
  have hcc2 : lsAfter false (dat (if hc = true then
        "\n      // TODO: Use the config parameter for API calls, timeout settings, etc."
      else "")) = false := by
    cases hc <;> decide
  have hcl1 : shAux false (dat (if hc = true then "\n      console.log(\x27Available config:\x27, config);"
      else "")) = true := by
    cases hc <;> decide
  have hcl2 : lsAfter false (dat (if hc = true then "\n      console.log(\x27Available config:\x27, config);"
      else "")) = false := by
    cases hc <;> decide
  unfold SH
  cases hsc : t.inputSchema with
  | none =>
    simp only [cliToolBlock, hsc]
    simp only [dat_append, List.append_assoc]
    rw [shAux_step true (dat "  // Tool: ") _ (by decide) (by decide)]
    rw [shAux_var (t.name) _ hn]
    rw [shAux_step false (dat "\n  server.registerTool(\n    \"") _ (by decide) (by decide)]
    rw [shAux_var (t.name) _ hn]
    rw [shAux_step false (dat "\",\n    \x7b\n      title: \"") _ (by decide) (by decide)]
    rw [shAux_var (jsTitleCase t.name) _ ht]
    rw [shAux_step false (dat "\",\n      description: \"") _ (by decide) (by decide)]
    rw [shAux_var (t.description) _ hd]
    rw [shAux_step_nl false (dat "\",\n") _ (by decide) (by decide)]
    rw [shAux_step true (dat "      inputSchema: \x7b\x7d") _ (by decide) (by decide)]
    rw [shAux_step false (dat "\n    \x7d,\n    async (request) => \x7b\n      // TODO: Implement tool handler for ") _ (by decide) (by decide)]
    rw [shAux_var (t.name) _ hn]
    rw [shAux_step false (dat (if hc = true then
        "\n      // TODO: Use the config parameter for API calls, timeout settings, etc."
      else "")) _ hcc1 hcc2]
    rw [shAux_step false (dat "\n      console.log(\x27Tool ") _ (by decide) (by decide)]
    rw [shAux_var (t.name) _ hn]
    rw [shAux_step false (dat " called with args:\x27, request);") _ (by decide) (by decide)]
    rw [shAux_step false (dat (if hc = true then "\n      console.log(\x27Available config:\x27, config);"
      else "")) _ hcl1 hcl2]
    rw [shAux_step false (dat "\n      return \x7b\n        content: [\x7b\n          type: \"text\" as const,\n          text: \"Tool ") _ (by decide) (by decide)]
    rw [shAux_var (t.name) _ hn]
    decide
  | some s =>
    have hzs2 : shAux true (dat (generateZodSchemaFromJson s "        ")) = true := by
      have h2 := hz
      rw [hsc] at h2
      exact h2
    simp only [cliToolBlock, hsc]
    simp only [dat_append, List.append_assoc]
    rw [shAux_step true (dat "  // Tool: ") _ (by decide) (by decide)]
    rw [shAux_var (t.name) _ hn]
    rw [shAux_step false (dat "\n  server.registerTool(\n    \"") _ (by decide) (by decide)]
    rw [shAux_var (t.name) _ hn]
    rw [shAux_step false (dat "\",\n    \x7b\n      title: \"") _ (by decide) (by decide)]
    rw [shAux_var (jsTitleCase t.name) _ ht]
    rw [shAux_step false (dat "\",\n      description: \"") _ (by decide) (by decide)]
    rw [shAux_var (t.description) _ hd]
    rw [shAux_step_nl false (dat "\",\n") _ (by decide) (by decide)]
    rw [shAux_step_nl true (dat "      inputSchema: \x7b\n") _ (by decide) (by decide)]
    rw [shAux_append, hzs2]
    simp only [Bool.true_and]
    rw [show dat "\n      \x7d" = '\n' :: dat "      \x7d" from by decide,
      List.cons_append, shAux_cons_nl]
    rw [shAux_step true (dat "      \x7d") _ (by decide) (by decide)]
    rw [shAux_step false (dat "\n    \x7d,\n    async (request) => \x7b\n      // TODO: Implement tool handler for ") _ (by decide) (by decide)]
    rw [shAux_var (t.name) _ hn]
    rw [shAux_step false (dat (if hc = true then
        "\n      // TODO: Use the config parameter for API calls, timeout settings, etc."
      else "")) _ hcc1 hcc2]
    rw [shAux_step false (dat "\n      console.log(\x27Tool ") _ (by decide) (by decide)]
    rw [shAux_var (t.name) _ hn]
    rw [shAux_step false (dat " called with args:\x27, request);") _ (by decide) (by decide)]
    rw [shAux_step false (dat (if hc = true then "\n      console.log(\x27Available config:\x27, config);"
      else "")) _ hcl1 hcl2]
    rw [shAux_step false (dat "\n      return \x7b\n        content: [\x7b\n          type: \"text\" as const,\n          text: \"Tool ") _ (by decide) (by decide)]
    rw [shAux_var (t.name) _ hn]
    decide

set_option maxRecDepth 40000 in
theorem SH_ccToolBlock (t : McpTool) (hc : Bool) (h : toolSh t) :
    SH (ccToolBlock t hc) := by
  obtain ⟨hn, hd, ht, hz⟩ := h
  have hcc1 : shAux false (dat (if hc = true then
        "\n      // TODO: Use the config parameter for API calls, timeout settings, etc."
      else "")) = true := by
    cases hc <;> decide
  have hcc2 : lsAfter false (dat (if hc = true then
        "\n      // TODO: Use the config parameter for API calls, timeout settings, etc."
      else "")) = false := by
    cases hc <;> decide
  have hcl1 : shAux false (dat (if hc = true then "\n      console.log(\x27Available config:\x27, config);"
      else "")) = true := by
    cases hc <;> decide
  have hcl2 : lsAfter false (dat (if hc = true then "\n      console.log(\x27Available config:\x27, config);"
      else "")) = false := by
    cases hc <;> decide
  unfold SH
  cases hsc : t.inputSchema with
  | none =>
    simp only [ccToolBlock, hsc]
    simp only [dat_append, List.append_assoc]
    rw [shAux_step true (dat "  // Tool: ") _ (by decide) (by decide)]
    rw [shAux_var (t.name) _ hn]
    rw [shAux_step false (dat "\n  server.registerTool(\n    \"") _ (by decide) (by decide)]
    rw [shAux_var (t.name) _ hn]
    rw [shAux_step false (dat "\",\n    \x7b\n      title: \"") _ (by decide) (by decide)]
    rw [shAux_var (jsTitleCase t.name) _ ht]
    rw [shAux_step false (dat "\",\n      description: \"") _ (by decide) (by decide)]
    rw [shAux_var (t.description) _ hd]
    rw [shAux_step_nl false (dat "\",\n") _ (by decide) (by decide)]
    rw [shAux_step true (dat "      inputSchema: \x7b\x7d") _ (by decide) (by decide)]
    rw [shAux_step false (dat "\n    \x7d,\n    async (params) => \x7b\n      // TODO: Implement tool handler for ") _ (by decide) (by decide)]
    rw [shAux_var (t.name) _ hn]
    rw [shAux_step false (dat (if hc = true then
        "\n      // TODO: Use the config parameter for API calls, timeout settings, etc."
      else "")) _ hcc1 hcc2]
    rw [shAux_step false (dat "\n      console.log(\x27Tool ") _ (by decide) (by decide)]
    rw [shAux_var (t.name) _ hn]
    rw [shAux_step false (dat " called with params:\x27, params);") _ (by decide) (by decide)]
    rw [shAux_step false (dat (if hc = true then "\n      console.log(\x27Available config:\x27, config);"
      else "")) _ hcl1 hcl2]
    rw [shAux_step false (dat "\n      return \x7b\n        content: [\x7b\n          type: \"text\",\n          text: \"Tool ") _ (by decide) (by decide)]
    rw [shAux_var (t.name) _ hn]
    decide
  | some s =>
    have hzs2 : shAux true (dat (generateZodSchemaFromJson s "        ")) = true := by
      have h2 := hz
      rw [hsc] at h2
      exact h2
    simp only [ccToolBlock, hsc]
    simp only [dat_append, List.append_assoc]
    rw [shAux_step true (dat "  // Tool: ") _ (by decide) (by decide)]
    rw [shAux_var (t.name) _ hn]
    rw [shAux_step false (dat "\n  server.registerTool(\n    \"") _ (by decide) (by decide)]
    rw [shAux_var (t.name) _ hn]
    rw [shAux_step false (dat "\",\n    \x7b\n      title: \"") _ (by decide) (by decide)]
    rw [shAux_var (jsTitleCase t.name) _ ht]
    rw [shAux_step false (dat "\",\n      description: \"") _ (by decide) (by decide)]
    rw [shAux_var (t.description) _ hd]
    rw [shAux_step_nl false (dat "\",\n") _ (by decide) (by decide)]
    rw [shAux_step_nl true (dat "      inputSchema: \x7b\n") _ (by decide) (by decide)]
    rw [shAux_append, hzs2]
    simp only [Bool.true_and]
    rw [show dat "\n      \x7d" = '\n' :: dat "      \x7d" from by decide,
      List.cons_append, shAux_cons_nl]
    rw [shAux_step true (dat "      \x7d") _ (by decide) (by decide)]
    rw [shAux_step false (dat "\n    \x7d,\n    async (params) => \x7b\n      // TODO: Implement tool handler for ") _ (by decide) (by decide)]
    rw [shAux_var (t.name) _ hn]
    rw [shAux_step false (dat (if hc = true then
        "\n      // TODO: Use the config parameter for API calls, timeout settings, etc."
      else "")) _ hcc1 hcc2]
    rw [shAux_step false (dat "\n      console.log(\x27Tool ") _ (by decide) (by decide)]
    rw [shAux_var (t.name) _ hn]
    rw [shAux_step false (dat " called with params:\x27, params);") _ (by decide) (by decide)]
    rw [shAux_step false (dat (if hc = true then "\n      console.log(\x27Available config:\x27, config);"
      else "")) _ hcl1 hcl2]
    rw [shAux_step false (dat "\n      return \x7b\n        content: [\x7b\n          type: \"text\",\n          text: \"Tool ") _ (by decide) (by decide)]
    rw [shAux_var (t.name) _ hn]
    decide

set_option maxRecDepth 40000 in
theorem SH_resourceFirstBlock (r : McpResource) (h : resSh r) :
    SH (resourceFirstBlock r) := by
  obtain ⟨hn, hu, hd, hsan, hmm⟩ := h
  have hmm2 : NlFree (jsOr r.mimeType "text/plain") :=
    NlFree_jsOr _ _ hmm (by decide)
  unfold SH
  by_cases hh : r.uri.startsWith "https://" = true
  · simp only [resourceFirstBlock]
    rw [if_pos hh]
    simp only [dat_append, List.append_assoc]
    rw [shAux_step true (dat "  // Resource: ") _ (by decide) (by decide)]
    rw [shAux_var (r.name) _ hn]
    rw [shAux_step false (dat "\n  server.registerResource(\n    \"") _ (by decide) (by decide)]
    rw [shAux_var (sanitizeId r.name) _ hsan]
    rw [shAux_step false (dat "\",\n    \"") _ (by decide) (by decide)]
    rw [shAux_var (r.uri) _ hu]
    rw [shAux_step false (dat "\",\n    \x7b\n      title: \"") _ (by decide) (by decide)]
    rw [shAux_var (r.name) _ hn]
    rw [shAux_step false (dat "\",\n      description: \"") _ (by decide) (by decide)]
    rw [shAux_var (r.description) _ hd]
    rw [shAux_step false (dat "\",\n      mimeType: \"") _ (by decide) (by decide)]
    rw [shAux_var (jsOr r.mimeType "text/plain") _ hmm2]
    rw [shAux_step false (dat "\"\n    \x7d,\n    async (uri) => \x7b\n      try \x7b\n        const response = await fetch(uri.href);\n        if (!response.ok) \x7b\n          throw new Error(`Failed to fetch resource: $\x7bresponse.status\x7d`);\n        \x7d\n        const content = await response.text();\n        return \x7b\n          contents: [\x7b\n            uri: uri.href,\n            mimeType: \"") _ (by decide) (by decide)]
    rw [shAux_var (jsOr r.mimeType "text/plain") _ hmm2]
    decide
  · simp only [resourceFirstBlock]
    rw [if_neg hh]
    simp only [dat_append, List.append_assoc]
    rw [shAux_step true (dat "  // Resource: ") _ (by decide) (by decide)]
    rw [shAux_var (r.name) _ hn]
    rw [shAux_step false (dat "\n  server.registerResource(\n    \"") _ (by decide) (by decide)]
    rw [shAux_var (sanitizeId r.name) _ hsan]
    rw [shAux_step false (dat "\",\n    \"") _ (by decide) (by decide)]
    rw [shAux_var (r.uri) _ hu]
    rw [shAux_step false (dat "\",\n    \x7b\n      title: \"") _ (by decide) (by decide)]
    rw [shAux_var (r.name) _ hn]
    rw [shAux_step false (dat "\",\n      description: \"") _ (by decide) (by decide)]
    rw [shAux_var (r.description) _ hd]
    rw [shAux_step false (dat "\",\n      mimeType: \"") _ (by decide) (by decide)]
    rw [shAux_var (jsOr r.mimeType "text/plain") _ hmm2]
    rw [shAux_step false (dat "\"\n    \x7d,\n    async (uri) => \x7b\n      // TODO: Implement resource handler for ") _ (by decide) (by decide)]
    rw [shAux_var (r.name) _ hn]
    rw [shAux_step false (dat "\n      return \x7b\n        contents: [\x7b\n          uri: uri.href,\n          mimeType: \"") _ (by decide) (by decide)]
    rw [shAux_var (jsOr r.mimeType "text/plain") _ hmm2]
    decide

set_option maxRecDepth 40000 in
theorem SH_promptFirst (q : McpPrompt) (h : promptSh q) :
    SH ("  // Prompt: " ++ q.name ++ "\n  server.registerPrompt(\n    \"" ++
      q.name ++ "\",\n    \x7b\n      title: \"" ++ jsTitleCase q.name ++
      "\",\n      description: \"" ++ q.description ++ "\",\n" ++
      (match q.argsSchema with
       | some s =>
         "      argsSchema: \x7b\n" ++ generateZodSchemaFromJson s "        " ++
           "\n      \x7d"
       | none => "      argsSchema: \x7b\x7d") ++
      "\n    \x7d,\n    async (args) => \x7b\n      // TODO: Implement prompt handler for " ++
      q.name ++
      "\n      return \x7b\n        messages: [\n          \x7b\n            role: \"user\",\n            content: \x7b\n              type: \"text\",\n              text: \"" ++
      jsOr q.template "Prompt template here" ++
      "\"\n            \x7d\n          \x7d\n        ]\n      \x7d;\n    \x7d\n  );") := by
  obtain ⟨hn, hd, ht, hz, htp⟩ := h
  have htp2 : NlFree (jsOr q.template "Prompt template here") :=
    NlFree_jsOr _ _ htp (by decide)
  unfold SH
  cases hqa : q.argsSchema with
  | none =>
    simp only [hqa]
    simp only [dat_append, List.append_assoc]
    rw [shAux_step true (dat "  // Prompt: ") _ (by decide) (by decide)]
    rw [shAux_var (q.name) _ hn]
    rw [shAux_step false (dat "\n  server.registerPrompt(\n    \"") _ (by decide) (by decide)]
    rw [shAux_var (q.name) _ hn]
    rw [shAux_step false (dat "\",\n    \x7b\n      title: \"") _ (by decide) (by decide)]
    rw [shAux_var (jsTitleCase q.name) _ ht]
    rw [shAux_step false (dat "\",\n      description: \"") _ (by decide) (by decide)]
    rw [shAux_var (q.description) _ hd]
    rw [shAux_step_nl false (dat "\",\n") _ (by decide) (by decide)]
    rw [shAux_step true (dat "      argsSchema: \x7b\x7d") _ (by decide) (by decide)]
    rw [shAux_step false (dat "\n    \x7d,\n    async (args) => \x7b\n      // TODO: Implement prompt handler for ") _ (by decide) (by decide)]
    rw [shAux_var (q.name) _ hn]
    rw [shAux_step false (dat "\n      return \x7b\n        messages: [\n          \x7b\n            role: \"user\",\n            content: \x7b\n              type: \"text\",\n              text: \"") _ (by decide) (by decide)]
    rw [shAux_var (jsOr q.template "Prompt template here") _ htp2]
    decide
  | some s =>
    have hzs2 : shAux true (dat (generateZodSchemaFromJson s "        ")) = true := by
      have h2 := hz
      rw [hqa] at h2
      exact h2
    simp only [hqa]
    simp only [dat_append, List.append_assoc]
    rw [shAux_step true (dat "  // Prompt: ") _ (by decide) (by decide)]
    rw [shAux_var (q.name) _ hn]
    rw [shAux_step false (dat "\n  server.registerPrompt(\n    \"") _ (by decide) (by decide)]
    rw [shAux_var (q.name) _ hn]
    rw [shAux_step false (dat "\",\n    \x7b\n      title: \"") _ (by decide) (by decide)]
    rw [shAux_var (jsTitleCase q.name) _ ht]
    rw [shAux_step false (dat "\",\n      description: \"") _ (by decide) (by decide)]
    rw [shAux_var (q.description) _ hd]
    rw [shAux_step_nl false (dat "\",\n") _ (by decide) (by decide)]
    rw [shAux_step_nl true (dat "      argsSchema: \x7b\n") _ (by decide) (by decide)]
    rw [shAux_append, hzs2]
    simp only [Bool.true_and]
    rw [show dat "\n      \x7d" = '\n' :: dat "      \x7d" from by decide,
      List.cons_append, shAux_cons_nl]
    rw [shAux_step true (dat "      \x7d") _ (by decide) (by decide)]
    rw [shAux_step false (dat "\n    \x7d,\n    async (args) => \x7b\n      // TODO: Implement prompt handler for ") _ (by decide) (by decide)]
    rw [shAux_var (q.name) _ hn]
    rw [shAux_step false (dat "\n      return \x7b\n        messages: [\n          \x7b\n            role: \"user\",\n            content: \x7b\n              type: \"text\",\n              text: \"") _ (by decide) (by decide)]
    rw [shAux_var (jsOr q.template "Prompt template here") _ htp2]
    decide

theorem SH_toolsCode (tools : List McpTool) (hc : Bool)
    (h : ∀ t ∈ tools, toolSh t) : SH (generateToolsCode tools hc) := by
  cases tools with
  | nil =>
    show SH "  // No tools to register"
    decide
  | cons t rest =>
    have hb := SH_cliToolBlock t hc (h t (List.mem_cons_self t rest))
    simp only [generateToolsCode]
    cases rest with
    | nil =>
      rw [if_neg (by decide)]
      exact SH_lit_prefix _ _ (by decide) (by decide) hb
    | cons t2 rest2 =>
      have hcond : (t2 :: rest2).length + 1 > 1 :=
        Nat.succ_lt_succ (Nat.succ_pos _)
      rw [if_pos hcond]
      refine SH_lit_prefix _ _ (by decide) (by decide) ?_
      refine SH_seam _ _ _ hb ?_ (by decide) (by decide)
      refine SH_intercalate _ ?_
      intro x hx
      obtain ⟨tool, hmem, rfl⟩ := List.mem_map.mp hx
      have ht := h tool (List.mem_cons_of_mem t hmem)
      show SH ("  // TODO: Register tool \"" ++ tool.name ++ "\" - " ++
        tool.description)
      refine SH_of_head_space _ ?_ ?_
      · exact NlFree_append _ _ (NlFree_append _ _
          (NlFree_append _ _ (by decide) ht.1) (by decide)) ht.2.1
      · rw [show dat ("  // TODO: Register tool \"" ++ tool.name ++ "\" - " ++
            tool.description) =
            dat "  // TODO: Register tool \"" ++ (dat tool.name ++
              (dat "\" - " ++ dat tool.description)) from by
          simp [dat_append, List.append_assoc]]
        exact head_append_some _ _ _ (by decide)

theorem SH_ccToolsCode (tools : List McpTool) (hc : Bool)
    (h : ∀ t ∈ tools, toolSh t) :
    SH (generateCustomContainerToolsCode tools hc) := by
  cases tools with
  | nil =>
    show SH "  // No tools to register"
    decide
  | cons t rest =>
    simp only [generateCustomContainerToolsCode]
    refine SH_lit_prefix _ _ (by decide) (by decide) ?_
    refine SH_intercalate2 _ ?_
    intro x hx
    obtain ⟨tool, hmem, rfl⟩ := List.mem_map.mp hx
    exact SH_ccToolBlock tool hc (h tool hmem)

theorem SH_resourcesCode (rs : List McpResource)
    (h : ∀ r ∈ rs, resSh r) : SH (generateResourcesCode rs) := by
  cases rs with
  | nil =>
    show SH "  // No resources to register"
    decide
  | cons r rest =>
    have hb := SH_resourceFirstBlock r (h r (List.mem_cons_self r rest))
    simp only [generateResourcesCode]
    cases rest with
    | nil =>
      rw [if_neg (by decide)]
      exact SH_lit_prefix _ _ (by decide) (by decide) hb
    | cons r2 rest2 =>
      have hcond : (r2 :: rest2).length + 1 > 1 :=
        Nat.succ_lt_succ (Nat.succ_pos _)
      rw [if_pos hcond]
      refine SH_lit_prefix _ _ (by decide) (by decide) ?_
      refine SH_seam _ _ _ hb ?_ (by decide) (by decide)
      refine SH_intercalate _ ?_
      intro x hx
      obtain ⟨res, hmem, rfl⟩ := List.mem_map.mp hx
      have hr := h res (List.mem_cons_of_mem r hmem)
      show SH ("  // TODO: Register resource \"" ++ res.name ++ "\" - " ++
        res.description ++ " (" ++ res.uri ++ ")")
      refine SH_of_head_space _ ?_ ?_
      · exact NlFree_append _ _ (NlFree_append _ _ (NlFree_append _ _
          (NlFree_append _ _ (NlFree_append _ _ (NlFree_append _ _
            (by decide) hr.1) (by decide)) hr.2.2.1) (by decide)) hr.2.1)
          (by decide)
      · rw [show dat ("  // TODO: Register resource \"" ++ res.name ++
            "\" - " ++ res.description ++ " (" ++ res.uri ++ ")") =
            dat "  // TODO: Register resource \"" ++ (dat res.name ++
              (dat "\" - " ++ (dat res.description ++ (dat " (" ++
                (dat res.uri ++ dat ")"))))) from by
          simp [dat_append, List.append_assoc]]
        exact head_append_some _ _ _ (by decide)

theorem SH_promptsCode (qs : List McpPrompt)
    (h : ∀ q ∈ qs, promptSh q) : SH (generatePromptsCode qs) := by
  cases qs with
  | nil =>
    show SH "  // No prompts to register"
    decide
  | cons q rest =>
    have hb := SH_promptFirst q (h q (List.mem_cons_self q rest))
    simp only [generatePromptsCode]
    cases rest with
    | nil =>
      rw [if_neg (by decide)]
      exact SH_lit_prefix _ _ (by decide) (by decide) hb
    | cons q2 rest2 =>
      have hcond : (q2 :: rest2).length + 1 > 1 :=
        Nat.succ_lt_succ (Nat.succ_pos _)
      rw [if_pos hcond]
      refine SH_lit_prefix _ _ (by decide) (by decide) ?_
      refine SH_seam _ _ _ hb ?_ (by decide) (by decide)
      refine SH_intercalate _ ?_
      intro x hx
      obtain ⟨pr, hmem, rfl⟩ := List.mem_map.mp hx
      have hq := h pr (List.mem_cons_of_mem q hmem)
      show SH ("  // TODO: Register prompt \"" ++ pr.name ++ "\" - " ++
        pr.description)
      refine SH_of_head_space _ ?_ ?_
      · exact NlFree_append _ _ (NlFree_append _ _
          (NlFree_append _ _ (by decide) hq.1) (by decide)) hq.2.1
      · rw [show dat ("  // TODO: Register prompt \"" ++ pr.name ++ "\" - " ++
            pr.description) =
            dat "  // TODO: Register prompt \"" ++ (dat pr.name ++
              (dat "\" - " ++ dat pr.description)) from by
          simp [dat_append, List.append_assoc]]
        exact head_append_some _ _ _ (by decide)

theorem SH_cliMid (p : TemplateParams) (hc : Bool) (h : tplSh p) :
    SH (cliMid p hc) := by
  obtain ⟨hn, hv, htl, hrl, hql, hcz⟩ := h
  unfold cliMid
  refine SH_seam _ _ _ ?_ (by decide) (by decide) (by decide)
  refine SH_seam _ _ _ ?_ (SH_promptsCode _ hql) (by decide) (by decide)
  refine SH_seam _ _ _ ?_ (SH_toolsCode _ _ htl) (by decide) (by decide)
  exact SH_seam _ _ _ (SH_serverCreation _ _ hn hv) (SH_resourcesCode _ hrl)
    (by decide) (by decide)

theorem SH_ccMid (p : TemplateParams) (hc : Bool) (h : tplSh p) :
    SH (ccMid p hc) := by
  obtain ⟨hn, hv, htl, hrl, hql, hcz⟩ := h
  unfold ccMid
  rw [ccServerCreation_eq]
  refine SH_seam _ _ _ ?_ (by decide) (by decide) (by decide)
  refine SH_seam _ _ _ ?_ (SH_promptsCode _ hql) (by decide) (by decide)
  refine SH_seam _ _ _ ?_ (SH_ccToolsCode _ _ htl) (by decide) (by decide)
  exact SH_seam _ _ _ (SH_serverCreation _ _ hn hv) (SH_resourcesCode _ hrl)
    (by decide) (by decide)

theorem eCcClose2 : dat "\x7d) \x7b" = dat "\x7d" ++ dat ") \x7b" := by decide

set_option maxRecDepth 40000 in
/-- The backward-compatibility-free main function ignores the `hasConfig`
flag and the schema. -/
theorem mf_http (b : Bool) (cs : Option JSchema) :
    generateCustomContainerMainFunction false b cs =
      generateCustomContainerMainFunction false false none := by
  cases b <;> rfl

set_option maxRecDepth 40000 in
/-- Without a configuration schema the custom-container main function does
not depend on the schema argument. -/
theorem mf_cs (b : Bool) (cs : Option JSchema) :
    generateCustomContainerMainFunction b false cs =
      generateCustomContainerMainFunction b false none := by
  cases b <;> rfl

/-! ### Line decompositions of the full templates -/

set_option maxRecDepth 40000 in
theorem cliLines_nocfg (p : TemplateParams)
    (hbc : p.includeBackwardCompatibility = false)
    (hcb : cfgNonempty p.configSchema = false) :
    linesOf (generateIndexTsTemplate p) =
      linesOf (generateImports false) ++
        [] :: linesOf "// Configuration schema for smithery.yaml" ++
        linesOf "export const configSchema = z.object(\x7b\x7d);" ++
        [] :: linesOf "export default function createServer(\x7b" ++
        linesOf "  config," ++ linesOf "\x7d: \x7b" ++
        linesOf "  config: z.infer<typeof configSchema>;" ++
        linesOf "\x7d) \x7b" ++ linesOf (cliMid p false) ++
        linesOf "\x7d" ++ [[]] := by
  have hdat : dat (generateIndexTsTemplate p) =
      dat (generateImports false) ++ '\n' :: '\n' ::
        (dat "// Configuration schema for smithery.yaml" ++ '\n' ::
        (dat "export const configSchema = z.object(\x7b\x7d);" ++ '\n' :: '\n' ::
        (dat "export default function createServer(\x7b" ++ '\n' ::
        (dat "  config," ++ '\n' :: (dat "\x7d: \x7b" ++ '\n' ::
        (dat "  config: z.infer<typeof configSchema>;" ++ '\n' ::
        (dat "\x7d) \x7b" ++ '\n' :: (dat (cliMid p false) ++ '\n' ::
        (dat "\x7d" ++ ['\n']))))))))) := by
    simp [generateIndexTsTemplate, cliMid, hcb, hbc,
      (show ("" : String).isEmpty = true from rfl), dat_append, eCliElse,
      eCliCreate, eNl1, eNl2, eBrace1]
  unfold linesOf
  rw [hdat]
  simp only [splitLines_break, splitLines_newline_cons,
    (show splitLines ([] : List Char) = [[]] from rfl), List.append_assoc,
    List.cons_append, List.nil_append]

set_option maxRecDepth 40000 in
theorem cliLines_cfg (p : TemplateParams) (s : JSchema)
    (hcs : p.configSchema = some s) (hk : s.keysNonempty = true)
    (hbc : p.includeBackwardCompatibility = false) :
    linesOf (generateIndexTsTemplate p) =
      linesOf (generateImports false) ++
        [] :: linesOf "// Configuration schema extracted from your existing server" ++
        linesOf "export const configSchema = z.object(\x7b" ++
        linesOf (generateZodSchemaFromJson s) ++
        linesOf "\x7d);" ++
        [] :: linesOf "export default function createServer(\x7b" ++
        linesOf "  config," ++ linesOf "\x7d: \x7b" ++
        linesOf "  config: z.infer<typeof configSchema>;" ++
        linesOf "\x7d) \x7b" ++ linesOf (cliMid p true) ++
        linesOf "\x7d" ++ [[]] := by
  have hne2 :
      (("// Configuration schema extracted from your existing server\nexport const configSchema = z.object(\x7b\n" ++
        generateZodSchemaFromJson s ++ "\n\x7d);") : String).isEmpty = false :=
    isEmpty_false_of_append _ _ (isEmpty_false_of_append _ _ (by decide))
  have hdat : dat (generateIndexTsTemplate p) =
      dat (generateImports false) ++ '\n' :: '\n' ::
        (dat "// Configuration schema extracted from your existing server" ++
        '\n' :: (dat "export const configSchema = z.object(\x7b" ++ '\n' ::
        (dat (generateZodSchemaFromJson s) ++ '\n' ::
        (dat "\x7d);" ++ '\n' :: '\n' ::
        (dat "export default function createServer(\x7b" ++ '\n' ::
        (dat "  config," ++ '\n' :: (dat "\x7d: \x7b" ++ '\n' ::
        (dat "  config: z.infer<typeof configSchema>;" ++ '\n' ::
        (dat "\x7d) \x7b" ++ '\n' :: (dat (cliMid p true) ++ '\n' ::
        (dat "\x7d" ++ ['\n']))))))))))) := by
    simp [generateIndexTsTemplate, cliMid, generateConfigSchema, cfgNonempty,
      hcs, hk, hne2, hbc, dat_append, eCfgHead, eCfgTail, eCliCreate, eNl1,
      eNl2, eBrace1]
  unfold linesOf
  rw [hdat]
  simp only [splitLines_break, splitLines_newline_cons,
    (show splitLines ([] : List Char) = [[]] from rfl), List.append_assoc,
    List.cons_append, List.nil_append]

set_option maxRecDepth 40000 in
theorem ccLines_nocfg (p : TemplateParams)
    (hcb : cfgNonempty p.configSchema = false) :
    linesOf (generateCustomContainerTemplate p) =
      linesOf (generateCustomContainerImports p.includeBackwardCompatibility) ++
        [] :: linesOf generateExpressSetup ++
        [] :: [] :: [] ::
        linesOf "export default function createServer() \x7b" ++
        linesOf (ccMid p false) ++ linesOf "\x7d" ++
        [] :: linesOf (generateMcpRequestHandler false) ++
        [] :: linesOf (generateCustomContainerMainFunction
          p.includeBackwardCompatibility false p.configSchema) ++ [[]] := by
  have hdat : dat (generateCustomContainerTemplate p) =
      dat (generateCustomContainerImports p.includeBackwardCompatibility) ++
        '\n' :: '\n' :: (dat generateExpressSetup ++
        '\n' :: '\n' :: '\n' :: '\n' ::
        (dat "export default function createServer() \x7b" ++ '\n' ::
        (dat (ccMid p false) ++ '\n' :: (dat "\x7d" ++ '\n' :: '\n' ::
        (dat (generateMcpRequestHandler false) ++ '\n' :: '\n' ::
        (dat (generateCustomContainerMainFunction
          p.includeBackwardCompatibility false p.configSchema) ++
          ['\n'])))))) := by
    rw [eCcLineNoCfg]
    simp [generateCustomContainerTemplate, ccMid, hcb,
      (show ("" : String).isEmpty = true from rfl), dat_append, eCcCreate,
      eCcClose, eNl1, eNl2, eBrace2]
  unfold linesOf
  rw [hdat]
  simp only [splitLines_break, splitLines_newline_cons,
    (show splitLines ([] : List Char) = [[]] from rfl), List.append_assoc,
    List.cons_append, List.nil_append]

set_option maxRecDepth 40000 in
theorem ccLines_cfg (p : TemplateParams) (s : JSchema)
    (hcs : p.configSchema = some s) (hk : s.keysNonempty = true) :
    linesOf (generateCustomContainerTemplate p) =
      linesOf (generateCustomContainerImports p.includeBackwardCompatibility) ++
        [] :: linesOf generateExpressSetup ++
        [] :: linesOf "// Configuration schema extracted from your existing server" ++
        linesOf "export const configSchema = z.object(\x7b" ++
        linesOf (generateZodSchemaFromJson s) ++
        linesOf "\x7d);" ++
        [] :: linesOf ccConfigFunctions ++
        [] :: linesOf "export default function createServer(\x7b" ++
        linesOf "  config," ++ linesOf "\x7d: \x7b" ++
        linesOf "  config: z.infer<typeof configSchema>;" ++
        linesOf "\x7d) \x7b" ++ linesOf (ccMid p true) ++
        linesOf "\x7d" ++
        [] :: linesOf (generateMcpRequestHandler true) ++
        [] :: linesOf (generateCustomContainerMainFunction
          p.includeBackwardCompatibility true p.configSchema) ++ [[]] := by
  have hne2 :
      (("// Configuration schema extracted from your existing server\nexport const configSchema = z.object(\x7b\n" ++
        generateZodSchemaFromJson s ++ "\n\x7d);") : String).isEmpty = false :=
    isEmpty_false_of_append _ _ (isEmpty_false_of_append _ _ (by decide))
  have hdat : dat (generateCustomContainerTemplate p) =
      dat (generateCustomContainerImports p.includeBackwardCompatibility) ++
        '\n' :: '\n' :: (dat generateExpressSetup ++ '\n' :: '\n' ::
        (dat "// Configuration schema extracted from your existing server" ++
        '\n' :: (dat "export const configSchema = z.object(\x7b" ++ '\n' ::
        (dat (generateZodSchemaFromJson s) ++ '\n' ::
        (dat "\x7d);" ++ '\n' :: '\n' ::
        (dat ccConfigFunctions ++ '\n' :: '\n' ::
        (dat "export default function createServer(\x7b" ++ '\n' ::
        (dat "  config," ++ '\n' :: (dat "\x7d: \x7b" ++ '\n' ::
        (dat "  config: z.infer<typeof configSchema>;" ++ '\n' ::
        (dat "\x7d) \x7b" ++ '\n' :: (dat (ccMid p true) ++ '\n' ::
        (dat "\x7d" ++ '\n' :: '\n' ::
        (dat (generateMcpRequestHandler true) ++ '\n' :: '\n' ::
        (dat (generateCustomContainerMainFunction
          p.includeBackwardCompatibility true p.configSchema) ++
          ['\n']))))))))))))))) := by
    rw [eCcLineCfg, eCcClose2]
    simp [generateCustomContainerTemplate, ccMid,
      generateCustomContainerConfigSchema, cfgNonempty, hcs, hk, hne2,
      dat_append, eCfgHead, eCfgTail, eCcCreate, eCcClose, eCcParam, eNl1,
      eNl2, eBrace2]
  unfold linesOf
  rw [hdat]
  simp only [splitLines_break, splitLines_newline_cons,
    (show splitLines ([] : List Char) = [[]] from rfl), List.append_assoc,
    List.cons_append, List.nil_append]

set_option maxRecDepth 40000 in
/-- C2: config-schema presence gating across the three generators.  The
CLI-managed TypeScript template always declares an exported `configSchema`
(the extracted one when present, the empty object schema otherwise) and
always passes the `config` parameter to `createServer`; the
custom-container TypeScript template declares the schema and takes the
config parameter exactly in the has-config shape when a non-empty schema
is present, and exposes a parameterless `createServer()` otherwise — and
then, for every input whose interpolated fields are newline-free and
whose embedded schemas render indented, no line of the custom-container
file starts with an `export const configSchema` declaration (on a
concrete no-schema input the text `configSchema` does not occur anywhere
at all); the Python template emits its configuration-access functions
whenever a non-empty schema is present, and on a concrete no-schema
input the text `def get_request_config` does not occur anywhere. -/
theorem C2_config_schema_gating (p : TemplateParams) :
    hasLine "  config," (generateIndexTsTemplate p) ∧
    (if cfgNonempty p.configSchema then
      hasLine "export const configSchema = z.object(\x7b"
        (generateIndexTsTemplate p)
    else
      hasLine "export const configSchema = z.object(\x7b\x7d);"
        (generateIndexTsTemplate p)) ∧
    (if cfgNonempty p.configSchema then
      hasLine "export default function createServer(\x7b"
          (generateCustomContainerTemplate p) ∧
        hasLine "  config: z.infer<typeof configSchema>;"
          (generateCustomContainerTemplate p) ∧
        hasLine "export const configSchema = z.object(\x7b"
          (generateCustomContainerTemplate p)
    else
      hasLine "export default function createServer() \x7b"
        (generateCustomContainerTemplate p)) ∧
    (if cfgNonempty p.configSchema then
      hasLine "def get_request_config() -> dict:" (generatePythonTemplate p)
    else True) ∧
    hasInfix "configSchema"
      (generateCustomContainerTemplate
        { tools := [], prompts := [], resources := [], serverName := "srv",
          serverVersion := "1.0.0", includeBackwardCompatibility := false }) =
      false ∧
    hasInfix "def get_request_config"
      (generatePythonTemplate
        { tools := [], prompts := [], resources := [], serverName := "srv",
          serverVersion := "1.0.0", includeBackwardCompatibility := false }) =
      false ∧
    (cfgNonempty p.configSchema = false → tplSh p →
      cnt "export const configSchema" (generateCustomContainerTemplate p) =
        0) := by
  cases hcb : cfgNonempty p.configSchema with
  | false =>
    refine ⟨?_, ?_, ?_, ?_, by decide, by decide, ?_⟩
    · refine hasLine_dat _ _
        (dat (generateImports p.includeBackwardCompatibility) ++ '\n' :: '\n' ::
          (dat "// Configuration schema for smithery.yaml" ++ '\n' ::
          (dat "export const configSchema = z.object(\x7b\x7d);" ++ '\n' :: '\n' ::
          dat "export default function createServer(\x7b")))
        (dat "\x7d: \x7b" ++ '\n' ::
          (dat "  config: z.infer<typeof configSchema>;" ++ '\n' ::
          (dat "\x7d) \x7b" ++ '\n' :: (dat (cliMid p false) ++ '\n' ::
          (dat "\x7d" ++
            (dat (if p.includeBackwardCompatibility then
                generateBackwardsCompatibilityCode p.configSchema else "") ++
              ['\n']))))))
        (by decide) ?_
      simp [generateIndexTsTemplate, cliMid, hcb,
        show ("" : String).isEmpty = true from rfl, dat_append, eCliElse,
        eCliCreate, eNl1, eNl2, eBrace1]
    · rw [if_neg (show ¬ (false = true) by decide)]
      refine hasLine_dat _ _
        (dat (generateImports p.includeBackwardCompatibility) ++ '\n' :: '\n' ::
          dat "// Configuration schema for smithery.yaml")
        ('\n' :: (dat "export default function createServer(\x7b" ++ '\n' ::
          (dat "  config," ++ '\n' :: (dat "\x7d: \x7b" ++ '\n' ::
          (dat "  config: z.infer<typeof configSchema>;" ++ '\n' ::
          (dat "\x7d) \x7b" ++ '\n' :: (dat (cliMid p false) ++ '\n' ::
          (dat "\x7d" ++
            (dat (if p.includeBackwardCompatibility then
                generateBackwardsCompatibilityCode p.configSchema else "") ++
              ['\n'])))))))))
        (by decide) ?_
      simp [generateIndexTsTemplate, cliMid, hcb,
        show ("" : String).isEmpty = true from rfl, dat_append, eCliElse,
        eCliCreate, eNl1, eNl2, eBrace1]
    · rw [if_neg (show ¬ (false = true) by decide)]
      refine hasLine_dat _ _
        (dat (generateCustomContainerImports p.includeBackwardCompatibility) ++
          '\n' :: '\n' :: (dat generateExpressSetup ++ ['\n', '\n', '\n']))
        (dat (ccMid p false) ++ '\n' :: (dat "\x7d" ++ '\n' :: '\n' ::
          (dat (ccEnd p false) ++ ['\n'])))
        (by decide) ?_
      rw [eCcLineNoCfg]
      simp [generateCustomContainerTemplate, ccMid, ccEnd, hcb,
        show ("" : String).isEmpty = true from rfl, dat_append, eCcCreate,
        eCcClose, eNl1, eNl2, eBrace2]
    · rw [if_neg (show ¬ (false = true) by decide)]
      trivial
    · intro _ h
      have hsl := SH_lines _ (SH_ccMid p false h)
      unfold cnt
      rw [ccLines_nocfg p hcb]
      simp only [List.countP_append, List.countP_cons, List.countP_nil]
      rw [countP_isPre_zero "export const configSchema" 'e' _ (by decide)
        (by decide) hsl]
      rw [mf_cs]
      cases hb2 : p.includeBackwardCompatibility <;> decide
  | true =>
    obtain ⟨s, hcs⟩ : ∃ s, p.configSchema = some s := by
      cases hcv : p.configSchema with
      | none => rw [hcv] at hcb; exact absurd hcb (by decide)
      | some s => exact ⟨s, rfl⟩
    have hk : s.keysNonempty = true := by
      rw [hcs] at hcb; exact hcb
    have hneCli :
        (("// Configuration schema extracted from your existing server\nexport const configSchema = z.object(\x7b\n" ++
          generateZodSchemaFromJson s ++ "\n\x7d);") : String).isEmpty =
          false :=
      isEmpty_false_of_append _ _ (isEmpty_false_of_append _ _ (by decide))
    refine ⟨?_, ?_, ?_, ?_, by decide, by decide, ?_⟩
    · refine hasLine_dat _ _
        (dat (generateImports p.includeBackwardCompatibility) ++ '\n' :: '\n' ::
          (dat "// Configuration schema extracted from your existing server" ++
          '\n' :: (dat "export const configSchema = z.object(\x7b" ++ '\n' ::
          (dat (generateZodSchemaFromJson s) ++ '\n' ::
          (dat "\x7d);" ++ '\n' :: '\n' ::
          dat "export default function createServer(\x7b")))))
        (dat "\x7d: \x7b" ++ '\n' ::
          (dat "  config: z.infer<typeof configSchema>;" ++ '\n' ::
          (dat "\x7d) \x7b" ++ '\n' :: (dat (cliMid p true) ++ '\n' ::
          (dat "\x7d" ++
            (dat (if p.includeBackwardCompatibility then
                generateBackwardsCompatibilityCode (some s) else "") ++
              ['\n']))))))
        (by decide) ?_
      simp [generateIndexTsTemplate, cliMid, generateConfigSchema, cfgNonempty,
        hcs, hk, hneCli, dat_append, eCfgHead, eCfgTail, eCliCreate, eNl1,
        eNl2, eBrace1]
    · rw [if_pos (show (true = true) from rfl)]
      refine hasLine_dat _ _
        (dat (generateImports p.includeBackwardCompatibility) ++ '\n' :: '\n' ::
          dat "// Configuration schema extracted from your existing server")
        (dat (generateZodSchemaFromJson s) ++ '\n' ::
          (dat "\x7d);" ++ '\n' :: '\n' ::
          (dat "export default function createServer(\x7b" ++ '\n' ::
          (dat "  config," ++ '\n' :: (dat "\x7d: \x7b" ++ '\n' ::
          (dat "  config: z.infer<typeof configSchema>;" ++ '\n' ::
          (dat "\x7d) \x7b" ++ '\n' :: (dat (cliMid p true) ++ '\n' ::
          (dat "\x7d" ++
            (dat (if p.includeBackwardCompatibility then
                generateBackwardsCompatibilityCode (some s) else "") ++
              ['\n']))))))))))
        (by decide) ?_
      simp [generateIndexTsTemplate, cliMid, generateConfigSchema, cfgNonempty,
        hcs, hk, hneCli, dat_append, eCfgHead, eCfgTail, eCliCreate, eNl1,
        eNl2, eBrace1]
    · rw [if_pos (show (true = true) from rfl)]
      refine ⟨?_, ?_, ?_⟩
      · refine hasLine_dat _ _
          (dat (generateCustomContainerImports p.includeBackwardCompatibility) ++
            '\n' :: '\n' :: (dat generateExpressSetup ++ '\n' :: '\n' ::
            (dat "// Configuration schema extracted from your existing server" ++
            '\n' :: (dat "export const configSchema = z.object(\x7b" ++ '\n' ::
            (dat (generateZodSchemaFromJson s) ++ '\n' ::
            (dat "\x7d);" ++ '\n' :: '\n' ::
            (dat ccConfigFunctions ++ ['\n'])))))))
          (dat "  config," ++ '\n' :: (dat "\x7d: \x7b" ++ '\n' ::
            (dat "  config: z.infer<typeof configSchema>;" ++ '\n' ::
            (dat "\x7d" ++ (dat ") \x7b" ++ '\n' :: (dat (ccMid p true) ++
            '\n' :: (dat "\x7d" ++ '\n' :: '\n' ::
            (dat (ccEnd p true) ++ ['\n']))))))))
          (by decide) ?_
        rw [eCcLineCfg]
        simp [generateCustomContainerTemplate, ccMid, ccEnd,
          generateCustomContainerConfigSchema, cfgNonempty, hcs, hk, hneCli,
          dat_append, eCfgHead, eCfgTail, eCcCreate, eCcClose, eCcParam, eNl1,
          eNl2, eBrace2]
      · refine hasLine_dat _ _
          (dat (generateCustomContainerImports p.includeBackwardCompatibility) ++
            '\n' :: '\n' :: (dat generateExpressSetup ++ '\n' :: '\n' ::
            (dat "// Configuration schema extracted from your existing server" ++
            '\n' :: (dat "export const configSchema = z.object(\x7b" ++ '\n' ::
            (dat (generateZodSchemaFromJson s) ++ '\n' ::
            (dat "\x7d);" ++ '\n' :: '\n' ::
            (dat ccConfigFunctions ++ '\n' :: '\n' ::
            (dat "export default function createServer(" ++
            (dat "\x7b" ++ '\n' :: (dat "  config," ++ '\n' ::
            dat "\x7d: \x7b"))))))))))
          (dat "\x7d" ++ (dat ") \x7b" ++ '\n' :: (dat (ccMid p true) ++
            '\n' :: (dat "\x7d" ++ '\n' :: '\n' ::
            (dat (ccEnd p true) ++ ['\n'])))))
          (by decide) ?_
        simp [generateCustomContainerTemplate, ccMid, ccEnd,
          generateCustomContainerConfigSchema, cfgNonempty, hcs, hk, hneCli,
          dat_append, eCfgHead, eCfgTail, eCcCreate, eCcClose, eCcParam, eNl1,
          eNl2, eBrace2]
      · refine hasLine_dat _ _
          (dat (generateCustomContainerImports p.includeBackwardCompatibility) ++
            '\n' :: '\n' :: (dat generateExpressSetup ++ '\n' :: '\n' ::
            dat "// Configuration schema extracted from your existing server"))
          (dat (generateZodSchemaFromJson s) ++ '\n' ::
            (dat "\x7d);" ++ '\n' :: '\n' ::
            (dat ccConfigFunctions ++ '\n' :: '\n' ::
            (dat "export default function createServer(" ++
            (dat "\x7b" ++ '\n' :: (dat "  config," ++ '\n' ::
            (dat "\x7d: \x7b" ++ '\n' ::
            (dat "  config: z.infer<typeof configSchema>;" ++ '\n' ::
            (dat "\x7d" ++ (dat ") \x7b" ++ '\n' :: (dat (ccMid p true) ++
            '\n' :: (dat "\x7d" ++ '\n' :: '\n' ::
            (dat (ccEnd p true) ++ ['\n'])))))))))))))
          (by decide) ?_
        simp [generateCustomContainerTemplate, ccMid, ccEnd,
          generateCustomContainerConfigSchema, cfgNonempty, hcs, hk, hneCli,
          dat_append, eCfgHead, eCfgTail, eCcCreate, eCcClose, eCcParam, eNl1,
          eNl2, eBrace2]
    · rw [if_pos (show (true = true) from rfl)]
      refine hasLine_trans _ pyConfigFunctions _
        (dat (generatePythonImports p.includeBackwardCompatibility) ++
          '\n' :: '\n' :: (dat (generateServerInit p.serverName) ++ ['\n']))
        ('\n' :: (dat (pyTail p) ++ '\n' :: '\n' ::
          (dat pyMiddleware ++ ['\n'])))
        ?_ (by decide)
      simp [generatePythonTemplate, pyTail, cfgNonempty, hcs, hk,
        (show pyConfigFunctions.isEmpty = false by decide),
        (show pyMiddleware.isEmpty = false by decide), dat_append, eNl1, eNl2]
    · exact fun hcf _ => absurd hcf (by decide)

set_option maxRecDepth 40000 in
/-- C2 witness: a concrete no-schema custom-container input satisfying the
line-hygiene side conditions, on which the template contains no
configuration-schema declaration line. -/
theorem C2_config_schema_gating_witness :
    cfgNonempty
        ((⟨[], [], [], "srv", "1.0.0", false, none⟩ :
          TemplateParams).configSchema) =
      false ∧
    tplSh (⟨[], [], [], "srv", "1.0.0", false, none⟩ : TemplateParams) ∧
    cnt "export const configSchema"
      (generateCustomContainerTemplate
        ⟨[], [], [], "srv", "1.0.0", false, none⟩) = 0 :=
  ⟨rfl, by decide,
    (C2_config_schema_gating
        ⟨[], [], [], "srv", "1.0.0", false, none⟩).2.2.2.2.2.2 rfl
      (by decide)⟩

set_option maxRecDepth 40000 in
/-- C2 counterexample: with no extracted configuration schema the
CLI-managed TypeScript generator still declares an (empty) exported
`configSchema` and still passes the `config` parameter to `createServer`,
contradicting the claim that no schema declaration and no configuration
parameter are emitted when `hasConfig` is false. -/
theorem C2_counterexample_cli_empty_schema_decl :
    cfgNonempty
        ((⟨[], [], [], "srv", "1.0.0", false, none⟩ :
          TemplateParams).configSchema) =
      false ∧
    hasLine "export const configSchema = z.object(\x7b\x7d);"
      (generateIndexTsTemplate
        ⟨[], [], [], "srv", "1.0.0", false, none⟩) ∧
    hasLine "  config,"
      (generateIndexTsTemplate
        ⟨[], [], [], "srv", "1.0.0", false, none⟩) :=
  ⟨rfl, by decide, by decide⟩

/-! ## Backward-compatibility gating (C3) -/

set_option maxRecDepth 40000 in
theorem eBcHead :
    dat "\n\n// STDIO backwards compatibility - only runs when executed directly\nasync function main() \x7b\n  // Get configuration from environment variables\n  " =
      '\n' :: '\n' ::
        (dat "// STDIO backwards compatibility - only runs when executed directly" ++
          '\n' ::
          dat "async function main() \x7b\n  // Get configuration from environment variables\n  ") := by
  decide

set_option maxRecDepth 40000 in
theorem eMfB :
    dat "\n\n    // Create server with configuration\n    const server = createServer(\x7b config \x7d);\n\n    // Start receiving messages on stdin and sending messages on stdout\n    const stdioTransport = new StdioServerTransport();\n    await server.connect(stdioTransport);\n    console.error(\"MCP Server running in stdio mode\");\n  \x7d" =
      '\n' :: '\n' ::
        dat "    // Create server with configuration\n    const server = createServer(\x7b config \x7d);\n\n    // Start receiving messages on stdin and sending messages on stdout\n    const stdioTransport = new StdioServerTransport();\n    await server.connect(stdioTransport);\n    console.error(\"MCP Server running in stdio mode\");\n  \x7d" := by
  decide

set_option maxRecDepth 40000 in
theorem eMfE :
    dat "\n\x7d\n\n// Start the server\nmain().catch((error) => \x7b\n  console.error(\"Server error:\", error);\n  process.exit(1);\n\x7d);" =
      '\n' ::
        dat "\x7d\n\n// Start the server\nmain().catch((error) => \x7b\n  console.error(\"Server error:\", error);\n  process.exit(1);\n\x7d);" := by
  decide

theorem eParse1 :
    dat "const config = configSchema.parse(\x7b\n" =
      dat "const config = configSchema.parse(\x7b" ++ ['\n'] := by decide

theorem eParse2 : dat "\n  \x7d);" = '\n' :: dat "  \x7d);" := by decide

set_option maxRecDepth 40000 in
set_option maxHeartbeats 3200000 in
/-- C3: backward-compatibility gating.  When
`includeBackwardCompatibility` is requested, both TypeScript templates
emit the stdio transport import line and the stdio bootstrap (the CLI
template's backwards-compatibility `main`, the custom container's
stdio-mode branch); without the flag, for every input whose interpolated
fields are newline-free and whose embedded schemas render indented, no
line of either TypeScript output starts with the stdio transport import,
no line of the CLI output starts with the stdio bootstrap marker comment,
and no line of the custom-container output starts with the dual-mode main
marker comment; on a concrete input without the flag, the text
`StdioServerTransport` moreover does not occur anywhere in either
output.  The
environment-variable configuration parser has exactly one line per schema
property between its fixed header and footer, and each line reads
`process.env.` followed by the upper-cased property name, comparing
booleans to the literal string true, wrapping numbers and integers in a
parse-or-undefined expression, and passing every other type through
raw. -/
theorem C3_backcompat_gating (p : TemplateParams) (cfg : JSchema)
    (props : List (String × JProp)) (hp : cfg.properties = some props)
    (hne : props ≠ []) (hnl : ∀ kp ∈ props, NlFree (envLine kp)) :
    (p.includeBackwardCompatibility = true →
      hasLine "import \x7b StdioServerTransport \x7d from \"@modelcontextprotocol/sdk/server/stdio.js\";"
          (generateIndexTsTemplate p) ∧
        hasLine "// STDIO backwards compatibility - only runs when executed directly"
          (generateIndexTsTemplate p) ∧
        hasLine "import \x7b StdioServerTransport \x7d from \"@modelcontextprotocol/sdk/server/stdio.js\";"
          (generateCustomContainerTemplate p) ∧
        hasLine "    const stdioTransport = new StdioServerTransport();"
          (generateCustomContainerTemplate p)) ∧
    (p.includeBackwardCompatibility = false → tplSh p →
      cnt "import \x7b StdioServerTransport" (generateIndexTsTemplate p) =
          0 ∧
        cnt "// STDIO backwards compatibility"
          (generateIndexTsTemplate p) = 0 ∧
        cnt "import \x7b StdioServerTransport"
          (generateCustomContainerTemplate p) = 0 ∧
        cnt "// Main function to start the server in the appropriate mode"
          (generateCustomContainerTemplate p) = 0) ∧
    hasInfix "StdioServerTransport"
      (generateIndexTsTemplate
        ⟨[], [], [], "srv", "1.0.0", false, none⟩) = false ∧
    hasInfix "StdioServerTransport"
      (generateCustomContainerTemplate
        ⟨[], [], [], "srv", "1.0.0", false, none⟩) = false ∧
    linesOf (generateEnvConfigParsing (some cfg)) =
      dat "const config = configSchema.parse(\x7b" ::
        ((props.map fun kp => dat (envLine kp)) ++ [dat "  \x7d);"]) ∧
    ∀ kp ∈ props,
      (kp.2.type = some "boolean" →
        envLine kp =
          "    " ++ kp.1 ++ ": " ++ "process.env." ++ jsUpper kp.1 ++
            " === \x27true\x27,") ∧
      ((kp.2.type = some "number" ∨ kp.2.type = some "integer") →
        envLine kp =
          "    " ++ kp.1 ++ ": " ++ "process.env." ++ jsUpper kp.1 ++
            " ? Number(" ++ "process.env." ++ jsUpper kp.1 ++
            ") : undefined,") ∧
      (kp.2.type ≠ some "boolean" → kp.2.type ≠ some "number" →
        kp.2.type ≠ some "integer" →
        envLine kp =
          "    " ++ kp.1 ++ ": " ++ "process.env." ++ jsUpper kp.1 ++
            ",") := by
  refine ⟨?_, ?_, by decide, by decide, ?_, ?_⟩
  case refine_2 =>
    intro hbc h
    cases hcb : cfgNonempty p.configSchema with
    | false =>
      have hslCli := SH_lines _ (SH_cliMid p false h)
      have hslCc := SH_lines _ (SH_ccMid p false h)
      refine ⟨?_, ?_, ?_, ?_⟩
      · unfold cnt
        rw [cliLines_nocfg p hbc hcb]
        simp only [List.countP_append, List.countP_cons, List.countP_nil]
        rw [countP_isPre_zero "import \x7b StdioServerTransport" 'i' _
          (by decide) (by decide) hslCli]
        decide
      · unfold cnt
        rw [cliLines_nocfg p hbc hcb]
        simp only [List.countP_append, List.countP_cons, List.countP_nil]
        rw [countP_isPre_zero "// STDIO backwards compatibility" '/' _
          (by decide) (by decide) hslCli]
        decide
      · unfold cnt
        rw [ccLines_nocfg p hcb, hbc, mf_http]
        simp only [List.countP_append, List.countP_cons, List.countP_nil]
        rw [countP_isPre_zero "import \x7b StdioServerTransport" 'i' _
          (by decide) (by decide) hslCc]
        decide
      · unfold cnt
        rw [ccLines_nocfg p hcb, hbc, mf_http]
        simp only [List.countP_append, List.countP_cons, List.countP_nil]
        rw [countP_isPre_zero
          "// Main function to start the server in the appropriate mode" '/'
          _ (by decide) (by decide) hslCc]
        decide
    | true =>
      obtain ⟨s, hcs⟩ : ∃ s, p.configSchema = some s := by
        cases hcv : p.configSchema with
        | none => rw [hcv] at hcb; exact absurd hcb (by decide)
        | some s => exact ⟨s, rfl⟩
      have hk : s.keysNonempty = true := by
        rw [hcs] at hcb; exact hcb
      have hz : SH (generateZodSchemaFromJson s "  ") := by
        have h2 := h.2.2.2.2.2
        rw [hcs] at h2
        exact h2
      have hslCli := SH_lines _ (SH_cliMid p true h)
      have hslCc := SH_lines _ (SH_ccMid p true h)
      have hslZ := SH_lines _ hz
      refine ⟨?_, ?_, ?_, ?_⟩
      · unfold cnt
        rw [cliLines_cfg p s hcs hk hbc]
        simp only [List.countP_append, List.countP_cons, List.countP_nil]
        rw [countP_isPre_zero "import \x7b StdioServerTransport" 'i' _
          (by decide) (by decide) hslCli]
        rw [countP_isPre_zero "import \x7b StdioServerTransport" 'i' _
          (by decide) (by decide) hslZ]
        decide
      · unfold cnt
        rw [cliLines_cfg p s hcs hk hbc]
        simp only [List.countP_append, List.countP_cons, List.countP_nil]
        rw [countP_isPre_zero "// STDIO backwards compatibility" '/' _
          (by decide) (by decide) hslCli]
        rw [countP_isPre_zero "// STDIO backwards compatibility" '/' _
          (by decide) (by decide) hslZ]
        decide
      · unfold cnt
        rw [ccLines_cfg p s hcs hk, hbc, mf_http]
        simp only [List.countP_append, List.countP_cons, List.countP_nil]
        rw [countP_isPre_zero "import \x7b StdioServerTransport" 'i' _
          (by decide) (by decide) hslCc]
        rw [countP_isPre_zero "import \x7b StdioServerTransport" 'i' _
          (by decide) (by decide) hslZ]
        decide
      · unfold cnt
        rw [ccLines_cfg p s hcs hk, hbc, mf_http]
        simp only [List.countP_append, List.countP_cons, List.countP_nil]
        rw [countP_isPre_zero
          "// Main function to start the server in the appropriate mode" '/'
          _ (by decide) (by decide) hslCc]
        rw [countP_isPre_zero
          "// Main function to start the server in the appropriate mode" '/'
          _ (by decide) (by decide) hslZ]
        decide
  · intro hbc
    have himpCli :
        hasLine "import \x7b StdioServerTransport \x7d from \"@modelcontextprotocol/sdk/server/stdio.js\";"
          (generateImports p.includeBackwardCompatibility) := by
      rw [hbc]; decide
    have himpCc :
        hasLine "import \x7b StdioServerTransport \x7d from \"@modelcontextprotocol/sdk/server/stdio.js\";"
          (generateCustomContainerImports p.includeBackwardCompatibility) := by
      rw [hbc]; decide
    have hmark :
        hasLine "// STDIO backwards compatibility - only runs when executed directly"
          ("\x7d" ++ generateBackwardsCompatibilityCode p.configSchema) := by
      refine hasLine_dat _ _ (dat "\x7d" ++ ['\n'])
        (dat "async function main() \x7b\n  // Get configuration from environment variables\n  " ++
          (dat (generateEnvConfigParsing p.configSchema) ++
          (dat "\n  \n  // Create server with configuration\n  " ++
          (dat "const server = createServer(\x7b\n    config\n  \x7d);" ++
          dat "\n\n  const transport = new StdioServerTransport();\n  await server.connect(transport);\n  console.error(\"MCP Server running in stdio mode\");\n\x7d\n\n// By default run the server with stdio transport\nmain().catch((error) => \x7b\n  console.error(\"Server error:\", error);\n  process.exit(1);\n\x7d);"))))
        (by decide) ?_
      simp [generateBackwardsCompatibilityCode, ite_self, dat_append, eBcHead]
    cases hcb : cfgNonempty p.configSchema with
    | false =>
      refine ⟨?_, ?_, ?_, ?_⟩
      · refine hasLine_trans_head _
          (generateImports p.includeBackwardCompatibility) _
          ('\n' :: (dat "// Configuration schema for smithery.yaml" ++ '\n' ::
            (dat "export const configSchema = z.object(\x7b\x7d);" ++ '\n' :: '\n' ::
            (dat "export default function createServer(\x7b" ++ '\n' ::
            (dat "  config," ++ '\n' :: (dat "\x7d: \x7b" ++ '\n' ::
            (dat "  config: z.infer<typeof configSchema>;" ++ '\n' ::
            (dat "\x7d) \x7b" ++ '\n' :: (dat (cliMid p false) ++ '\n' ::
            (dat "\x7d" ++
              (dat (generateBackwardsCompatibilityCode p.configSchema) ++
                ['\n']))))))))))) ?_ himpCli
        simp [generateIndexTsTemplate, cliMid, hcb, hbc,
          (show ("" : String).isEmpty = true from rfl), dat_append, eCliElse,
          eCliCreate, eNl1, eNl2, eBrace1]
      · refine hasLine_trans _
          ("\x7d" ++ generateBackwardsCompatibilityCode p.configSchema) _
          (dat (generateImports p.includeBackwardCompatibility) ++ '\n' :: '\n' ::
            (dat "// Configuration schema for smithery.yaml" ++ '\n' ::
            (dat "export const configSchema = z.object(\x7b\x7d);" ++ '\n' :: '\n' ::
            (dat "export default function createServer(\x7b" ++ '\n' ::
            (dat "  config," ++ '\n' :: (dat "\x7d: \x7b" ++ '\n' ::
            (dat "  config: z.infer<typeof configSchema>;" ++ '\n' ::
            (dat "\x7d) \x7b" ++ '\n' :: dat (cliMid p false)))))))))
          ([] : List Char) ?_ hmark
        simp [generateIndexTsTemplate, cliMid, hcb, hbc,
          (show ("" : String).isEmpty = true from rfl), dat_append, eCliElse,
          eCliCreate, eNl1, eNl2, eBrace1]
      · refine hasLine_trans_head _
          (generateCustomContainerImports p.includeBackwardCompatibility) _
          ('\n' :: (dat generateExpressSetup ++ '\n' :: '\n' :: '\n' :: '\n' ::
            (dat "export default function createServer(" ++ (dat ") \x7b" ++
            '\n' :: (dat (ccMid p false) ++ '\n' :: (dat "\x7d" ++ '\n' :: '\n' ::
            (dat (generateMcpRequestHandler false) ++ '\n' :: '\n' ::
            (dat (generateCustomContainerMainFunction
                p.includeBackwardCompatibility false p.configSchema) ++
              ['\n'])))))))) ?_ himpCc
        simp [generateCustomContainerTemplate, ccMid, hcb, hbc,
          (show ("" : String).isEmpty = true from rfl), dat_append, eCcCreate,
          eCcClose, eNl1, eNl2, eBrace2]
      · refine hasLine_trans _
          (generateCustomContainerMainFunction p.includeBackwardCompatibility
            false p.configSchema) _
          (dat (generateCustomContainerImports p.includeBackwardCompatibility) ++
            '\n' :: '\n' :: (dat generateExpressSetup ++
            '\n' :: '\n' :: '\n' :: '\n' ::
            (dat "export default function createServer(" ++ (dat ") \x7b" ++
            '\n' :: (dat (ccMid p false) ++ '\n' :: (dat "\x7d" ++ '\n' :: '\n' ::
            (dat (generateMcpRequestHandler false) ++ ['\n'])))))))
          ([] : List Char) ?_ ?_
        · simp [generateCustomContainerTemplate, ccMid, hcb, hbc,
            (show ("" : String).isEmpty = true from rfl), dat_append, eCcCreate,
            eCcClose, eNl1, eNl2, eBrace2]
        · rw [hbc,
            show generateCustomContainerMainFunction true false p.configSchema =
                generateCustomContainerMainFunction true false none from by
              simp [generateCustomContainerMainFunction]]
          decide
    | true =>
      obtain ⟨s, hcs⟩ : ∃ s, p.configSchema = some s := by
        cases hcv : p.configSchema with
        | none => rw [hcv] at hcb; exact absurd hcb (by decide)
        | some s => exact ⟨s, rfl⟩
      have hk : s.keysNonempty = true := by
        rw [hcs] at hcb; exact hcb
      have hneCli2 :
          (("// Configuration schema extracted from your existing server\nexport const configSchema = z.object(\x7b\n" ++
            generateZodSchemaFromJson s ++ "\n\x7d);") : String).isEmpty =
            false :=
        isEmpty_false_of_append _ _ (isEmpty_false_of_append _ _ (by decide))
      refine ⟨?_, ?_, ?_, ?_⟩
      · refine hasLine_trans_head _
          (generateImports p.includeBackwardCompatibility) _
          ('\n' :: (dat "// Configuration schema extracted from your existing server" ++
            '\n' :: (dat "export const configSchema = z.object(\x7b" ++ '\n' ::
            (dat (generateZodSchemaFromJson s) ++ '\n' ::
            (dat "\x7d);" ++ '\n' :: '\n' ::
            (dat "export default function createServer(\x7b" ++ '\n' ::
            (dat "  config," ++ '\n' :: (dat "\x7d: \x7b" ++ '\n' ::
            (dat "  config: z.infer<typeof configSchema>;" ++ '\n' ::
            (dat "\x7d) \x7b" ++ '\n' :: (dat (cliMid p true) ++ '\n' ::
            (dat "\x7d" ++
              (dat (generateBackwardsCompatibilityCode (some s)) ++
                ['\n']))))))))))))) ?_ himpCli
        simp [generateIndexTsTemplate, cliMid, generateConfigSchema,
          cfgNonempty, hcs, hk, hneCli2, hbc, dat_append, eCfgHead, eCfgTail,
          eCliCreate, eNl1, eNl2, eBrace1]
      · refine hasLine_trans _
          ("\x7d" ++ generateBackwardsCompatibilityCode p.configSchema) _
          (dat (generateImports p.includeBackwardCompatibility) ++ '\n' :: '\n' ::
            (dat "// Configuration schema extracted from your existing server" ++
            '\n' :: (dat "export const configSchema = z.object(\x7b" ++ '\n' ::
            (dat (generateZodSchemaFromJson s) ++ '\n' ::
            (dat "\x7d);" ++ '\n' :: '\n' ::
            (dat "export default function createServer(\x7b" ++ '\n' ::
            (dat "  config," ++ '\n' :: (dat "\x7d: \x7b" ++ '\n' ::
            (dat "  config: z.infer<typeof configSchema>;" ++ '\n' ::
            (dat "\x7d) \x7b" ++ '\n' :: dat (cliMid p true)))))))))))
          ([] : List Char) ?_ ?_
        · simp [generateIndexTsTemplate, cliMid, generateConfigSchema,
            cfgNonempty, hcs, hk, hneCli2, hbc, dat_append, eCfgHead, eCfgTail,
            eCliCreate, eNl1, eNl2, eBrace1]
        · exact hmark
      · refine hasLine_trans_head _
          (generateCustomContainerImports p.includeBackwardCompatibility) _
          ('\n' :: (dat generateExpressSetup ++ '\n' :: '\n' ::
            (dat "// Configuration schema extracted from your existing server" ++
            '\n' :: (dat "export const configSchema = z.object(\x7b" ++ '\n' ::
            (dat (generateZodSchemaFromJson s) ++ '\n' ::
            (dat "\x7d);" ++ '\n' :: '\n' ::
            (dat ccConfigFunctions ++ '\n' :: '\n' ::
            (dat "export default function createServer(" ++ (dat "\x7b" ++ '\n' ::
            (dat "  config," ++ '\n' :: (dat "\x7d: \x7b" ++ '\n' ::
            (dat "  config: z.infer<typeof configSchema>;" ++ '\n' ::
            (dat "\x7d" ++ (dat ") \x7b" ++ '\n' :: (dat (ccMid p true) ++ '\n' ::
            (dat "\x7d" ++ '\n' :: '\n' ::
            (dat (generateMcpRequestHandler true) ++ '\n' :: '\n' ::
            (dat (generateCustomContainerMainFunction
                p.includeBackwardCompatibility true (some s)) ++
              ['\n'])))))))))))))))))) ?_ himpCc
        simp [generateCustomContainerTemplate, ccMid,
          generateCustomContainerConfigSchema, cfgNonempty, hcs, hk, hneCli2,
          hbc, dat_append, eCfgHead, eCfgTail, eCcCreate, eCcClose, eCcParam,
          eNl1, eNl2, eBrace2]
      · refine hasLine_trans _
          (generateCustomContainerMainFunction p.includeBackwardCompatibility
            true (some s)) _
          (dat (generateCustomContainerImports p.includeBackwardCompatibility) ++
            '\n' :: '\n' :: (dat generateExpressSetup ++ '\n' :: '\n' ::
            (dat "// Configuration schema extracted from your existing server" ++
            '\n' :: (dat "export const configSchema = z.object(\x7b" ++ '\n' ::
            (dat (generateZodSchemaFromJson s) ++ '\n' ::
            (dat "\x7d);" ++ '\n' :: '\n' ::
            (dat ccConfigFunctions ++ '\n' :: '\n' ::
            (dat "export default function createServer(" ++ (dat "\x7b" ++ '\n' ::
            (dat "  config," ++ '\n' :: (dat "\x7d: \x7b" ++ '\n' ::
            (dat "  config: z.infer<typeof configSchema>;" ++ '\n' ::
            (dat "\x7d" ++ (dat ") \x7b" ++ '\n' :: (dat (ccMid p true) ++ '\n' ::
            (dat "\x7d" ++ '\n' :: '\n' ::
            (dat (generateMcpRequestHandler true) ++ ['\n'])))))))))))))))))
          ([] : List Char) ?_ ?_
        · simp [generateCustomContainerTemplate, ccMid,
            generateCustomContainerConfigSchema, cfgNonempty, hcs, hk, hneCli2,
            hbc, dat_append, eCfgHead, eCfgTail, eCcCreate, eCcClose, eCcParam,
            eNl1, eNl2, eBrace2]
        · rw [hbc]
          refine hasLine_trans _
            "    // Create server with configuration\n    const server = createServer(\x7b config \x7d);\n\n    // Start receiving messages on stdin and sending messages on stdout\n    const stdioTransport = new StdioServerTransport();\n    await server.connect(stdioTransport);\n    console.error(\"MCP Server running in stdio mode\");\n  \x7d"
            _
            (dat "// Main function to start the server in the appropriate mode\nasync function main() \x7b\n  const transport = process.env.TRANSPORT || \x27stdio\x27;\n  \n  if (transport === \x27http\x27) \x7b\n    // Run in HTTP mode\n    app.listen(PORT, () => \x7b\n      console.log(`MCP HTTP Server listening on port $\x7bPORT\x7d`);\n    \x7d);\n  \x7d else \x7b\n    // Optional: if you need backward compatibility, add stdio transport\n    // Parse config from environment variables\n    " ++
              (dat (generateEnvConfigParsing (some s)) ++ ['\n']))
            (dat "\x7d\n\n// Start the server\nmain().catch((error) => \x7b\n  console.error(\"Server error:\", error);\n  process.exit(1);\n\x7d);")
            ?_ (by decide)
          simp [generateCustomContainerMainFunction, dat_append, eMfB, eMfE]
  · have e0 : generateEnvConfigParsing (some cfg) =
        "const config = configSchema.parse(\x7b\n" ++
          String.intercalate "\n" (props.map envLine) ++ "\n  \x7d);" := by
      simp only [generateEnvConfigParsing, hp]
    rw [e0]
    unfold linesOf
    rw [show dat ("const config = configSchema.parse(\x7b\n" ++
          String.intercalate "\n" (props.map envLine) ++ "\n  \x7d);") =
        dat "const config = configSchema.parse(\x7b" ++ '\n' ::
          (dat (String.intercalate "\n" (props.map envLine)) ++ '\n' ::
            dat "  \x7d);") from by
      simp [dat_append, eParse1, eParse2]]
    rw [splitLines_break, splitLines_break,
      splitLines_eq_single
        (show '\n' ∉ dat "const config = configSchema.parse(\x7b" by decide),
      splitLines_eq_single (show '\n' ∉ dat "  \x7d);" by decide)]
    have hmap : linesOf (String.intercalate "\n" (props.map envLine)) =
        (props.map envLine).map dat := by
      refine splitLines_intercalate _ ?_ ?_
      · intro l hl
        obtain ⟨kp, hkp, rfl⟩ := List.mem_map.1 hl
        exact hnl kp hkp
      · intro hmm
        exact hne (List.map_eq_nil_iff.mp hmm)
    rw [show splitLines (dat (String.intercalate "\n" (props.map envLine))) =
        (props.map envLine).map dat from hmap]
    simp [List.map_map, Function.comp]
  · intro kp _
    refine ⟨?_, ?_, ?_⟩
    · intro ht
      simp [envLine, ht, String.append_assoc]
      rw [show (": process.env." : String) = ": " ++ "process.env." from rfl]
      simp only [String.append_assoc]
    · intro ht
      rcases ht with ht | ht <;>
        (simp [envLine, ht, String.append_assoc]
         rw [show (": process.env." : String) = ": " ++ "process.env." from rfl,
           show (" ? Number(process.env." : String) =
               " ? Number(" ++ "process.env." from rfl]
         simp only [String.append_assoc])
    · intro h1 h2 h3
      simp [envLine, h1, h2, h3, String.append_assoc]
      rw [show (": process.env." : String) = ": " ++ "process.env." from rfl]
      simp only [String.append_assoc]

set_option maxRecDepth 40000 in
/-- C3 witness: at the concrete backward-compatible input the CLI-managed
TypeScript output contains the stdio transport import line. -/
theorem C3_backcompat_gating_witness :
    hasLine "import \x7b StdioServerTransport \x7d from \"@modelcontextprotocol/sdk/server/stdio.js\";"
      (generateIndexTsTemplate ⟨[], [], [], "srv", "1.0.0", true, none⟩) :=
  ((C3_backcompat_gating ⟨[], [], [], "srv", "1.0.0", true, none⟩
        ⟨some [("apiKey", ⟨some "string", none, none⟩)], [], []⟩
        [("apiKey", ⟨some "string", none, none⟩)] rfl
        (List.cons_ne_nil _ _) (by decide)).1 rfl).1

end MigrationGuide

